import Mathlib

/-!
# SkellateGameEngine: the SimpleGame input, state-machine and projectile code

A shallow embedding of `VulkanEngine - Revison 5/simple_game.cpp`,
`VulkanEngine - Revison 5/keyboard_movement_controller.cpp`,
`keyboard_movement_controller.hpp`, `simple_game.hpp` and `ve_game_object.hpp`.

Conventions of the embedding.

* A C++ `float`/`double` is a rational number (`ℚ`); infinities and NaN are not
  modelled.  Decimal literals such as `0.9f` are the rationals they denote (`9/10`).
  Arithmetic is exact, with two exceptions where the result of the code differs
  from the exact one by more than a rounding error of the last bit or where a strict
  bound depends on the rounding: the three operations of `glm::mod` round to
  binary32 (`roundFloat`), and the conversion of a `float` to `int` truncates
  (`floatToInt`).
* Functions of external libraries that have no rational counterpart (`sin`, `cos`,
  `glm::inversesqrt`, the constants `glm::two_pi`, `glm::half_pi`, and the place at
  which `std::unordered_map` puts a new entry in its iteration order) are fields of
  a parameter `Lib`.
* What GLFW reports on one frame (after `glfwPollEvents`) is a value `GLFWwindow`;
  the window's close flag is the field `windowShouldClose` of the game.
* Function-local `static` variables are fields of `Statics`.
* Console output (`std::cout`, `system("cls")`, `displayMenu`, `displayPauseMenu`,
  `displaySettings`) and rendering have no effect on the modelled state and are left
  out.  Which guarded blocks a frame executed is recorded in a `FrameLog` returned
  next to the new state.
-/

namespace lve

/-! ## Data model -/

/-- A `glm::vec3`. -/
structure Vec3 where
  x : ℚ
  y : ℚ
  z : ℚ
deriving DecidableEq, Repr

namespace Vec3

/-- Component-wise sum, `a + b`. -/
def add (a b : Vec3) : Vec3 := ⟨a.x + b.x, a.y + b.y, a.z + b.z⟩

/-- Component-wise difference, `a - b`. -/
def sub (a b : Vec3) : Vec3 := ⟨a.x - b.x, a.y - b.y, a.z - b.z⟩

/-- Scaling by a scalar, `v * k` and `k * v`. -/
def smul (k : ℚ) (v : Vec3) : Vec3 := ⟨k * v.x, k * v.y, k * v.z⟩

/-- The scalar product `glm::dot`. -/
def dot (a b : Vec3) : ℚ := a.x * b.x + a.y * b.y + a.z * b.z

end Vec3

/-- Library facilities without a rational counterpart, taken as parameters. -/
structure Lib where
  /-- `sin` of `<cmath>`. -/
  sin : ℚ → ℚ
  /-- `cos` of `<cmath>`. -/
  cos : ℚ → ℚ
  /-- `glm::inversesqrt`. -/
  inversesqrt : ℚ → ℚ
  /-- `glm::two_pi<float>()`. -/
  two_pi : ℚ
  /-- `glm::half_pi<float>()`. -/
  half_pi : ℚ
  /-- Where `std::unordered_map::emplace` places a new key in the iteration order,
  given the keys in their current iteration order (unspecified by the standard). -/
  slot : List Nat → Nat → Nat

/-- `glm::clamp(x, minVal, maxVal)`, which is `min(max(x, minVal), maxVal)`. -/
def clamp (x minVal maxVal : ℚ) : ℚ := min (max x minVal) maxVal

/-- Rounding of a number to the nearest integer, a tie to the even one. -/
def roundHalfEven (t : ℚ) : ℤ :=
  let f := ⌊t⌋
  if t - f < 1 / 2 then f
  else if 1 / 2 < t - f then f + 1
  else if f % 2 = 0 then f else f + 1

/-- The exponent of a non-zero number `x` as a binary32 number: the `e` with
`2^e ≤ |x| < 2^(e+1)`, and -126 for a smaller `|x|` (the subnormal numbers). -/
def floatExponent (x : ℚ) : ℤ := max (Int.log 2 |x|) (-126)

/-- The rounding of the exact result of an operation to a `float` (IEEE 754 binary32,
24 significant bits): to the nearest multiple of `2^(e-23)` for the exponent `e` of
`x`, a tie to the even multiple.  Overflow to infinity is not modelled. -/
def roundFloat (x : ℚ) : ℚ :=
  if x = 0 then 0
  else roundHalfEven (x / 2 ^ (floatExponent x - 23)) * 2 ^ (floatExponent x - 23)

/-- `glm::mod(x, y)` on `float`, which is `x - y * floor(x / y)`: the quotient, the
product and the difference are each rounded to `float`. -/
def mod (x y : ℚ) : ℚ := roundFloat (x - roundFloat (y * (⌊roundFloat (x / y)⌋ : ℤ)))

/-- `INT_MAX` of `<climits>`, for the 32-bit `int`. -/
def INT_MAX : Int := 2 ^ 31 - 1

/-- `INT_MIN` of `<climits>`, for the 32-bit `int`. -/
def INT_MIN : Int := -2 ^ 31

/-- The implicit conversion of a `float` to `int`: the fractional part is discarded
(truncation toward zero).  For a value whose truncation is outside the range of `int`
the conversion is undefined; the model takes `INT_MIN` there, which is what the x86-64
conversion instruction returns. -/
def floatToInt (x : ℚ) : Int :=
  let truncated : Int := if 0 ≤ x then ⌊x⌋ else ⌈x⌉
  if INT_MIN ≤ truncated ∧ truncated ≤ INT_MAX then truncated else INT_MIN

/-- The function `int abs(int)` of `<stdlib.h>`.  `abs(INT_MIN)` is undefined; the
model takes `INT_MIN` there, the result of the two's complement negation. -/
def intAbs (i : Int) : Int := if i = INT_MIN then INT_MIN else |i|

/-- `glm::normalize(v)`, which is `v * inversesqrt(dot(v, v))`. -/
def normalize (L : Lib) (v : Vec3) : Vec3 := Vec3.smul (L.inversesqrt (Vec3.dot v v)) v

/-- `std::numeric_limits<float>::epsilon()`, i.e. `2^-23`. -/
def epsilon : ℚ := 1 / 8388608

/-- The keyboard keys the program queries (`GLFW_KEY_*`). -/
inductive Key where
  | A | D | W | S | E | Q | SPACE | ESCAPE | P | ENTER | LEFT | RIGHT | UP | DOWN
deriving DecidableEq, Repr

/-- The mouse buttons (`GLFW_MOUSE_BUTTON_*`). -/
inductive MouseButton where
  | LEFT | RIGHT | MIDDLE
deriving DecidableEq, Repr

/-- What GLFW reports for the window on one frame: the keys and mouse buttons whose
state is `GLFW_PRESS`, and the cursor position. -/
structure GLFWwindow where
  keys : List Key
  buttons : List MouseButton
  cursorX : ℚ
  cursorY : ℚ

/-- The test `glfwGetKey(window, key) == GLFW_PRESS`. -/
def glfwGetKey (window : GLFWwindow) (key : Key) : Bool := decide (key ∈ window.keys)

/-- The test `glfwGetMouseButton(window, button) == GLFW_PRESS`. -/
def glfwGetMouseButton (window : GLFWwindow) (button : MouseButton) : Bool :=
  decide (button ∈ window.buttons)

/-- The struct `KeyboardMovementController::KeyMappings` with its default members. -/
structure KeyMappings where
  moveLeft : Key := Key.A
  moveRight : Key := Key.D
  moveForward : Key := Key.W
  moveBackward : Key := Key.S
  moveUp : Key := Key.E
  moveDown : Key := Key.Q
  jump : Key := Key.SPACE
  exitGame : Key := Key.ESCAPE
  shoot : MouseButton := MouseButton.LEFT
  pauseGame : Key := Key.P
  startGame : Key := Key.ENTER
  lookLeft : Key := Key.LEFT
  lookRight : Key := Key.RIGHT
  lookUp : Key := Key.UP
  lookDown : Key := Key.DOWN
deriving DecidableEq, Repr

/-- The data members of `KeyboardMovementController` with their default initialisers. -/
structure KeyboardMovementController where
  keys : KeyMappings := {}
  moveSpeed : ℚ := 3
  lookSpeed : ℚ := 3 / 2
  jumpSpeed : ℚ := 7
  projectileSpeed : ℚ := 20
  projectileGravity : ℚ := -15
  bounceDamping : ℚ := 7 / 10
  gravity : ℚ := -49 / 5
  groundLevel : ℚ := 0
  enableMouseLook : Bool := true
  mouseSensitivity : ℚ := 1 / 500
  lastMouseX : ℚ := 0
  lastMouseY : ℚ := 0
  firstMouse : Bool := true
  verticalVelocity : ℚ := 0
  isOnGround : Bool := false
  mouseButtonWasPressed : Bool := false
deriving DecidableEq, Repr

/-- Modelled from the spec: `ve_transform.hpp` (struct `TransformComponent`) is not
among the sources; the spec gives a transform a translation, a rotation (Euler
angles) and a scale, each a vec3.  A fresh transform has zero translation and
rotation and unit scale. -/
structure TransformComponent where
  translation : Vec3 := ⟨0, 0, 0⟩
  scale : Vec3 := ⟨1, 1, 1⟩
  rotation : Vec3 := ⟨0, 0, 0⟩
deriving DecidableEq, Repr

/-- The class `LveGameObject`: id, colour, transform and the optional shared mesh
(`std::shared_ptr<LveModel>`, `none` for `nullptr`; a mesh is named by a number). -/
structure LveGameObject where
  id : Nat
  color : Vec3 := ⟨0, 0, 0⟩
  transform : TransformComponent := {}
  model : Option Nat := none
deriving DecidableEq, Repr

/-- `LveGameObject::createGameObject`, on the value of its static `currentId`
(an `unsigned int`): the new object and the incremented counter. -/
def LveGameObject.createGameObject (currentId : Nat) : LveGameObject × Nat :=
  ({ id := currentId }, (currentId + 1) % 2 ^ 32)

/-- `LveGameObject::Map`, a `std::unordered_map<id_t, LveGameObject>`: its entries
in the order in which a range-for visits them. -/
abbrev Map := List (Nat × LveGameObject)

/-- `Map::emplace(key, object)`: nothing happens when the key is present, otherwise
the entry is added at the place the implementation chooses. -/
def Map.emplace (L : Lib) (m : Map) (key : Nat) (object : LveGameObject) : Map :=
  if key ∈ m.map Prod.fst then m
  else
    let n := L.slot (m.map Prod.fst) key
    m.take n ++ (key, object) :: m.drop n

/-- The enum class `GameState`. -/
inductive GameState where
  | MENU | PLAYING | PAUSED
deriving DecidableEq, Repr

/-- The enumerators of `SimpleGame::MenuOption`; a `MenuOption` value is held as its
underlying `int`. -/
def START_GAME : Int := 0

/-- The enumerator `MenuOption::SETTINGS`. -/
def SETTINGS : Int := 1

/-- The enumerator `MenuOption::EXIT`. -/
def EXIT : Int := 2

/-- The function-local `static` variables of the program. -/
structure Statics where
  /-- `currentId` of `LveGameObject::createGameObject`. -/
  currentId : Nat := 0
  /-- `jumpKeyWasPressed` of `KeyboardMovementController::moveInPlaneXZ`. -/
  jumpKeyWasPressed : Bool := false
  /-- `enterKeyWasPressed` of `SimpleGame::handleMenuInput`. -/
  menuEnterKeyWasPressed : Bool := false
  /-- `escapeKeyWasPressed` of `SimpleGame::handleMenuInput`. -/
  menuEscapeKeyWasPressed : Bool := false
  /-- `upKeyWasPressed` of `SimpleGame::handleMenuInput`. -/
  menuUpKeyWasPressed : Bool := false
  /-- `downKeyWasPressed` of `SimpleGame::handleMenuInput`. -/
  menuDownKeyWasPressed : Bool := false
  /-- `pauseKeyWasPressed` of `SimpleGame::handleGameInput`. -/
  gamePauseKeyWasPressed : Bool := false
  /-- `escapeKeyWasPressed` of `SimpleGame::handleGameInput`. -/
  gameEscapeKeyWasPressed : Bool := false
deriving DecidableEq, Repr

/-- The data members of `SimpleGame` that input handling and simulation read or
write, the window's close flag and the static variables. -/
structure SimpleGame where
  gameObjects : Map
  projectiles : Map
  menuObjects : Map
  viewerObject : LveGameObject
  weaponObject : LveGameObject
  cameraController : KeyboardMovementController := {}
  projectileModel : Option Nat
  weaponModel : Option Nat
  menuCubeModel : Option Nat
  gameState : GameState := GameState.MENU
  selectedMenuOption : Int := START_GAME
  inSettings : Bool := false
  /-- The close flag of the window, `lveWindow.shouldClose()`. -/
  windowShouldClose : Bool := false
  statics : Statics := {}

/-- Which guarded blocks and calls one frame executed (a record kept beside the
state; the program itself prints a message at most of these places). -/
structure FrameLog where
  /-- `handleMenuInput` was called. -/
  calledHandleMenuInput : Bool := false
  /-- `handleGameInput` was called. -/
  calledHandleGameInput : Bool := false
  /-- `moveInPlaneXZ` was called. -/
  calledMoveInPlaneXZ : Bool := false
  /-- `updateWeapon` was called. -/
  calledUpdateWeapon : Bool := false
  /-- `handleShooting` was called. -/
  calledHandleShooting : Bool := false
  /-- `updateProjectiles` was called. -/
  calledUpdateProjectiles : Bool := false
  /-- The body of `if (upKeyPressed && !upKeyWasPressed)` ran. -/
  upKeyDown : Bool := false
  /-- The body of `if (downKeyPressed && !downKeyWasPressed)` ran. -/
  downKeyDown : Bool := false
  /-- `handleMenuInput` read the Enter key on this frame. -/
  enterSampled : Bool := false
  /-- The body of `if (enterKeyPressed && !enterKeyWasPressed)` ran (menu select or
  resume). -/
  enterKeyDown : Bool := false
  /-- The body of `if (escapeKeyPressed && !escapeKeyWasPressed)` of
  `handleMenuInput` ran. -/
  menuEscapeKeyDown : Bool := false
  /-- The body of `if (pauseKeyPressed && !pauseKeyWasPressed)` ran. -/
  pauseKeyDown : Bool := false
  /-- The body of `if (escapeKeyPressed && !escapeKeyWasPressed)` of
  `handleGameInput` ran. -/
  gameEscapeKeyDown : Bool := false
  /-- `moveInPlaneXZ` read the jump key on this frame. -/
  jumpSampled : Bool := false
  /-- The value of `isOnGround` at the jump test of this frame. -/
  jumpOnGround : Bool := false
  /-- The body of `if (jumpKeyPressed && !jumpKeyWasPressed && isOnGround)` ran. -/
  jumped : Bool := false
  /-- `shouldShoot` returned true and a projectile was spawned. -/
  shot : Bool := false
deriving DecidableEq, Repr

/-! ## SimpleGame::handleMenuInput -/

/-- `SimpleGame::handleMenuInput` (simple_game.cpp, lines 557-638).  Each variable
the function assigns is followed through its successive values; the game is put
together from the final values at the end of each branch. -/
def SimpleGame.handleMenuInput (g : SimpleGame) (window : GLFWwindow) :
    SimpleGame × FrameLog :=
  if g.inSettings then
    -- Handle settings menu
    let escapeKeyPressed := glfwGetKey window Key.ESCAPE
    let escapeDown := escapeKeyPressed && !g.statics.menuEscapeKeyWasPressed
    ({ g with
       inSettings := if escapeDown then false else g.inSettings
       statics := { g.statics with menuEscapeKeyWasPressed := escapeKeyPressed } },
     { calledHandleMenuInput := true
       menuEscapeKeyDown := escapeDown })
  else if g.gameState = GameState.MENU then
    -- Handle menu navigation
    let upKeyPressed := glfwGetKey window Key.W || glfwGetKey window Key.UP
    let downKeyPressed := glfwGetKey window Key.S || glfwGetKey window Key.DOWN
    let upDown := upKeyPressed && !g.statics.menuUpKeyWasPressed
    let selected1 :=
      if upDown then Int.tmod (g.selectedMenuOption - 1 + 3) 3 else g.selectedMenuOption
    let downDown := downKeyPressed && !g.statics.menuDownKeyWasPressed
    let selected2 := if downDown then Int.tmod (selected1 + 1) 3 else selected1
    -- Handle menu selection
    let enterKeyPressed := glfwGetKey window Key.ENTER
    let enterDown := enterKeyPressed && !g.statics.menuEnterKeyWasPressed
    -- the cases of `switch (selectedMenuOption)`
    let caseStart := enterDown && decide (selected2 = START_GAME)
    let caseSettings := enterDown && decide (selected2 = SETTINGS)
    let caseExit := enterDown && decide (selected2 = EXIT)
    ({ g with
       selectedMenuOption := selected2
       gameState := if caseStart then GameState.PLAYING else g.gameState
       viewerObject :=
         if caseStart then
           -- Reset camera position for game start
           { g.viewerObject with
             transform :=
               { g.viewerObject.transform with
                 translation := ⟨0, -5 / 2, -5⟩
                 rotation := ⟨0, 0, 0⟩ } }
         else g.viewerObject
       inSettings := if caseSettings then true else g.inSettings
       windowShouldClose := if caseExit then true else g.windowShouldClose
       statics :=
         { g.statics with
           menuUpKeyWasPressed := upKeyPressed
           menuDownKeyWasPressed := downKeyPressed
           menuEnterKeyWasPressed := enterKeyPressed } },
     { calledHandleMenuInput := true
       upKeyDown := upDown
       downKeyDown := downDown
       enterSampled := true
       enterKeyDown := enterDown })
  else if g.gameState = GameState.PAUSED then
    -- Handle pause menu
    let enterKeyPressed := glfwGetKey window Key.ENTER
    let enterDown := enterKeyPressed && !g.statics.menuEnterKeyWasPressed
    let state1 := if enterDown then GameState.PLAYING else g.gameState
    let escapeKeyPressed := glfwGetKey window Key.ESCAPE
    let escapeDown := escapeKeyPressed && !g.statics.menuEscapeKeyWasPressed
    let state2 := if escapeDown then GameState.MENU else state1
    ({ g with
       gameState := state2
       statics :=
         { g.statics with
           menuEnterKeyWasPressed := enterKeyPressed
           menuEscapeKeyWasPressed := escapeKeyPressed } },
     { calledHandleMenuInput := true
       enterSampled := true
       enterKeyDown := enterDown
       menuEscapeKeyDown := escapeDown })
  else (g, { calledHandleMenuInput := true })

/-! ## KeyboardMovementController -/

/-- What a call of `moveInPlaneXZ` leaves behind: the controller, its static
`jumpKeyWasPressed`, the game object passed by reference, whether
`glfwSetWindowShouldClose(window, GLFW_TRUE)` was called, and the record of the
jump test. -/
structure MoveResult where
  controller : KeyboardMovementController
  jumpKeyWasPressed : Bool
  gameObject : LveGameObject
  closeRequested : Bool
  jumpSampled : Bool
  jumpOnGround : Bool
  jumped : Bool

/-- `KeyboardMovementController::moveInPlaneXZ`
(keyboard_movement_controller.cpp, lines 9-99).  Each variable the function assigns
is followed through its successive values. -/
def KeyboardMovementController.moveInPlaneXZ (L : Lib) (c : KeyboardMovementController)
    (jumpKeyWasPressed : Bool) (window : GLFWwindow) (dt : ℚ) (gameObject : LveGameObject) :
    MoveResult :=
  -- Handle escape key to exit game
  if glfwGetKey window c.keys.exitGame then
    { controller := c
      jumpKeyWasPressed := jumpKeyWasPressed
      gameObject := gameObject
      closeRequested := true
      jumpSampled := false
      jumpOnGround := false
      jumped := false }
  else
    -- Mouse look
    let mouseX := window.cursorX
    let mouseY := window.cursorY
    let lastX := if c.firstMouse then mouseX else c.lastMouseX
    let lastY := if c.firstMouse then mouseY else c.lastMouseY
    let deltaX := mouseX - lastX
    let deltaY := mouseY - lastY
    let rot0 := gameObject.transform.rotation
    let rot1 : Vec3 :=
      if c.enableMouseLook then
        ⟨rot0.x - deltaY * c.mouseSensitivity, rot0.y + deltaX * c.mouseSensitivity, rot0.z⟩
      else rot0
    -- Limit pitch values, wrap yaw
    let rot2 : Vec3 := ⟨clamp rot1.x (-3 / 2) (3 / 2), mod rot1.y L.two_pi, rot1.z⟩
    let yaw := rot2.y
    let forwardDir : Vec3 := ⟨L.sin yaw, 0, L.cos yaw⟩
    let rightDir : Vec3 := ⟨forwardDir.z, 0, -forwardDir.x⟩
    let upDir : Vec3 := ⟨0, -1, 0⟩
    -- Horizontal movement
    let m0 : Vec3 := ⟨0, 0, 0⟩
    let m1 := if glfwGetKey window c.keys.moveForward then m0.add forwardDir else m0
    let m2 := if glfwGetKey window c.keys.moveBackward then m1.sub forwardDir else m1
    let m3 := if glfwGetKey window c.keys.moveRight then m2.add rightDir else m2
    let moveDir := if glfwGetKey window c.keys.moveLeft then m3.sub rightDir else m3
    let t0 := gameObject.transform.translation
    let t1 :=
      if Vec3.dot moveDir moveDir > epsilon then
        t0.add (Vec3.smul (c.moveSpeed * dt) (normalize L moveDir))
      else t0
    -- Simple ground collision detection
    let onGround1 := decide (t1.y ≥ c.groundLevel)
    let t2 : Vec3 := if onGround1 then ⟨t1.x, c.groundLevel, t1.z⟩ else t1
    let vv1 := if onGround1 then 0 else c.verticalVelocity
    -- Jump if on ground and space is pressed
    let jumpKeyPressed := glfwGetKey window c.keys.jump
    let jumpNow := jumpKeyPressed && !jumpKeyWasPressed && onGround1
    let vv2 := if jumpNow then c.jumpSpeed else vv1
    let onGround2 := if jumpNow then false else onGround1
    -- Apply gravity
    let vv3 := if !onGround2 then vv2 + c.gravity * dt else vv2
    -- Apply vertical movement
    let t3 : Vec3 := ⟨t2.x, t2.y - vv3 * dt, t2.z⟩
    -- Manual up/down movement
    let upPressed := glfwGetKey window c.keys.moveUp
    let t4 := if upPressed then t3.add (Vec3.smul dt (Vec3.smul c.moveSpeed upDir)) else t3
    let vv4 := if upPressed then 0 else vv3
    let downPressed := glfwGetKey window c.keys.moveDown
    let t5 := if downPressed then t4.sub (Vec3.smul dt (Vec3.smul c.moveSpeed upDir)) else t4
    let vv5 := if downPressed then 0 else vv4
    { controller :=
        { c with
          lastMouseX := if c.enableMouseLook then mouseX else c.lastMouseX
          lastMouseY := if c.enableMouseLook then mouseY else c.lastMouseY
          firstMouse := if c.enableMouseLook then false else c.firstMouse
          verticalVelocity := vv5
          isOnGround := onGround2 }
      jumpKeyWasPressed := jumpKeyPressed
      gameObject :=
        { gameObject with
          transform := { gameObject.transform with translation := t5, rotation := rot2 } }
      closeRequested := false
      jumpSampled := true
      jumpOnGround := onGround1
      jumped := jumpNow }

/-- `KeyboardMovementController::shouldShoot`
(keyboard_movement_controller.cpp, lines 101-106): the returned value and the
controller after the call. -/
def KeyboardMovementController.shouldShoot (c : KeyboardMovementController)
    (window : GLFWwindow) : Bool × KeyboardMovementController :=
  let mouseButtonPressed := glfwGetMouseButton window c.keys.shoot
  let shouldShootNow := mouseButtonPressed && !c.mouseButtonWasPressed
  (shouldShootNow, { c with mouseButtonWasPressed := mouseButtonPressed })

/-- `KeyboardMovementController::getShootDirection`
(keyboard_movement_controller.cpp, lines 108-119). -/
def KeyboardMovementController.getShootDirection (L : Lib) (gameObject : LveGameObject) :
    Vec3 :=
  let yaw := gameObject.transform.rotation.y
  let pitch := gameObject.transform.rotation.x
  normalize L ⟨L.cos pitch * L.sin yaw, -L.sin pitch, L.cos pitch * L.cos yaw⟩

/-- The successive results of `shouldShoot` when it is called once on each window
sample of the list, in order. -/
def shouldShootCalls (c : KeyboardMovementController) : List GLFWwindow → List Bool
  | [] => []
  | window :: rest => (c.shouldShoot window).1 :: shouldShootCalls (c.shouldShoot window).2 rest

/-! ## SimpleGame: weapon, shooting, projectiles -/

/-- `SimpleGame::updateWeapon` (simple_game.cpp, lines 437-465). -/
def SimpleGame.updateWeapon (L : Lib) (g : SimpleGame) : SimpleGame :=
  let yaw := g.viewerObject.transform.rotation.y
  let pitch := g.viewerObject.transform.rotation.x
  let forward : Vec3 := ⟨L.cos pitch * L.sin yaw, -L.sin pitch, L.cos pitch * L.cos yaw⟩
  let right : Vec3 := ⟨L.sin (yaw + L.half_pi), 0, L.cos (yaw + L.half_pi)⟩
  let up : Vec3 := ⟨0, -1, 0⟩
  { g with
    weaponObject :=
      { g.weaponObject with
        transform :=
          { translation :=
              ((g.viewerObject.transform.translation.add (Vec3.smul (4 / 5) forward)).add
                (Vec3.smul (1 / 4) right)).add (Vec3.smul (3 / 20) up)
            scale := ⟨1, 1, 1⟩
            rotation := g.viewerObject.transform.rotation } } }

/-- `SimpleGame::handleShooting` (simple_game.cpp, lines 467-489): the game after
the call and whether a projectile was fired. -/
def SimpleGame.handleShooting (L : Lib) (g : SimpleGame) (window : GLFWwindow) :
    SimpleGame × Bool :=
  let r := g.cameraController.shouldShoot window
  if r.1 then
    -- Create a new projectile
    let created := LveGameObject.createGameObject g.statics.currentId
    -- Get shooting direction from camera
    let shootDirection := KeyboardMovementController.getShootDirection L g.viewerObject
    let projectile : LveGameObject :=
      { created.1 with
        model := g.projectileModel
        color := ⟨1, 1, 1⟩
        transform :=
          { translation :=
              g.weaponObject.transform.translation.add (Vec3.smul (1 / 2) shootDirection)
            scale := ⟨1 / 20, 1 / 20, 1 / 20⟩
            -- Store velocity in rotation components
            rotation := Vec3.smul r.2.projectileSpeed shootDirection } }
    ({ g with
       cameraController := r.2
       statics := { g.statics with currentId := created.2 }
       projectiles := Map.emplace L g.projectiles projectile.id projectile }, true)
  else ({ g with cameraController := r.2 }, false)

/-- The test of simple_game.cpp, lines 533-535: the position lies within the
object's translation plus/minus its scale on the x, z and y axes, bounds included. -/
def withinBounds (projPos objPos objScale : Vec3) : Bool :=
  decide (projPos.x ≥ objPos.x - objScale.x) && decide (projPos.x ≤ objPos.x + objScale.x) &&
  decide (projPos.z ≥ objPos.z - objScale.z) && decide (projPos.z ≤ objPos.z + objScale.z) &&
  decide (projPos.y ≥ objPos.y - objScale.y) && decide (projPos.y ≤ objPos.y + objScale.y)

/-- The loop over `gameObjects` in `updateProjectiles` (simple_game.cpp, lines
523-546) for one projectile at `projPos` with the given velocity: the velocity after
the loop and the final value of `hitPlatform`.  The loop stops (`break`) at the
first object with a mesh whose bounds contain the position.  `simple_game.cpp`
includes no header that declares `abs` for `float` in the global namespace (with
g++ and libstdc++ `<cmath>`, reached through `<glm/glm.hpp>`, declares those overloads
in `std` only), so the call `abs(velocity.y)` of line 538 is `int abs(int)`. -/
def collideWithObjects (c : KeyboardMovementController) (projPos : Vec3) :
    Map → Vec3 → Vec3 × Bool
  | [], velocity => (velocity, false)
  | (_, obj) :: rest, velocity =>
    if obj.model.isSome then
      if withinBounds projPos obj.transform.translation obj.transform.scale then
        -- Bounce off object surface: the unqualified `abs` is `int abs(int)`, so
        -- `velocity.y` is converted to `int` and the result back to `float`
        (⟨velocity.x * (4 / 5), (intAbs (floatToInt velocity.y) : ℚ) * c.bounceDamping,
          velocity.z * (4 / 5)⟩, true)
      else collideWithObjects c projPos rest velocity
    else collideWithObjects c projPos rest velocity

/-- What one pass of the body of the outer loop of `updateProjectiles` does to a
projectile: the projectile afterwards, whether the ground branch ran and the final
value of `hitPlatform`. -/
structure ProjectileStep where
  projectile : LveGameObject
  bounced : Bool
  hitPlatform : Bool

/-- The body of the outer loop of `SimpleGame::updateProjectiles`
(simple_game.cpp, lines 493-551) for one projectile. -/
def updateProjectile (c : KeyboardMovementController) (gameObjects : Map) (dt : ℚ)
    (projectile : LveGameObject) : ProjectileStep :=
  -- Get velocity from rotation components
  let v0 := projectile.transform.rotation
  -- Apply gravity to Y velocity
  let v1 : Vec3 := ⟨v0.x, v0.y + c.projectileGravity * dt, v0.z⟩
  -- Update position
  let p1 := projectile.transform.translation.add (Vec3.smul dt v1)
  -- Ground collision detection
  let groundY := c.groundLevel
  let bounced := decide (p1.y ≤ groundY)
  let p2 : Vec3 := if bounced then ⟨p1.x, groundY, p1.z⟩ else p1
  let v2 : Vec3 :=
    if bounced then ⟨v1.x * (9 / 10), -v1.y * c.bounceDamping, v1.z * (9 / 10)⟩ else v1
  -- Simple collision with platforms/objects
  let hit := collideWithObjects c p2 gameObjects v2
  -- Store updated velocity back
  { projectile :=
      { projectile with
        transform := { projectile.transform with translation := p2, rotation := hit.1 } }
    bounced := bounced
    hitPlatform := hit.2 }

/-- `SimpleGame::updateProjectiles` (simple_game.cpp, lines 491-555). -/
def SimpleGame.updateProjectiles (g : SimpleGame) (dt : ℚ) : SimpleGame :=
  { g with
    projectiles :=
      g.projectiles.map fun kv =>
        (kv.1, (updateProjectile g.cameraController g.gameObjects dt kv.2).projectile) }

/-! ## SimpleGame::handleGameInput, updateMenuVisuals and the loop of run -/

/-- `SimpleGame::handleGameInput` (simple_game.cpp, lines 640-675). -/
def SimpleGame.handleGameInput (L : Lib) (g : SimpleGame) (window : GLFWwindow)
    (frameTime : ℚ) : SimpleGame × FrameLog :=
  -- Check for pause (P)
  let pauseKeyPressed := glfwGetKey window g.cameraController.keys.pauseGame
  let pauseDown := pauseKeyPressed && !g.statics.gamePauseKeyWasPressed
  let state1 := if pauseDown then GameState.PAUSED else g.gameState
  -- Check for exit to menu (ESC)
  let escapeKeyPressed := glfwGetKey window g.cameraController.keys.exitGame
  let escapeDown := escapeKeyPressed && !g.statics.gameEscapeKeyWasPressed
  let state2 := if escapeDown then GameState.MENU else state1
  let g1 : SimpleGame :=
    { g with
      gameState := state2
      statics :=
        { g.statics with
          gamePauseKeyWasPressed := pauseKeyPressed
          gameEscapeKeyWasPressed := escapeKeyPressed } }
  -- Normal game input when playing
  if state2 = GameState.PLAYING then
    -- Update camera
    let mv :=
      g1.cameraController.moveInPlaneXZ L g1.statics.jumpKeyWasPressed window frameTime
        g1.viewerObject
    let g2 : SimpleGame :=
      { g1 with
        cameraController := mv.controller
        viewerObject := mv.gameObject
        windowShouldClose := g1.windowShouldClose || mv.closeRequested
        statics := { g1.statics with jumpKeyWasPressed := mv.jumpKeyWasPressed } }
    -- Update weapon position
    let g3 := g2.updateWeapon L
    -- Handle shooting
    let sh := g3.handleShooting L window
    -- Update projectiles
    let g4 := sh.1.updateProjectiles frameTime
    (g4,
     { calledHandleGameInput := true
       pauseKeyDown := pauseDown
       gameEscapeKeyDown := escapeDown
       calledMoveInPlaneXZ := true
       calledUpdateWeapon := true
       calledHandleShooting := true
       calledUpdateProjectiles := true
       jumpSampled := mv.jumpSampled
       jumpOnGround := mv.jumpOnGround
       jumped := mv.jumped
       shot := sh.2 })
  else
    (g1,
     { calledHandleGameInput := true
       pauseKeyDown := pauseDown
       gameEscapeKeyDown := escapeDown })

/-- The conversion `int menuId = kv.first` of an `unsigned int` key. -/
def menuIdOfKey (key : Nat) : Int := if key < 2 ^ 31 then (key : Int) else (key : Int) - 2 ^ 32

/-- The body of the loop of `SimpleGame::updateMenuVisuals` (simple_game.cpp, lines
845-871) for one entry of `menuObjects`; `time` is the value of `glfwGetTime()`. -/
def updateMenuVisual (L : Lib) (selectedMenuOption : Int) (time : ℚ)
    (kv : Nat × LveGameObject) : Nat × LveGameObject :=
  let obj := kv.2
  let menuId := menuIdOfKey kv.1
  -- Only update menu option cubes (IDs 0, 1, 2)
  if menuId < 3 then
    if menuId = selectedMenuOption then
      -- Selected item - larger and brighter
      let pulse := 1 / 2 + 3 / 10 * L.sin (time * 3)
      let color : Vec3 :=
        if menuId = 0 then ⟨1 / 5 * pulse, 1 * pulse, 1 / 5 * pulse⟩
        else if menuId = 1 then ⟨1 / 5 * pulse, 1 / 5 * pulse, 1 * pulse⟩
        else if menuId = 2 then ⟨1 * pulse, 1 / 5 * pulse, 1 / 5 * pulse⟩
        else obj.color
      (kv.1, { obj with transform := { obj.transform with scale := ⟨5 / 2, 2 / 5, 3 / 5⟩ },
                        color := color })
    else
      -- Unselected item - normal size and dimmer
      let color : Vec3 :=
        if menuId = 0 then ⟨1 / 10, 2 / 5, 1 / 10⟩
        else if menuId = 1 then ⟨1 / 10, 1 / 10, 2 / 5⟩
        else if menuId = 2 then ⟨2 / 5, 1 / 10, 1 / 10⟩
        else obj.color
      (kv.1, { obj with transform := { obj.transform with scale := ⟨2, 3 / 10, 1 / 2⟩ },
                        color := color })
  else kv

/-- `SimpleGame::updateMenuVisuals` (simple_game.cpp, lines 841-872). -/
def SimpleGame.updateMenuVisuals (L : Lib) (g : SimpleGame) (time : ℚ) : SimpleGame :=
  { g with menuObjects := g.menuObjects.map (updateMenuVisual L g.selectedMenuOption time) }

/-- What one iteration of the loop of `run` receives from outside: the polled window
state, the time since the previous iteration and the value of `glfwGetTime()`. -/
structure Frame where
  window : GLFWwindow
  elapsed : ℚ
  time : ℚ

/-- The input-handling part of one iteration of the loop of `SimpleGame::run`
(simple_game.cpp, lines 56-87): the frame time is limited to 0.25 and the handler is
chosen by the game state. -/
def SimpleGame.runFrame (L : Lib) (g : SimpleGame) (f : Frame) : SimpleGame × FrameLog :=
  let frameTime := min f.elapsed (1 / 4)
  match g.gameState with
  | GameState.MENU =>
    let r := g.handleMenuInput f.window
    (r.1.updateMenuVisuals L f.time, r.2)
  | GameState.PLAYING => g.handleGameInput L f.window frameTime
  | GameState.PAUSED => g.handleMenuInput f.window

/-- The loop of `SimpleGame::run` over the given frames: it stops when the window's
close flag is set or the frames are used up.  The result is the final game and the
log of every iteration that ran. -/
def SimpleGame.run (L : Lib) : SimpleGame → List Frame → SimpleGame × List FrameLog
  | g, [] => (g, [])
  | g, f :: rest =>
    if g.windowShouldClose then (g, [])
    else
      let r := g.runFrame L f
      let tail := SimpleGame.run L r.1 rest
      (tail.1, r.2 :: tail.2)

/-! ## Construction of the game -/

/-- One object of `loadGameObjects`: `createGameObject`, the assignments to its
model, translation, scale, rotation and colour, and
`gameObjects.emplace(object.getId(), std::move(object))`. -/
def SimpleGame.addGameObject (L : Lib) (g : SimpleGame) (model : Option Nat)
    (translation scale rotation color : Vec3) : SimpleGame :=
  let created := LveGameObject.createGameObject g.statics.currentId
  let object : LveGameObject :=
    { created.1 with
      model := model
      color := color
      transform :=
        { created.1.transform with
          translation := translation, scale := scale, rotation := rotation } }
  { g with
    statics := { g.statics with currentId := created.2 }
    gameObjects := Map.emplace L g.gameObjects object.id object }

/-- One object of `createMenuObjects`: `createGameObject`, the assignments to its
model, translation, scale and colour, and `menuObjects.emplace(key, std::move(cube))`
with the literal key of the source. -/
def SimpleGame.addMenuObject (L : Lib) (g : SimpleGame) (key : Nat)
    (translation scale color : Vec3) : SimpleGame :=
  let created := LveGameObject.createGameObject g.statics.currentId
  let cube : LveGameObject :=
    { created.1 with
      model := g.menuCubeModel
      color := color
      transform := { created.1.transform with translation := translation, scale := scale } }
  { g with
    statics := { g.statics with currentId := created.2 }
    menuObjects := Map.emplace L g.menuObjects key cube }

/-- `SimpleGame::createMenuObjects` (simple_game.cpp, lines 774-839). -/
def SimpleGame.createMenuObjects (L : Lib) (g : SimpleGame) : SimpleGame :=
  let g := g.addMenuObject L 0 ⟨0, 1 / 2, 0⟩ ⟨2, 3 / 10, 1 / 2⟩ ⟨1 / 5, 4 / 5, 1 / 5⟩
  let g := g.addMenuObject L 1 ⟨0, 0, 0⟩ ⟨2, 3 / 10, 1 / 2⟩ ⟨1 / 5, 1 / 5, 4 / 5⟩
  let g := g.addMenuObject L 2 ⟨0, -1 / 2, 0⟩ ⟨2, 3 / 10, 1 / 2⟩ ⟨4 / 5, 1 / 5, 1 / 5⟩
  let g := g.addMenuObject L 10 ⟨-2, 3 / 2, 0⟩ ⟨3 / 10, 3 / 10, 3 / 10⟩ ⟨9 / 10, 9 / 10, 1 / 10⟩
  let g := g.addMenuObject L 11 ⟨-1, 3 / 2, 0⟩ ⟨3 / 10, 3 / 10, 3 / 10⟩ ⟨9 / 10, 9 / 10, 1 / 10⟩
  let g := g.addMenuObject L 12 ⟨0, 3 / 2, 0⟩ ⟨3 / 10, 3 / 10, 3 / 10⟩ ⟨9 / 10, 9 / 10, 1 / 10⟩
  let g := g.addMenuObject L 13 ⟨1, 3 / 2, 0⟩ ⟨3 / 10, 3 / 10, 3 / 10⟩ ⟨9 / 10, 9 / 10, 1 / 10⟩
  g.addMenuObject L 14 ⟨2, 3 / 2, 0⟩ ⟨3 / 10, 3 / 10, 3 / 10⟩ ⟨9 / 10, 9 / 10, 1 / 10⟩

/-- `SimpleGame::loadGameObjects` (simple_game.cpp, lines 96-206).  The meshes built
by `GeometryBuilder` are named 0 (projectile sphere), 1 (weapon cube), 2 (menu cube),
3 (cube) and 4 (floor plane); `glm::radians(90.0f)` is `half_pi`. -/
def SimpleGame.loadGameObjects (L : Lib) (g : SimpleGame) : SimpleGame :=
  let g := { g with projectileModel := some 0, weaponModel := some 1, menuCubeModel := some 2 }
  let cubeModel : Option Nat := some 3
  let zero : Vec3 := ⟨0, 0, 0⟩
  -- Platform corners
  let g := g.addGameObject L cubeModel ⟨-2, 2, -2⟩ ⟨3 / 2, 1 / 5, 3 / 2⟩ zero ⟨7 / 10, 7 / 10, 7 / 10⟩
  let g := g.addGameObject L cubeModel ⟨2, 2, -2⟩ ⟨3 / 2, 1 / 5, 3 / 2⟩ zero ⟨7 / 10, 7 / 10, 7 / 10⟩
  let g := g.addGameObject L cubeModel ⟨-2, 2, 2⟩ ⟨3 / 2, 1 / 5, 3 / 2⟩ zero ⟨7 / 10, 7 / 10, 7 / 10⟩
  let g := g.addGameObject L cubeModel ⟨2, 2, 2⟩ ⟨3 / 2, 1 / 5, 3 / 2⟩ zero ⟨7 / 10, 7 / 10, 7 / 10⟩
  -- Floating target platforms
  let g := g.addGameObject L cubeModel ⟨4, 1 / 2, 4⟩ ⟨1, 1 / 5, 1⟩ zero ⟨3 / 5, 4 / 5, 3 / 5⟩
  let g := g.addGameObject L cubeModel ⟨-4, 1, -3⟩ ⟨1, 1 / 5, 1⟩ zero ⟨4 / 5, 3 / 5, 3 / 5⟩
  -- Target cubes to shoot at
  let g := g.addGameObject L cubeModel ⟨3, 0, 1⟩ ⟨3 / 10, 3 / 10, 3 / 10⟩ zero ⟨1, 1 / 5, 1 / 5⟩
  let g := g.addGameObject L cubeModel ⟨-3, 0, -1⟩ ⟨3 / 10, 3 / 10, 3 / 10⟩ zero ⟨1 / 5, 1 / 5, 1⟩
  -- High target for shooting practice
  let g := g.addGameObject L cubeModel ⟨0, -2, 5⟩ ⟨2 / 5, 2 / 5, 2 / 5⟩ zero ⟨1, 1, 1 / 5⟩
  -- Ground plane
  let g := g.addGameObject L (some 4) ⟨0, 3, 0⟩ ⟨12, 1, 12⟩ ⟨L.half_pi, 0, 0⟩ ⟨3 / 10, 1 / 2, 3 / 10⟩
  -- Create visual menu objects
  g.createMenuObjects L

/-- The game as the constructor `SimpleGame::SimpleGame` leaves it (simple_game.hpp,
lines 64-91, and simple_game.cpp, lines 22-39) in a fresh process: the default member
initialisers (the viewer and the weapon take the first two ids), `loadGameObjects`,
and the assignments of the constructor body. -/
def SimpleGame.new (L : Lib) : SimpleGame :=
  let viewer := LveGameObject.createGameObject 0
  let weapon := LveGameObject.createGameObject viewer.2
  let g0 : SimpleGame :=
    { gameObjects := []
      projectiles := []
      menuObjects := []
      viewerObject := viewer.1
      weaponObject := weapon.1
      projectileModel := none
      weaponModel := none
      menuCubeModel := none
      statics := { currentId := weapon.2 } }
  let g := g0.loadGameObjects L
  { g with
    viewerObject :=
      { g.viewerObject with
        transform :=
          { g.viewerObject.transform with
            translation := ⟨0, -3 / 2, -3⟩, rotation := ⟨0, 0, 0⟩ } }
    weaponObject := { g.weaponObject with model := g.weaponModel, color := ⟨3 / 10, 3 / 10, 3 / 10⟩ } }

/-! ## Drawing: recreateSwapChain, recordCommandBuffer, drawFrame

The members of `SimpleGame` that drawing uses (the window size and resize flag, the
swap chain, the pipeline and the command buffers) are kept in a structure of their
own, `RenderState`.  What the Vulkan and GLFW calls of one `drawFrame` call return is
given by a `DrawInput`.  A call ends in one of three ways, an `Outcome`: it returns,
it throws a `std::runtime_error`, or it never returns from `glfwWaitEvents`. -/

/-- A `VkResult` code. -/
abbrev VkResult := Int

/-- The code `VK_SUCCESS`. -/
def VK_SUCCESS : VkResult := 0

/-- The code `VK_SUBOPTIMAL_KHR`. -/
def VK_SUBOPTIMAL_KHR : VkResult := 1000001003

/-- The code `VK_ERROR_OUT_OF_DATE_KHR`. -/
def VK_ERROR_OUT_OF_DATE_KHR : VkResult := -1000001004

/-- The code `VK_ERROR_DEVICE_LOST`, one of the codes that are none of the three
above. -/
def VK_ERROR_DEVICE_LOST : VkResult := -4

/-- A `VkExtent2D`. -/
structure VkExtent2D where
  width : Nat
  height : Nat
deriving DecidableEq, Repr

/-- The members `width`, `height` and `framebufferResized` of the class `ve_window`
(ve_window.hpp, lines 30-32). -/
structure ve_window where
  width : Nat
  height : Nat
  framebufferResized : Bool := false
deriving DecidableEq, Repr

/-- `ve_window::getExtent` (ve_window.hpp, line 19). -/
def ve_window.getExtent (w : ve_window) : VkExtent2D := ⟨w.width, w.height⟩

/-- `ve_window::wasWindowResized` (ve_window.hpp, line 20). -/
def ve_window.wasWindowResized (w : ve_window) : Bool := w.framebufferResized

/-- `ve_window::resetWindowResizedFlag` (ve_window.hpp, line 21). -/
def ve_window.resetWindowResizedFlag (w : ve_window) : ve_window :=
  { w with framebufferResized := false }

/-- `ve_window::framebufferResizeCallback` (ve_window.cpp, lines 35-41). -/
def ve_window.framebufferResizeCallback (_w : ve_window) (width height : Nat) : ve_window :=
  { width := width, height := height, framebufferResized := true }

/-- One call of `glfwPollEvents` or `glfwWaitEvents` that delivers the given
framebuffer-size events, in order, to the resize callback. -/
def ve_window.deliver (w : ve_window) (events : List (Nat × Nat)) : ve_window :=
  events.foldl (fun w e => w.framebufferResizeCallback e.1 e.2) w

/-- Modelled from the spec: `ve_swap_chain.hpp` (class `LveSwapChain`) is not among
the sources; the spec gives the swap-chain state a current image count and an extent
(its render pass, framebuffers and sync objects are left out). -/
structure LveSwapChain where
  imageCount : Nat
  extent : VkExtent2D
deriving DecidableEq, Repr

/-- The drawing members of `SimpleGame` (simple_game.hpp, lines 56-61): the window,
the swap chain (`none` for a null `unique_ptr`), the pipeline (recorded as the swap
chain whose render pass it was built for) and the size of the vector
`commandBuffers`. -/
structure RenderState where
  lveWindow : ve_window
  lveSwapChain : Option LveSwapChain := none
  lvePipeline : Option LveSwapChain := none
  commandBuffers : Nat := 0
deriving DecidableEq, Repr

/-- `SimpleGame::WIDTH` (simple_game.hpp, line 25). -/
def WIDTH : Nat := 900

/-- `SimpleGame::HEIGHT` (simple_game.hpp, line 26). -/
def HEIGHT : Nat := 660

/-- The member initialiser `ve_window lveWindow{WIDTH, HEIGHT, "Vulkan FPS Game!"}`
(simple_game.hpp, line 56): the window as constructed, before any resize event. -/
def SimpleGame.lveWindow : ve_window :=
  { width := WIDTH, height := HEIGHT }

/-- The places where drawing throws a `std::runtime_error`: the four of `drawFrame`
and `recordCommandBuffer`, the one of `createCommandBuffers`, and the construction of
the swap chain and of the pipeline. -/
inductive Failure where
  /-- "failed to acquire swap chain image!" -/
  | acquireSwapChainImage
  /-- "failed to begin recording command buffer!" -/
  | beginRecording
  /-- "failed to record command buffer!" -/
  | endRecording
  /-- "failed to present swap chain image!" -/
  | presentSwapChainImage
  /-- "failed to allocate command buffers!" -/
  | allocateCommandBuffers
  /-- An error thrown by the constructor of `LveSwapChain`. -/
  | createSwapChain
  /-- An error thrown by the constructor of `vePipeline`. -/
  | createPipeline
deriving DecidableEq, Repr

/-- How a call ends: it returns a value, it throws, or it never returns. -/
inductive Outcome (α : Type) where
  | returned (value : α)
  | raised (failure : Failure)
  | blocked
deriving DecidableEq, Repr

/-- What the calls made by `recreateSwapChain` return: the framebuffer-size events
that each successive `glfwWaitEvents` delivers (when the list is used up the next
`glfwWaitEvents` never returns), whether the constructor of the new swap chain
succeeds and the image count it then has, the result of `vkAllocateCommandBuffers`,
and whether the constructor of the pipeline succeeds. -/
structure RecreateInput where
  waits : List (List (Nat × Nat)) := []
  swapChainBuilt : Bool := true
  imageCount : Nat
  allocateResult : VkResult := VK_SUCCESS
  pipelineBuilt : Bool := true

/-- The loop `while (extent.width == 0 || extent.height == 0)` of `recreateSwapChain`
(simple_game.cpp, lines 244-247): each pass reads the extent and then waits for
events.  The result is the window and the extent with which the loop is left, or
`none` when it is not left. -/
def waitForExtent : ve_window → VkExtent2D → List (List (Nat × Nat)) →
    Option (ve_window × VkExtent2D)
  | window, extent, [] =>
    if extent.width = 0 ∨ extent.height = 0 then none else some (window, extent)
  | window, extent, events :: rest =>
    if extent.width = 0 ∨ extent.height = 0 then
      waitForExtent (window.deliver events) window.getExtent rest
    else some (window, extent)

/-- `SimpleGame::recreateSwapChain` (simple_game.cpp, lines 242-262), with
`freeCommandBuffers`, `createCommandBuffers` (lines 264-286) and `createPipeline`
(lines 227-240) in place. -/
def RenderState.recreateSwapChain (r : RenderState) (env : RecreateInput) :
    Outcome RenderState :=
  match waitForExtent r.lveWindow r.lveWindow.getExtent env.waits with
  | none => Outcome.blocked
  | some (window, extent) =>
    if env.swapChainBuilt = false then Outcome.raised Failure.createSwapChain
    else
      let newChain : LveSwapChain := { imageCount := env.imageCount, extent := extent }
      -- `if (lveSwapChain->imageCount() != commandBuffers.size())`, in the else branch
      let reallocate := r.lveSwapChain.isSome && decide (newChain.imageCount ≠ r.commandBuffers)
      if reallocate && decide (env.allocateResult ≠ VK_SUCCESS) then
        Outcome.raised Failure.allocateCommandBuffers
      else if env.pipelineBuilt = false then Outcome.raised Failure.createPipeline
      else
        Outcome.returned
          { lveWindow := window
            lveSwapChain := some newChain
            lvePipeline := some newChain
            commandBuffers := if reallocate then newChain.imageCount else r.commandBuffers }

/-- One draw of `recordCommandBuffer`: `vkCmdPushConstants` with the transform
(`projection * view * transform.mat4()`, recorded as the transform) and the colour of
an object, then `bind` and `draw` of its model. -/
structure DrawCommand where
  transform : TransformComponent
  color : Vec3
  model : Nat
deriving DecidableEq, Repr

/-- The body of the drawing loops for one object: nothing for an object without a
model (`if (obj.model == nullptr) continue;`), else its draw. -/
def drawObject (obj : LveGameObject) : Option DrawCommand :=
  obj.model.map fun m => { transform := obj.transform, color := obj.color, model := m }

/-- A drawing loop `for (auto& kv : table)` of `recordCommandBuffer`. -/
def drawTable (table : Map) : List DrawCommand := table.filterMap fun kv => drawObject kv.2

/-- What a call of `recordCommandBuffer` did: the image index, the draws it issued, in
order, and the error it threw, if any. -/
structure Recording where
  imageIndex : Nat
  draws : List DrawCommand
  failure : Option Failure
deriving DecidableEq, Repr

/-- `SimpleGame::recordCommandBuffer` (simple_game.cpp, lines 315-435), given the
results of `vkBeginCommandBuffer` and `vkEndCommandBuffer`. -/
def SimpleGame.recordCommandBuffer (g : SimpleGame) (imageIndex : Nat)
    (beginResult endResult : VkResult) : Recording :=
  if beginResult ≠ VK_SUCCESS then
    { imageIndex := imageIndex, draws := [], failure := some Failure.beginRecording }
  else
    let draws : List DrawCommand :=
      if g.gameState = GameState.MENU then
        -- Render menu objects when in menu state
        drawTable g.menuObjects
      else if g.gameState = GameState.PLAYING ∨ g.gameState = GameState.PAUSED then
        -- Render game objects, projectiles, and the weapon only when playing
        drawTable g.gameObjects ++ drawTable g.projectiles ++
          (if g.gameState = GameState.PLAYING ∧ g.weaponObject.model ≠ none then
            (drawObject g.weaponObject).toList
          else [])
      else []
    { imageIndex := imageIndex
      draws := draws
      failure := if endResult ≠ VK_SUCCESS then some Failure.endRecording else none }

/-- What the calls made by one `drawFrame` call return: the result and image index of
`acquireNextImage`, the results of `vkBeginCommandBuffer` and `vkEndCommandBuffer`,
the result of `submitCommandBuffers` (which submits and presents), and the inputs of
`recreateSwapChain`, should it be called. -/
structure DrawInput where
  acquireResult : VkResult
  imageIndex : Nat
  beginResult : VkResult := VK_SUCCESS
  endResult : VkResult := VK_SUCCESS
  submitResult : VkResult
  recreate : RecreateInput

/-- The calls a `drawFrame` call made, in order. -/
inductive DrawEvent where
  | acquireNextImage
  | recordCommandBuffer (imageIndex : Nat) (draws : List DrawCommand)
  | submitCommandBuffers (imageIndex : Nat)
  | recreateSwapChain
deriving DecidableEq, Repr

/-- `SimpleGame::drawFrame` (simple_game.cpp, lines 288-313): how the call ends
(with the render state when it returns) and the calls it made. -/
def SimpleGame.drawFrame (g : SimpleGame) (r : RenderState) (inp : DrawInput) :
    Outcome RenderState × List DrawEvent :=
  if inp.acquireResult = VK_ERROR_OUT_OF_DATE_KHR then
    (r.recreateSwapChain inp.recreate, [DrawEvent.acquireNextImage, DrawEvent.recreateSwapChain])
  else if inp.acquireResult ≠ VK_SUCCESS ∧ inp.acquireResult ≠ VK_SUBOPTIMAL_KHR then
    (Outcome.raised Failure.acquireSwapChainImage, [DrawEvent.acquireNextImage])
  else
    let rec_ := g.recordCommandBuffer inp.imageIndex inp.beginResult inp.endResult
    if rec_.failure = some Failure.beginRecording then
      (Outcome.raised Failure.beginRecording, [DrawEvent.acquireNextImage])
    else if rec_.failure = some Failure.endRecording then
      (Outcome.raised Failure.endRecording,
        [DrawEvent.acquireNextImage, DrawEvent.recordCommandBuffer inp.imageIndex rec_.draws])
    else if inp.submitResult = VK_ERROR_OUT_OF_DATE_KHR ∨ inp.submitResult = VK_SUBOPTIMAL_KHR ∨
        r.lveWindow.wasWindowResized = true then
      ({ r with lveWindow := r.lveWindow.resetWindowResizedFlag }.recreateSwapChain inp.recreate,
        [DrawEvent.acquireNextImage, DrawEvent.recordCommandBuffer inp.imageIndex rec_.draws,
          DrawEvent.submitCommandBuffers inp.imageIndex, DrawEvent.recreateSwapChain])
    else if inp.submitResult ≠ VK_SUCCESS then
      (Outcome.raised Failure.presentSwapChainImage,
        [DrawEvent.acquireNextImage, DrawEvent.recordCommandBuffer inp.imageIndex rec_.draws,
          DrawEvent.submitCommandBuffers inp.imageIndex])
    else
      (Outcome.returned r,
        [DrawEvent.acquireNextImage, DrawEvent.recordCommandBuffer inp.imageIndex rec_.draws,
          DrawEvent.submitCommandBuffers inp.imageIndex])

/-- What one iteration of the loop of `run` brings to drawing: the game at the time of
the `drawFrame` call, the framebuffer-size events `glfwPollEvents` delivered at the
start of the iteration, and the inputs of the `drawFrame` call. -/
structure RenderFrame where
  game : SimpleGame
  polled : List (Nat × Nat) := []
  input : DrawInput

/-- The `drawFrame` calls of successive iterations of the loop of `run`: the calls stop
at the first one that does not return.  The result is how the last call ended and the
calls that each `drawFrame` made. -/
def drawFrames : RenderState → List RenderFrame → Outcome RenderState × List (List DrawEvent)
  | r, [] => (Outcome.returned r, [])
  | r, f :: rest =>
    match (f.game.drawFrame { r with lveWindow := r.lveWindow.deliver f.polled } f.input).1 with
    | Outcome.returned r1 =>
      ((drawFrames r1 rest).1,
        (f.game.drawFrame { r with lveWindow := r.lveWindow.deliver f.polled } f.input).2 ::
          (drawFrames r1 rest).2)
    | Outcome.raised failure =>
      (Outcome.raised failure,
        [(f.game.drawFrame { r with lveWindow := r.lveWindow.deliver f.polled } f.input).2])
    | Outcome.blocked =>
      (Outcome.blocked,
        [(f.game.drawFrame { r with lveWindow := r.lveWindow.deliver f.polled } f.input).2])

/-! ## Auxiliary definitions for the statements -/

/-- A concrete instance of the library parameters, for evaluating the definitions on
examples: constant `sin` and `cos` (those of angle 0), `inversesqrt` constant 1, the
rationals 6 and 3/2 for the two angle constants, new map entries placed last. -/
def sampleLib : Lib :=
  { sin := fun _ => 0
    cos := fun _ => 1
    inversesqrt := fun _ => 1
    two_pi := 6
    half_pi := 3 / 2
    slot := fun keys _ => keys.length }

/-- A window sample with the given keys and mouse buttons pressed and the cursor at
the origin. -/
def windowWith (keys : List Key) (buttons : List MouseButton) : GLFWwindow :=
  { keys := keys, buttons := buttons, cursorX := 0, cursorY := 0 }

/-- A frame with the given keys and mouse buttons pressed, 1/60 s after the previous
one. -/
def frameWith (keys : List Key) (buttons : List MouseButton) : Frame :=
  { window := windowWith keys buttons, elapsed := 1 / 60, time := 0 }

/-- Which of the two navigation key-downs `handleMenuInput` detects in its MENU
branch: Up (W or the Up arrow pressed, not pressed at its previous sample). -/
def upKeyDownDetected (g : SimpleGame) (window : GLFWwindow) : Bool :=
  (glfwGetKey window Key.W || glfwGetKey window Key.UP) && !g.statics.menuUpKeyWasPressed

/-- Down (S or the Down arrow pressed, not pressed at its previous sample). -/
def downKeyDownDetected (g : SimpleGame) (window : GLFWwindow) : Bool :=
  (glfwGetKey window Key.S || glfwGetKey window Key.DOWN) && !g.statics.menuDownKeyWasPressed

/-- The Enter key-down `handleMenuInput` detects in its MENU and PAUSED branches:
Enter pressed, not pressed at its previous sample. -/
def enterKeyDownDetected (g : SimpleGame) (window : GLFWwindow) : Bool :=
  glfwGetKey window Key.ENTER && !g.statics.menuEnterKeyWasPressed

/-- The Escape key-down `handleMenuInput` detects: Escape pressed, not pressed at its
previous sample. -/
def menuEscapeKeyDownDetected (g : SimpleGame) (window : GLFWwindow) : Bool :=
  glfwGetKey window Key.ESCAPE && !g.statics.menuEscapeKeyWasPressed

/-- The pause key-down `handleGameInput` detects: the pause key pressed, not pressed
at its previous sample. -/
def pauseKeyDownDetected (g : SimpleGame) (window : GLFWwindow) : Bool :=
  glfwGetKey window g.cameraController.keys.pauseGame && !g.statics.gamePauseKeyWasPressed

/-- The Menu-key (exit key, Escape) key-down `handleGameInput` detects: the key
pressed, not pressed at its previous sample. -/
def gameEscapeKeyDownDetected (g : SimpleGame) (window : GLFWwindow) : Bool :=
  glfwGetKey window g.cameraController.keys.exitGame && !g.statics.gameEscapeKeyWasPressed

/-- The freshly constructed game after a frame with Enter pressed: START_GAME was
selected, so the game is PLAYING. -/
def playingGame : SimpleGame :=
  ((SimpleGame.new sampleLib).runFrame sampleLib (frameWith [Key.ENTER] [])).1

/-- `playingGame` after a frame with P pressed and a frame with nothing pressed: the
game is PAUSED. -/
def pausedGame : SimpleGame :=
  ((playingGame.runFrame sampleLib (frameWith [Key.P] [])).1.runFrame sampleLib
    (frameWith [] [])).1

/-- The selected option after the navigation step of the MENU branch of
`handleMenuInput` (simple_game.cpp, lines 579-592): the Up shift, when an Up key-down
is detected, then the Down shift, when a Down key-down is detected. -/
def selectedAfterNavigation (g : SimpleGame) (window : GLFWwindow) : Int :=
  if downKeyDownDetected g window then
    Int.tmod ((if upKeyDownDetected g window then
      Int.tmod (g.selectedMenuOption - 1 + 3) 3 else g.selectedMenuOption) + 1) 3
  else (if upKeyDownDetected g window then
      Int.tmod (g.selectedMenuOption - 1 + 3) 3 else g.selectedMenuOption)

/-- Whether the fire button of the controller's key mapping is pressed in a window
sample. -/
def shootPressed (c : KeyboardMovementController) (window : GLFWwindow) : Bool :=
  glfwGetMouseButton window c.keys.shoot

/-- The sample before index `i` in a list of pressed/released samples: the sample at
`i - 1`, and `init` when `i` is the first index. -/
def prevSample (init : Bool) (samples : List Bool) (i : Nat) : Bool :=
  match i with
  | 0 => init
  | k + 1 => samples.getD k false

/-- An entity table holding the first target cube of `loadGameObjects`: mesh 3 at
(3, 0, 1) with scale 0.3 on every axis. -/
def sampleTargets : Map :=
  [(8, { id := 8, model := some 3, color := ⟨1, 1 / 5, 1 / 5⟩,
         transform := { translation := ⟨3, 0, 1⟩, scale := ⟨3 / 10, 3 / 10, 3 / 10⟩ } })]

/-- A projectile at the given position with the given velocity stored in its rotation
fields, as `handleShooting` builds it. -/
def projectileAt (position velocity : Vec3) : LveGameObject :=
  { id := 20, model := some 0, color := ⟨1, 1, 1⟩,
    transform := { translation := position, scale := ⟨1 / 20, 1 / 20, 1 / 20⟩,
                   rotation := velocity } }

/-- The four edge-triggered actions of the game loop. -/
inductive Action where
  | jump | fire | pause | menuSelect
deriving DecidableEq, Repr

/-- Whether the action's key (or button) is pressed in a window sample, under the
given key mapping: the jump key, the shoot button, the pause key, and Enter. -/
def Action.pressed (keys : KeyMappings) (a : Action) (window : GLFWwindow) : Bool :=
  match a with
  | Action.jump => glfwGetKey window keys.jump
  | Action.fire => glfwGetMouseButton window keys.shoot
  | Action.pause => glfwGetKey window keys.pauseGame
  | Action.menuSelect => glfwGetKey window Key.ENTER

/-- Whether the action fired on a frame: the body of its key-down test ran. -/
def Action.fired (a : Action) (log : FrameLog) : Bool :=
  match a with
  | Action.jump => log.jumped
  | Action.fire => log.shot
  | Action.pause => log.pauseKeyDown
  | Action.menuSelect => log.enterKeyDown

/-- Whether the code that detects the action read its key on a frame: the jump test of
`moveInPlaneXZ`, `shouldShoot` (called by `handleShooting`), the pause test of
`handleGameInput`, and the Enter tests of `handleMenuInput`. -/
def Action.sampled (a : Action) (log : FrameLog) : Bool :=
  match a with
  | Action.jump => log.jumpSampled
  | Action.fire => log.calledHandleShooting
  | Action.pause => log.calledHandleGameInput
  | Action.menuSelect => log.enterSampled

/-- The action's was-pressed flag: `jumpKeyWasPressed`, `mouseButtonWasPressed`,
`pauseKeyWasPressed` and `enterKeyWasPressed`. -/
def Action.flag (a : Action) (g : SimpleGame) : Bool :=
  match a with
  | Action.jump => g.statics.jumpKeyWasPressed
  | Action.fire => g.cameraController.mouseButtonWasPressed
  | Action.pause => g.statics.gamePauseKeyWasPressed
  | Action.menuSelect => g.statics.menuEnterKeyWasPressed

/-- The further condition of the action's key-down test: the jump test asks for
`isOnGround`; the other tests have none. -/
def Action.enabled (a : Action) (log : FrameLog) : Bool :=
  match a with
  | Action.jump => log.jumpOnGround
  | _ => true

/-- A render state as the constructor leaves it when the swap chain has two images:
the window of 900 by 660, the swap chain, the pipeline and two command buffers. -/
def sampleRender : RenderState :=
  { lveWindow := { width := 900, height := 660 }
    lveSwapChain := some { imageCount := 2, extent := ⟨900, 660⟩ }
    lvePipeline := some { imageCount := 2, extent := ⟨900, 660⟩ }
    commandBuffers := 2 }

/-- The inputs of a `drawFrame` call with the given results of `acquireNextImage` and
`submitCommandBuffers`, image index 0, a successful recording and a recreation that
succeeds with two images. -/
def drawInputWith (acquireResult submitResult : VkResult) : DrawInput :=
  { acquireResult := acquireResult
    imageIndex := 0
    submitResult := submitResult
    recreate := { imageCount := 2 } }

/-- Whether a call made by `drawFrame` is a `submitCommandBuffers`. -/
def DrawEvent.isSubmit : DrawEvent → Bool
  | DrawEvent.submitCommandBuffers _ => true
  | _ => false

/-- The calls of a `drawFrame` that acquires, records, submits and presents its frame
and does nothing else. -/
def normalEvents (f : RenderFrame) : List DrawEvent :=
  [DrawEvent.acquireNextImage,
    DrawEvent.recordCommandBuffer f.input.imageIndex
      (f.game.recordCommandBuffer f.input.imageIndex f.input.beginResult f.input.endResult).draws,
    DrawEvent.submitCommandBuffers f.input.imageIndex]

/-- A frame without resize event all of whose results are success. -/
def RenderFrame.allSuccess (f : RenderFrame) : Prop :=
  f.polled = [] ∧ f.input.acquireResult = VK_SUCCESS ∧ f.input.beginResult = VK_SUCCESS ∧
    f.input.endResult = VK_SUCCESS ∧ f.input.submitResult = VK_SUCCESS

/-- A frame without resize event with one out-of-date result, the acquire result or,
after a successful acquire and recording, the present result, and whose recreation
calls succeed. -/
def RenderFrame.oneOutOfDate (f : RenderFrame) : Prop :=
  f.polled = [] ∧
    (f.input.acquireResult = VK_ERROR_OUT_OF_DATE_KHR ∨
      (f.input.acquireResult = VK_SUCCESS ∧ f.input.beginResult = VK_SUCCESS ∧
        f.input.endResult = VK_SUCCESS ∧ f.input.submitResult = VK_ERROR_OUT_OF_DATE_KHR)) ∧
    f.input.recreate.swapChainBuilt = true ∧ f.input.recreate.pipelineBuilt = true ∧
    f.input.recreate.allocateResult = VK_SUCCESS

/-- The calls of the `drawFrame` of a frame with one out-of-date result: without
recording and submission when the acquire result is the out-of-date one. -/
def outOfDateEvents (f : RenderFrame) : List DrawEvent :=
  if f.input.acquireResult = VK_ERROR_OUT_OF_DATE_KHR then
    [DrawEvent.acquireNextImage, DrawEvent.recreateSwapChain]
  else normalEvents f ++ [DrawEvent.recreateSwapChain]

/-- A rendered frame of the freshly constructed game without resize event, with the
given results of `acquireNextImage` and `submitCommandBuffers`. -/
def renderFrameWith (acquireResult submitResult : VkResult) : RenderFrame :=
  { game := SimpleGame.new sampleLib
    input := drawInputWith acquireResult submitResult }

/-- The table obtained from the empty one by inserting the given entries, in this
order, with `Map::emplace`. -/
def Map.insertAll (L : Lib) (entries : List (Nat × LveGameObject)) : Map :=
  entries.foldl (fun m kv => Map.emplace L m kv.1 kv.2) []

/-- The entries of freshly created objects with the given ids, each under its id. -/
def spawned (ids : List Nat) : List (Nat × LveGameObject) :=
  ids.map fun i => (i, (LveGameObject.createGameObject i).1)

/-- The library parameters of `sampleLib`, except that a new map entry is placed first
in the iteration order. -/
def frontLib : Lib :=
  { sampleLib with slot := fun _ _ => 0 }

/-- The ids of the objects returned by `n` successive calls of
`LveGameObject::createGameObject`, the first of them made with its static counter at
`currentId`. -/
def createdIds : Nat → Nat → List Nat
  | _, 0 => []
  | currentId, n + 1 =>
    (LveGameObject.createGameObject currentId).1.id ::
      createdIds (LveGameObject.createGameObject currentId).2 n

/-- The vector `moveDir` that `moveInPlaneXZ` accumulates from the four direction keys
(keyboard_movement_controller.cpp, lines 43-54) at the given yaw. -/
def moveDirOf (L : Lib) (c : KeyboardMovementController) (window : GLFWwindow) (yaw : ℚ) :
    Vec3 :=
  let forwardDir : Vec3 := ⟨L.sin yaw, 0, L.cos yaw⟩
  let rightDir : Vec3 := ⟨forwardDir.z, 0, -forwardDir.x⟩
  let m0 : Vec3 := ⟨0, 0, 0⟩
  let m1 := if glfwGetKey window c.keys.moveForward then m0.add forwardDir else m0
  let m2 := if glfwGetKey window c.keys.moveBackward then m1.sub forwardDir else m1
  let m3 := if glfwGetKey window c.keys.moveRight then m2.add rightDir else m2
  if glfwGetKey window c.keys.moveLeft then m3.sub rightDir else m3

/-- The position that `moveInPlaneXZ` has after applying the horizontal movement
(keyboard_movement_controller.cpp, lines 56-58) at the given yaw to the position
`translation`. -/
def positionAfterDirectionKeys (L : Lib) (c : KeyboardMovementController) (window : GLFWwindow)
    (dt yaw : ℚ) (translation : Vec3) : Vec3 :=
  if Vec3.dot (moveDirOf L c window yaw) (moveDirOf L c window yaw) > epsilon then
    translation.add (Vec3.smul (c.moveSpeed * dt) (normalize L (moveDirOf L c window yaw)))
  else translation

/-- The net direction of the forward and backward keys: 1, 0 or -1. -/
def netForward (c : KeyboardMovementController) (window : GLFWwindow) : ℚ :=
  (if glfwGetKey window c.keys.moveForward then 1 else 0) -
    (if glfwGetKey window c.keys.moveBackward then 1 else 0)

/-- The net direction of the right and left keys: 1, 0 or -1. -/
def netRight (c : KeyboardMovementController) (window : GLFWwindow) : ℚ :=
  (if glfwGetKey window c.keys.moveRight then 1 else 0) -
    (if glfwGetKey window c.keys.moveLeft then 1 else 0)

/-- The frames of `n` shots: for each shot a frame with only the left mouse button
pressed, then a frame with nothing pressed. -/
def shotFrames : Nat → List Frame
  | 0 => []
  | n + 1 => frameWith [] [MouseButton.LEFT] :: frameWith [] [] :: shotFrames n

/-- A game in PLAYING with the window open, the default key mapping and the fire
button seen as released. -/
def SimpleGame.readyToShoot (g : SimpleGame) : Prop :=
  g.gameState = GameState.PLAYING ∧ g.windowShouldClose = false ∧
    g.cameraController.keys = {} ∧ g.cameraController.mouseButtonWasPressed = false

/-- A state of the game at the head of an iteration of the loop of `run`: the game as
constructed, after the loop has run over some frames. -/
def SimpleGame.Reachable (L : Lib) (g : SimpleGame) : Prop :=
  ∃ frames : List Frame, (SimpleGame.run L (SimpleGame.new L) frames).1 = g

/-- A frame with nothing pressed, 1/4 s after the previous one. -/
def slowFrame : Frame :=
  { window := windowWith [] [], elapsed := 1 / 4, time := 0 }

/-- Every entry of the table is stored under the id of the entity it holds. -/
def Map.keyedById (m : Map) : Prop := ∀ kv ∈ m, kv.1 = kv.2.id

/-- The keys of `createMenuObjects`, each with the id that the entity stored under it
has in a fresh process. -/
def menuKeysAndIds : List (Nat × Nat) :=
  [(0, 12), (1, 13), (2, 14), (10, 15), (11, 16), (12, 17), (13, 18), (14, 19)]

/-! ## The drawing members after the constructor -/

/-- `SimpleGame::createCommandBuffers` (simple_game.cpp, lines 264-277), as the
constructor calls it: the vector `commandBuffers` is resized to
`lveSwapChain->imageCount()` and the buffers are allocated; the call throws when
`vkAllocateCommandBuffers` fails.  The result is `none` when `lveSwapChain` is null,
which the call dereferences. -/
def RenderState.createCommandBuffers (r : RenderState) (allocateResult : VkResult) :
    Option (Outcome RenderState) :=
  r.lveSwapChain.map fun chain =>
    if allocateResult ≠ VK_SUCCESS then Outcome.raised Failure.allocateCommandBuffers
    else Outcome.returned { r with commandBuffers := chain.imageCount }

/-- The drawing members as the constructor `SimpleGame::SimpleGame` leaves them
(simple_game.cpp, lines 26-27): from the window as constructed, a null swap chain and no
command buffer, `recreateSwapChain()` and then `createCommandBuffers()`. -/
def RenderState.new (env : RecreateInput) (allocateResult : VkResult) :
    Option (Outcome RenderState) :=
  match ({ lveWindow := SimpleGame.lveWindow } : RenderState).recreateSwapChain env with
  | Outcome.returned r => r.createCommandBuffers allocateResult
  | Outcome.raised failure => some (Outcome.raised failure)
  | Outcome.blocked => some Outcome.blocked

/-- There is a swap chain and the number of command buffers is its image count. -/
def RenderState.buffersMatch (r : RenderState) : Prop :=
  ∃ chain, r.lveSwapChain = some chain ∧ r.commandBuffers = chain.imageCount

/-- The drawing members of a constructed game, after the `drawFrame` calls of some
iterations of the loop of `run`, all of which returned. -/
def RenderState.Reachable (r : RenderState) : Prop :=
  ∃ (env : RecreateInput) (allocateResult : VkResult) (r0 : RenderState)
    (frames : List RenderFrame),
    RenderState.new env allocateResult = some (Outcome.returned r0) ∧
      (drawFrames r0 frames).1 = Outcome.returned r

/-! ## GeometryBuilder::createSphere -/

/-- `LveModel::Vertex` (ve_model.hpp, lines 16-19). -/
structure Vertex where
  position : Vec3
  color : Vec3
deriving DecidableEq, Repr

/-- `glm::pi<float>()`, which is half of `glm::two_pi<float>()` (exactly so in binary
floating point). -/
def Lib.pi (L : Lib) : ℚ := L.two_pi / 2

/-- `GeometryBuilder::generateColor` (geometry_builder.cpp, lines 107-113). -/
def generateColor (L : Lib) (u v : ℚ) : Vec3 :=
  ⟨1 / 2 + 1 / 2 * L.sin (u * 2 * L.pi), 1 / 2 + 1 / 2 * L.sin (v * 2 * L.pi),
    1 / 2 + 1 / 2 * L.sin ((u + v) * L.pi)⟩

/-- The result of an `int` computation whose mathematical value is `x`: the value when
it is representable, `none` otherwise (signed overflow is undefined behaviour). -/
def intResult (x : Int) : Option Int :=
  if INT_MIN ≤ x ∧ x ≤ INT_MAX then some x else none

/-- The conversion of an `int` to `uint32_t`, as done by `indices.push_back(current)`. -/
def toUint32 (x : Int) : Nat := (x % 2 ^ 32).toNat

/-- The loop `for (int i = 0; i < count; ++i) body`: the passes i = 0, ..., count - 1 in
order, each on the state that the pass before left; `none` when a pass is. -/
def forBelow {σ : Type} (body : Int → σ → Option σ) : Nat → σ → Option σ
  | 0, s => some s
  | n + 1, s => (forBelow body n s).bind (body n)

/-- The loop `for (int i = 0; i <= bound; ++i) body`: the passes i = 0, ..., bound; the
increment after the last pass computes `bound + 1`. -/
def forUpTo {σ : Type} (bound : Int) (body : Int → σ → Option σ) (s : σ) : Option σ :=
  if bound < 0 then some s
  else (intResult (bound + 1)).bind fun count => forBelow body count.toNat s

/-- The vertex that one pass of the inner vertex loop of `createSphere` pushes
(geometry_builder.cpp, lines 51-64), for the given `ring` and `segment`. -/
def sphereVertex (L : Lib) (radius : ℚ) (segments rings ring segment : Int) : Vertex :=
  let phi := L.pi * (ring : ℚ) / (rings : ℚ)
  let y := radius * L.cos phi
  let ringRadius := radius * L.sin phi
  let theta := 2 * L.pi * (segment : ℚ) / (segments : ℚ)
  let x := ringRadius * L.cos theta
  let z := ringRadius * L.sin theta
  -- the arguments of `generateColor`
  let u := (segment : ℚ) / (segments : ℚ)
  let v := (ring : ℚ) / (rings : ℚ)
  { position := ⟨x, y, z⟩, color := generateColor L u v }

/-- The six indices that one pass of the inner index loop of `createSphere` pushes
(geometry_builder.cpp, lines 71-82), for the given `ring` and `segment`; `none` when
one of the `int` computations overflows. -/
def sphereQuad (segments ring segment : Int) : Option (List Nat) :=
  (intResult (segments + 1)).bind fun width =>
  (intResult (ring * width)).bind fun rowStart =>
  (intResult (rowStart + segment)).bind fun current =>
  (intResult (current + segments)).bind fun nextLess =>
  (intResult (nextLess + 1)).bind fun next =>
  (intResult (current + 1)).bind fun currentRight =>
  (intResult (next + 1)).bind fun nextRight =>
  -- the two triangles of the quad, each index converted to `uint32_t` by `push_back`
  some
    [toUint32 current, toUint32 next, toUint32 currentRight,
     toUint32 currentRight, toUint32 next, toUint32 nextRight]

/-- `GeometryBuilder::createSphere` (geometry_builder.cpp, lines 45-87): the vertices
and the indices that the function passes to the constructor of `LveModel`, or `none`
when one of its `int` computations overflows. -/
def createSphere (L : Lib) (radius : ℚ) (segments rings : Int) :
    Option (List Vertex × List Nat) :=
  -- the vertex loops (lines 49-66)
  (forUpTo rings
    (fun ring vertices =>
      forUpTo segments
        (fun segment vertices =>
          some (vertices ++ [sphereVertex L radius segments rings ring segment]))
        vertices)
    []).bind fun vertices =>
  -- the index loops (lines 68-84)
  (forBelow
    (fun ring indices =>
      forBelow
        (fun segment indices =>
          (sphereQuad segments ring segment).map fun quad => indices ++ quad)
        segments.toNat indices)
    rings.toNat []).bind fun indices =>
  some (vertices, indices)

/-! ## Binary32 values of the library functions, for the statements about rounding -/

/-- The render state that a successful call of `recreateSwapChain` with the inputs
`env` leaves from the state `r` whose window has non-zero size: the window as before,
a new swap chain of `env.imageCount` images for the window's extent, the pipeline built
for it, and the command buffers reallocated to the new image count if there was a swap
chain and the count differs from their number. -/
def RenderState.rebuilt (r : RenderState) (env : RecreateInput) : RenderState :=
  { lveWindow := r.lveWindow
    lveSwapChain := some { imageCount := env.imageCount, extent := r.lveWindow.getExtent }
    lvePipeline := some { imageCount := env.imageCount, extent := r.lveWindow.getExtent }
    commandBuffers :=
      if r.lveSwapChain.isSome && decide (env.imageCount ≠ r.commandBuffers) then env.imageCount
      else r.commandBuffers }

/-- A rendered frame of the freshly constructed game without resize event whose
present result is out-of-date and whose recreation gives a swap chain of three
images. -/
def outOfDateFrame : RenderFrame :=
  { game := SimpleGame.new sampleLib
    input :=
      { acquireResult := VK_SUCCESS
        imageIndex := 0
        submitResult := VK_ERROR_OUT_OF_DATE_KHR
        recreate := { imageCount := 3 } } }

/-! ## Theorems -/

/-- The MENU branch of `handleMenuInput`, written with the selection after
navigation. -/
theorem handleMenuInput_menu_eq (g : SimpleGame) (window : GLFWwindow)
    (hState : g.gameState = GameState.MENU) (hSettings : g.inSettings = false) :
    g.handleMenuInput window =
      ({ g with
         selectedMenuOption := selectedAfterNavigation g window
         gameState :=
           if enterKeyDownDetected g window &&
               decide (selectedAfterNavigation g window = START_GAME) then
             GameState.PLAYING
           else g.gameState
         viewerObject :=
           if enterKeyDownDetected g window &&
               decide (selectedAfterNavigation g window = START_GAME) then
             { g.viewerObject with
               transform :=
                 { g.viewerObject.transform with
                   translation := ⟨0, -5 / 2, -5⟩
                   rotation := ⟨0, 0, 0⟩ } }
           else g.viewerObject
         inSettings :=
           if enterKeyDownDetected g window &&
               decide (selectedAfterNavigation g window = SETTINGS) then true
           else g.inSettings
         windowShouldClose :=
           if enterKeyDownDetected g window &&
               decide (selectedAfterNavigation g window = EXIT) then true
           else g.windowShouldClose
         statics :=
           { g.statics with
             menuUpKeyWasPressed := glfwGetKey window Key.W || glfwGetKey window Key.UP
             menuDownKeyWasPressed := glfwGetKey window Key.S || glfwGetKey window Key.DOWN
             menuEnterKeyWasPressed := glfwGetKey window Key.ENTER } },
       { calledHandleMenuInput := true
         upKeyDown := upKeyDownDetected g window
         downKeyDown := downKeyDownDetected g window
         enterSampled := true
         enterKeyDown := enterKeyDownDetected g window }) := by
  unfold SimpleGame.handleMenuInput
  simp only [hState, hSettings]
  rfl

/-- The selected option after the MENU branch of `handleMenuInput`, for any state. -/
theorem handleMenuInput_menu_selected (g : SimpleGame) (window : GLFWwindow)
    (hState : g.gameState = GameState.MENU) (hSettings : g.inSettings = false) :
    (g.handleMenuInput window).1.selectedMenuOption = selectedAfterNavigation g window := by
  rw [handleMenuInput_menu_eq g window hState hSettings]

/-- The three values of the selector are closed under both index shifts of
`handleMenuInput`, which on them are `(s + 2) % 3` and `(s + 1) % 3`. -/
theorem tmod_shift_facts (s : Int) (hLo : 0 ≤ s) (hHi : s ≤ 2) :
    Int.tmod (s - 1 + 3) 3 = (s + 2) % 3 ∧ Int.tmod (s + 1) 3 = (s + 1) % 3 ∧
    0 ≤ (s + 2) % 3 ∧ (s + 2) % 3 ≤ 2 ∧ 0 ≤ (s + 1) % 3 ∧ (s + 1) % 3 ≤ 2 := by
  obtain h | h | h : s = 0 ∨ s = 1 ∨ s = 2 := by omega
  all_goals subst h; decide

/-- `handleMenuInput` keeps a selector in {0,1,2} there, in every branch. -/
theorem handleMenuInput_selected_range (g : SimpleGame) (window : GLFWwindow)
    (h : 0 ≤ g.selectedMenuOption ∧ g.selectedMenuOption ≤ 2) :
    0 ≤ (g.handleMenuInput window).1.selectedMenuOption ∧
      (g.handleMenuInput window).1.selectedMenuOption ≤ 2 := by
  obtain ⟨hLo, hHi⟩ := h
  obtain ⟨e1, -, r1, r2, -, -⟩ := tmod_shift_facts g.selectedMenuOption hLo hHi
  unfold SimpleGame.handleMenuInput
  split_ifs
  · exact ⟨hLo, hHi⟩
  · dsimp only
    split_ifs with hd hu hu
    · rw [e1]
      obtain ⟨-, e2, -, -, r3, r4⟩ := tmod_shift_facts _ r1 r2
      rw [e2]; exact ⟨r3, r4⟩
    · obtain ⟨-, e2, -, -, r3, r4⟩ := tmod_shift_facts _ hLo hHi
      rw [e2]; exact ⟨r3, r4⟩
    · rw [e1]; exact ⟨r1, r2⟩
    · exact ⟨hLo, hHi⟩
  · exact ⟨hLo, hHi⟩
  · exact ⟨hLo, hHi⟩

/-- `handleShooting` leaves the selector alone. -/
theorem handleShooting_selected (L : Lib) (g : SimpleGame) (window : GLFWwindow) :
    (g.handleShooting L window).1.selectedMenuOption = g.selectedMenuOption := by
  unfold SimpleGame.handleShooting
  dsimp only
  split_ifs <;> rfl

/-- `handleGameInput` leaves the selector alone. -/
theorem handleGameInput_selected (L : Lib) (g : SimpleGame) (window : GLFWwindow)
    (frameTime : ℚ) :
    (g.handleGameInput L window frameTime).1.selectedMenuOption = g.selectedMenuOption := by
  unfold SimpleGame.handleGameInput
  dsimp only
  split_ifs <;>
    first
    | rfl
    | simp only [SimpleGame.updateProjectiles, handleShooting_selected, SimpleGame.updateWeapon]

/-- Outside MENU, `handleMenuInput` leaves the selector alone. -/
theorem handleMenuInput_selected_of_not_menu (g : SimpleGame) (window : GLFWwindow)
    (h : g.gameState ≠ GameState.MENU) :
    (g.handleMenuInput window).1.selectedMenuOption = g.selectedMenuOption := by
  unfold SimpleGame.handleMenuInput
  split_ifs <;> rfl

/-- A frame handled outside MENU leaves the selector alone. -/
theorem runFrame_selected_of_not_menu (L : Lib) (g : SimpleGame) (f : Frame)
    (h : g.gameState ≠ GameState.MENU) :
    (g.runFrame L f).1.selectedMenuOption = g.selectedMenuOption := by
  unfold SimpleGame.runFrame
  split
  · contradiction
  · exact handleGameInput_selected L g f.window _
  · exact handleMenuInput_selected_of_not_menu g f.window h

/-- Every frame keeps a selector in {0,1,2} there. -/
theorem runFrame_selected_range (L : Lib) (g : SimpleGame) (f : Frame)
    (h : 0 ≤ g.selectedMenuOption ∧ g.selectedMenuOption ≤ 2) :
    0 ≤ (g.runFrame L f).1.selectedMenuOption ∧ (g.runFrame L f).1.selectedMenuOption ≤ 2 := by
  unfold SimpleGame.runFrame
  split
  · exact handleMenuInput_selected_range g f.window h
  · rw [handleGameInput_selected]; exact h
  · exact handleMenuInput_selected_range g f.window h

/-- Every run of the loop keeps a selector in {0,1,2} there. -/
theorem run_selected_range (L : Lib) (fs : List Frame) :
    ∀ g : SimpleGame, (0 ≤ g.selectedMenuOption ∧ g.selectedMenuOption ≤ 2) →
      0 ≤ (SimpleGame.run L g fs).1.selectedMenuOption ∧
        (SimpleGame.run L g fs).1.selectedMenuOption ≤ 2 := by
  induction fs with
  | nil => intro g h; exact h
  | cons f rest ih =>
    intro g h
    unfold SimpleGame.run
    split_ifs
    · exact h
    · exact ih _ (runFrame_selected_range L g f h)

/-- C1: in `handleMenuInput` with gameState = MENU and the settings view closed, for
every selected index s in {0,1,2}: a detected Up key-down maps s to (s + 2) mod 3 and
a detected Down key-down maps s to (s + 1) mod 3 (when both are detected in one call
the Up shift is applied first and the Down shift to its result); previous from 0
yields 2 and next from 2 yields 0; the selector stays in {0,1,2}, after this call
and after every run of the game loop from this state. -/
theorem C1_menu_selector_cycles_modulo_three (g : SimpleGame) (window : GLFWwindow)
    (hState : g.gameState = GameState.MENU) (hSettings : g.inSettings = false)
    (hLo : 0 ≤ g.selectedMenuOption) (hHi : g.selectedMenuOption ≤ 2) :
    (g.handleMenuInput window).1.selectedMenuOption =
        (if downKeyDownDetected g window then
          ((if upKeyDownDetected g window then (g.selectedMenuOption + 2) % 3
            else g.selectedMenuOption) + 1) % 3
         else (if upKeyDownDetected g window then (g.selectedMenuOption + 2) % 3
            else g.selectedMenuOption)) ∧
      (upKeyDownDetected g window = true → downKeyDownDetected g window = false →
        (g.handleMenuInput window).1.selectedMenuOption = (g.selectedMenuOption + 2) % 3) ∧
      (downKeyDownDetected g window = true → upKeyDownDetected g window = false →
        (g.handleMenuInput window).1.selectedMenuOption = (g.selectedMenuOption + 1) % 3) ∧
      (upKeyDownDetected g window = true → downKeyDownDetected g window = false →
        g.selectedMenuOption = 0 → (g.handleMenuInput window).1.selectedMenuOption = 2) ∧
      (downKeyDownDetected g window = true → upKeyDownDetected g window = false →
        g.selectedMenuOption = 2 → (g.handleMenuInput window).1.selectedMenuOption = 0) ∧
      (0 ≤ (g.handleMenuInput window).1.selectedMenuOption ∧
        (g.handleMenuInput window).1.selectedMenuOption ≤ 2) ∧
      ∀ (L : Lib) (fs : List Frame),
        0 ≤ (SimpleGame.run L g fs).1.selectedMenuOption ∧
          (SimpleGame.run L g fs).1.selectedMenuOption ≤ 2 := by
  obtain ⟨e1, e2, r1, r2, -, -⟩ := tmod_shift_facts g.selectedMenuOption hLo hHi
  obtain ⟨-, e3, -, -, -, -⟩ := tmod_shift_facts _ r1 r2
  have hsel := handleMenuInput_menu_selected g window hState hSettings
  unfold selectedAfterNavigation at hsel
  rw [e1] at hsel
  have key : (g.handleMenuInput window).1.selectedMenuOption =
      (if downKeyDownDetected g window then
          ((if upKeyDownDetected g window then (g.selectedMenuOption + 2) % 3
            else g.selectedMenuOption) + 1) % 3
         else (if upKeyDownDetected g window then (g.selectedMenuOption + 2) % 3
            else g.selectedMenuOption)) := by
    rw [hsel]
    by_cases hu : upKeyDownDetected g window = true <;>
      by_cases hd : downKeyDownDetected g window = true <;>
      simp only [hu, hd, if_true, if_false] <;>
      first
      | rfl
      | exact e2
      | exact e3
  refine ⟨key, ?_, ?_, ?_, ?_, handleMenuInput_selected_range g window ⟨hLo, hHi⟩,
    fun L fs => run_selected_range L fs g ⟨hLo, hHi⟩⟩
  · intro hu hd; rw [key]; simp [hu, hd]
  · intro hd hu; rw [key]; simp [hu, hd]
  · intro hu hd h0; rw [key]; simp [hu, hd, h0]
  · intro hd hu h2; rw [key]; simp [hu, hd, h2]

/-- C1 at the freshly constructed game with the Up arrow pressed: START_GAME (0)
becomes EXIT (2). -/
theorem C1_menu_selector_cycles_modulo_three_witness :
    ((SimpleGame.new sampleLib).handleMenuInput (windowWith [Key.UP] [])).1.selectedMenuOption
      = 2 :=
  (C1_menu_selector_cycles_modulo_three (SimpleGame.new sampleLib) (windowWith [Key.UP] [])
    rfl rfl (by decide) (by decide)).2.2.2.1 (by decide) (by decide) rfl

/-- `handleShooting` leaves the game state alone. -/
theorem handleShooting_gameState (L : Lib) (g : SimpleGame) (window : GLFWwindow) :
    (g.handleShooting L window).1.gameState = g.gameState := by
  unfold SimpleGame.handleShooting
  dsimp only
  split_ifs <;> rfl

/-- The game state after `handleGameInput`: MENU on a Menu-key key-down, else PAUSED
on a pause key-down, else the state before. -/
theorem handleGameInput_gameState (L : Lib) (g : SimpleGame) (window : GLFWwindow)
    (frameTime : ℚ) :
    (g.handleGameInput L window frameTime).1.gameState =
      (if gameEscapeKeyDownDetected g window then GameState.MENU
       else if pauseKeyDownDetected g window then GameState.PAUSED else g.gameState) := by
  unfold SimpleGame.handleGameInput gameEscapeKeyDownDetected pauseKeyDownDetected
  dsimp only
  split_ifs <;>
    first
    | rfl
    | simp_all [SimpleGame.updateProjectiles, handleShooting_gameState, SimpleGame.updateWeapon]

/-- A call of `handleGameInput` whose key checks leave a state other than PLAYING
changes the game state and the two key flags of `handleGameInput` and nothing else,
and calls none of the four per-frame updates. -/
theorem handleGameInput_of_leave (L : Lib) (g : SimpleGame) (window : GLFWwindow)
    (frameTime : ℚ)
    (h : (if gameEscapeKeyDownDetected g window then GameState.MENU
       else if pauseKeyDownDetected g window then GameState.PAUSED else g.gameState)
        ≠ GameState.PLAYING) :
    g.handleGameInput L window frameTime =
      ({ g with
         gameState :=
           (if gameEscapeKeyDownDetected g window then GameState.MENU
            else if pauseKeyDownDetected g window then GameState.PAUSED else g.gameState)
         statics :=
           { g.statics with
             gamePauseKeyWasPressed := glfwGetKey window g.cameraController.keys.pauseGame
             gameEscapeKeyWasPressed := glfwGetKey window g.cameraController.keys.exitGame } },
       { calledHandleGameInput := true
         pauseKeyDown := pauseKeyDownDetected g window
         gameEscapeKeyDown := gameEscapeKeyDownDetected g window }) := by
  unfold gameEscapeKeyDownDetected pauseKeyDownDetected at h ⊢
  unfold SimpleGame.handleGameInput
  dsimp only
  rw [if_neg h]

/-- C3: for a call of `handleGameInput` in PLAYING: a detected pause key-down with no
Menu-key key-down gives PAUSED; a detected Menu-key (exit key) key-down gives MENU,
also when the pause key goes down on the same call; with neither the state stays
PLAYING.  On a call that leaves PLAYING, `moveInPlaneXZ`, `updateWeapon`,
`handleShooting` and `updateProjectiles` are not called, and the viewer, the weapon,
the projectiles, the controller and the jump flag are as before. -/
theorem C3_playing_transitions (L : Lib) (g : SimpleGame) (window : GLFWwindow)
    (frameTime : ℚ) (hState : g.gameState = GameState.PLAYING) :
    (pauseKeyDownDetected g window = true → gameEscapeKeyDownDetected g window = false →
        (g.handleGameInput L window frameTime).1.gameState = GameState.PAUSED) ∧
      (gameEscapeKeyDownDetected g window = true →
        (g.handleGameInput L window frameTime).1.gameState = GameState.MENU) ∧
      (pauseKeyDownDetected g window = false → gameEscapeKeyDownDetected g window = false →
        (g.handleGameInput L window frameTime).1.gameState = GameState.PLAYING) ∧
      ((g.handleGameInput L window frameTime).1.gameState ≠ GameState.PLAYING →
        (g.handleGameInput L window frameTime).2.calledMoveInPlaneXZ = false ∧
        (g.handleGameInput L window frameTime).2.calledUpdateWeapon = false ∧
        (g.handleGameInput L window frameTime).2.calledHandleShooting = false ∧
        (g.handleGameInput L window frameTime).2.calledUpdateProjectiles = false ∧
        (g.handleGameInput L window frameTime).2.jumped = false ∧
        (g.handleGameInput L window frameTime).2.shot = false ∧
        (g.handleGameInput L window frameTime).1.viewerObject = g.viewerObject ∧
        (g.handleGameInput L window frameTime).1.weaponObject = g.weaponObject ∧
        (g.handleGameInput L window frameTime).1.projectiles = g.projectiles ∧
        (g.handleGameInput L window frameTime).1.cameraController = g.cameraController ∧
        (g.handleGameInput L window frameTime).1.statics.jumpKeyWasPressed =
          g.statics.jumpKeyWasPressed) := by
  have hs := handleGameInput_gameState L g window frameTime
  refine ⟨?_, ?_, ?_, ?_⟩
  · intro hp he; rw [hs]; simp [hp, he]
  · intro he; rw [hs]; simp [he]
  · intro hp he; rw [hs]; simp [hp, he, hState]
  · intro hne
    rw [hs] at hne
    rw [handleGameInput_of_leave L g window frameTime hne]
    exact ⟨rfl, rfl, rfl, rfl, rfl, rfl, rfl, rfl, rfl, rfl, rfl⟩

/-- C3 at `playingGame` with P pressed: the state becomes PAUSED and `moveInPlaneXZ`
is not called. -/
theorem C3_playing_transitions_witness :
    (playingGame.handleGameInput sampleLib (windowWith [Key.P] []) (1 / 60)).1.gameState
        = GameState.PAUSED ∧
      (playingGame.handleGameInput sampleLib (windowWith [Key.P] []) (1 / 60)).2.calledMoveInPlaneXZ
        = false :=
  ⟨(C3_playing_transitions sampleLib playingGame (windowWith [Key.P] []) (1 / 60) (by decide)).1
      (by decide) (by decide),
   ((C3_playing_transitions sampleLib playingGame (windowWith [Key.P] []) (1 / 60)
      (by decide)).2.2.2 (by decide)).1⟩

/-- The game state after the PAUSED branch of `handleMenuInput`: MENU on an Escape
key-down, else PLAYING on an Enter key-down, else PAUSED. -/
theorem handleMenuInput_paused_gameState (g : SimpleGame) (window : GLFWwindow)
    (hState : g.gameState = GameState.PAUSED) (hSettings : g.inSettings = false) :
    (g.handleMenuInput window).1.gameState =
      (if menuEscapeKeyDownDetected g window then GameState.MENU
       else if enterKeyDownDetected g window then GameState.PLAYING else GameState.PAUSED) := by
  unfold SimpleGame.handleMenuInput menuEscapeKeyDownDetected enterKeyDownDetected
  simp only [hState, hSettings]
  split_ifs <;> simp_all

/-- Outside MENU, `handleMenuInput` leaves the viewer alone. -/
theorem handleMenuInput_viewer_of_not_menu (g : SimpleGame) (window : GLFWwindow)
    (h : g.gameState ≠ GameState.MENU) :
    (g.handleMenuInput window).1.viewerObject = g.viewerObject := by
  unfold SimpleGame.handleMenuInput
  split_ifs <;> rfl

/-- A frame handled in PAUSED leaves the viewer alone. -/
theorem runFrame_viewer_of_paused (L : Lib) (g : SimpleGame) (f : Frame)
    (h : g.gameState = GameState.PAUSED) :
    (g.runFrame L f).1.viewerObject = g.viewerObject := by
  unfold SimpleGame.runFrame
  rw [h]
  exact handleMenuInput_viewer_of_not_menu g f.window (by rw [h]; decide)

/-- The loop on a non-empty list of frames, when the window is open. -/
theorem run_cons_of_open (L : Lib) (g : SimpleGame) (f : Frame) (rest : List Frame)
    (h : g.windowShouldClose = false) :
    SimpleGame.run L g (f :: rest) =
      ((SimpleGame.run L (g.runFrame L f).1 rest).1,
        (g.runFrame L f).2 :: (SimpleGame.run L (g.runFrame L f).1 rest).2) := by
  rw [SimpleGame.run]
  simp [h]

/-- The loop when the window's close flag is set: no frame runs. -/
theorem run_of_closed (L : Lib) (g : SimpleGame) (fs : List Frame)
    (h : g.windowShouldClose = true) : SimpleGame.run L g fs = (g, []) := by
  cases fs with
  | nil => rfl
  | cons f rest => rw [SimpleGame.run]; simp [h]

/-- While every frame of a run starts in PAUSED the viewer stays as it was. -/
theorem run_viewer_of_paused (L : Lib) (fs : List Frame) :
    ∀ g : SimpleGame,
      (∀ n, n < fs.length → (SimpleGame.run L g (fs.take n)).1.gameState = GameState.PAUSED) →
      (SimpleGame.run L g fs).1.viewerObject = g.viewerObject := by
  induction fs with
  | nil => intro g _; rfl
  | cons f rest ih =>
    intro g h
    by_cases hc : g.windowShouldClose = true
    · rw [run_of_closed L g _ hc]
    · have hc' : g.windowShouldClose = false := by simpa using hc
      have h0 : g.gameState = GameState.PAUSED := h 0 (by simp)
      rw [run_cons_of_open L g f rest hc']
      dsimp only
      rw [ih (g.runFrame L f).1, runFrame_viewer_of_paused L g f h0]
      intro n hn
      have := h (n + 1) (by simpa using hn)
      rw [List.take_succ_cons, run_cons_of_open L g f _ hc'] at this
      exact this

/-- C4: for a call of `handleMenuInput` in PAUSED with the settings view closed: a
detected Enter key-down with no Escape key-down gives PLAYING; a detected Escape
key-down gives MENU, also when Enter goes down on the same call; with neither the
state stays PAUSED.  The viewer is as before the call; over any run of frames that
all start in PAUSED (the resuming frame being the last) the viewer stays as it was,
and the frame that paused the game left it as it was too. -/
theorem C4_paused_transitions (g : SimpleGame) (window : GLFWwindow)
    (hState : g.gameState = GameState.PAUSED) (hSettings : g.inSettings = false) :
    (enterKeyDownDetected g window = true → menuEscapeKeyDownDetected g window = false →
        (g.handleMenuInput window).1.gameState = GameState.PLAYING) ∧
      (menuEscapeKeyDownDetected g window = true →
        (g.handleMenuInput window).1.gameState = GameState.MENU) ∧
      (enterKeyDownDetected g window = false → menuEscapeKeyDownDetected g window = false →
        (g.handleMenuInput window).1.gameState = GameState.PAUSED) ∧
      (g.handleMenuInput window).1.viewerObject = g.viewerObject ∧
      (∀ (L : Lib) (fs : List Frame),
        (∀ n, n < fs.length →
          (SimpleGame.run L g (fs.take n)).1.gameState = GameState.PAUSED) →
        (SimpleGame.run L g fs).1.viewerObject = g.viewerObject) ∧
      (∀ (L : Lib) (g0 : SimpleGame) (f0 : Frame), g0.gameState = GameState.PLAYING →
        (g0.runFrame L f0).1.gameState = GameState.PAUSED →
        (g0.runFrame L f0).1.viewerObject = g0.viewerObject) := by
  have hs := handleMenuInput_paused_gameState g window hState hSettings
  refine ⟨?_, ?_, ?_, ?_, ?_, ?_⟩
  · intro he hx; rw [hs]; simp [he, hx]
  · intro hx; rw [hs]; simp [hx]
  · intro he hx; rw [hs]; simp [he, hx]
  · exact handleMenuInput_viewer_of_not_menu g window (by rw [hState]; decide)
  · intro L fs h; exact run_viewer_of_paused L fs g h
  · intro L g0 f0 h0 h1
    unfold SimpleGame.runFrame at h1 ⊢
    rw [h0] at h1 ⊢
    dsimp only at h1 ⊢
    rw [handleGameInput_gameState] at h1
    rw [handleGameInput_of_leave L g0 f0.window _ (by rw [h1]; decide)]

/-- C4 at `pausedGame` with Enter pressed: the game resumes with the viewer as it
was. -/
theorem C4_paused_transitions_witness :
    (pausedGame.handleMenuInput (windowWith [Key.ENTER] [])).1.gameState = GameState.PLAYING ∧
      (pausedGame.handleMenuInput (windowWith [Key.ENTER] [])).1.viewerObject
        = pausedGame.viewerObject :=
  ⟨(C4_paused_transitions pausedGame (windowWith [Key.ENTER] []) (by decide) (by decide)).1
      (by decide) (by decide),
   (C4_paused_transitions pausedGame (windowWith [Key.ENTER] []) (by decide) (by decide)).2.2.2.1⟩

/-- In the MENU branch of `handleMenuInput`, an Enter key-down on a call that ends
with START_GAME selected starts the game at the spawn pose. -/
theorem handleMenuInput_menu_start (g : SimpleGame) (window : GLFWwindow)
    (hState : g.gameState = GameState.MENU) (hSettings : g.inSettings = false)
    (hEnter : enterKeyDownDetected g window = true)
    (hSel : (g.handleMenuInput window).1.selectedMenuOption = START_GAME) :
    (g.handleMenuInput window).1.gameState = GameState.PLAYING ∧
      (g.handleMenuInput window).1.viewerObject.transform.translation = ⟨0, -5 / 2, -5⟩ ∧
      (g.handleMenuInput window).1.viewerObject.transform.rotation = ⟨0, 0, 0⟩ := by
  rw [handleMenuInput_menu_eq g window hState hSettings] at hSel ⊢
  dsimp only at hSel ⊢
  simp [hEnter, hSel]

/-- C5 as amended: in MENU with the settings view closed, a detected Enter key-down
acts on the option that is selected after the same call's Up/Down navigation.  When
that option is START_GAME, gameState becomes PLAYING and the viewer is reset to
translation (0, -2.5, -5) and rotation (0, 0, 0), whatever its transform was.  In
particular, when START_GAME is selected before the call and the call detects neither
an Up nor a Down key-down (or both), all of this holds and selectedMenuOption is
unchanged. -/
theorem C5_enter_on_start_amended (g : SimpleGame) (window : GLFWwindow)
    (hState : g.gameState = GameState.MENU) (hSettings : g.inSettings = false)
    (hEnter : enterKeyDownDetected g window = true) :
    ((g.handleMenuInput window).1.selectedMenuOption = START_GAME →
        (g.handleMenuInput window).1.gameState = GameState.PLAYING ∧
        (g.handleMenuInput window).1.viewerObject.transform.translation = ⟨0, -5 / 2, -5⟩ ∧
        (g.handleMenuInput window).1.viewerObject.transform.rotation = ⟨0, 0, 0⟩) ∧
      (g.selectedMenuOption = START_GAME →
        upKeyDownDetected g window = downKeyDownDetected g window →
        (g.handleMenuInput window).1.selectedMenuOption = g.selectedMenuOption ∧
        (g.handleMenuInput window).1.gameState = GameState.PLAYING ∧
        (g.handleMenuInput window).1.viewerObject.transform.translation = ⟨0, -5 / 2, -5⟩ ∧
        (g.handleMenuInput window).1.viewerObject.transform.rotation = ⟨0, 0, 0⟩) := by
  refine ⟨handleMenuInput_menu_start g window hState hSettings hEnter, ?_⟩
  intro h0 hNav
  have hsel : (g.handleMenuInput window).1.selectedMenuOption = START_GAME := by
    rw [handleMenuInput_menu_selected g window hState hSettings]
    unfold selectedAfterNavigation
    rw [← hNav, h0]
    cases upKeyDownDetected g window <;> decide
  exact ⟨by rw [hsel, h0], handleMenuInput_menu_start g window hState hSettings hEnter hsel⟩

/-- C5 as amended, at the freshly constructed game with only Enter pressed: the game
starts at the spawn pose and START_GAME stays selected. -/
theorem C5_enter_on_start_amended_witness :
    ((SimpleGame.new sampleLib).handleMenuInput (windowWith [Key.ENTER] [])).1.selectedMenuOption
        = (SimpleGame.new sampleLib).selectedMenuOption ∧
      ((SimpleGame.new sampleLib).handleMenuInput (windowWith [Key.ENTER] [])).1.gameState
        = GameState.PLAYING ∧
      ((SimpleGame.new sampleLib).handleMenuInput
        (windowWith [Key.ENTER] [])).1.viewerObject.transform.translation = ⟨0, -5 / 2, -5⟩ ∧
      ((SimpleGame.new sampleLib).handleMenuInput
        (windowWith [Key.ENTER] [])).1.viewerObject.transform.rotation = ⟨0, 0, 0⟩ :=
  (C5_enter_on_start_amended (SimpleGame.new sampleLib) (windowWith [Key.ENTER] [])
    (by decide) (by decide) (by decide)).2 (by decide) (by decide)

/-- C5 as stated fails: at the freshly constructed game (MENU, settings closed,
START_GAME selected) a call with the Up arrow and Enter both newly pressed detects the
Enter key-down, yet the selection first moves to EXIT, the window is asked to close,
gameState stays MENU and the viewer keeps its translation (0, -1.5, -3). -/
theorem C5_enter_on_start_counterexample :
    (SimpleGame.new sampleLib).gameState = GameState.MENU ∧
      (SimpleGame.new sampleLib).inSettings = false ∧
      (SimpleGame.new sampleLib).selectedMenuOption = START_GAME ∧
      enterKeyDownDetected (SimpleGame.new sampleLib) (windowWith [Key.UP, Key.ENTER] []) = true ∧
      ((SimpleGame.new sampleLib).handleMenuInput
        (windowWith [Key.UP, Key.ENTER] [])).1.gameState = GameState.MENU ∧
      ((SimpleGame.new sampleLib).handleMenuInput
        (windowWith [Key.UP, Key.ENTER] [])).1.selectedMenuOption = EXIT ∧
      ((SimpleGame.new sampleLib).handleMenuInput
        (windowWith [Key.UP, Key.ENTER] [])).1.windowShouldClose = true ∧
      ((SimpleGame.new sampleLib).handleMenuInput
        (windowWith [Key.UP, Key.ENTER] [])).1.viewerObject.transform.translation
          = ⟨0, -3 / 2, -3⟩ := by
  exact ⟨by decide, by decide, by decide, by decide, by decide, by decide, by decide, rfl⟩

/-- While every frame of a run starts outside MENU the selector stays as it was. -/
theorem run_selected_of_not_menu (L : Lib) (fs : List Frame) :
    ∀ g : SimpleGame,
      (∀ n, n < fs.length → (SimpleGame.run L g (fs.take n)).1.gameState ≠ GameState.MENU) →
      (SimpleGame.run L g fs).1.selectedMenuOption = g.selectedMenuOption := by
  induction fs with
  | nil => intro g _; rfl
  | cons f rest ih =>
    intro g h
    by_cases hc : g.windowShouldClose = true
    · rw [run_of_closed L g _ hc]
    · have hc' : g.windowShouldClose = false := by simpa using hc
      have h0 : g.gameState ≠ GameState.MENU := h 0 (by simp)
      rw [run_cons_of_open L g f rest hc']
      dsimp only
      rw [ih (g.runFrame L f).1, runFrame_selected_of_not_menu L g f h0]
      intro n hn
      have := h (n + 1) (by simpa using hn)
      rw [List.take_succ_cons, run_cons_of_open L g f _ hc'] at this
      exact this

/-- C6: selectedMenuOption is modified only while gameState is MENU.  A frame handled
in PLAYING or PAUSED leaves it unchanged whatever keys are pressed, and over every
run of frames that all start outside MENU (such as the frames from leaving MENU
through PLAYING and PAUSED up to and including the frame that returns to MENU) the
selected option at the end equals its value at the start. -/
theorem C6_selected_unchanged_outside_menu (L : Lib) (g : SimpleGame) :
    (∀ f : Frame, g.gameState ≠ GameState.MENU →
        (g.runFrame L f).1.selectedMenuOption = g.selectedMenuOption) ∧
      (∀ fs : List Frame,
        (∀ n, n < fs.length →
          (SimpleGame.run L g (fs.take n)).1.gameState ≠ GameState.MENU) →
        (SimpleGame.run L g fs).1.selectedMenuOption = g.selectedMenuOption) :=
  ⟨fun f h => runFrame_selected_of_not_menu L g f h,
   fun fs h => run_selected_of_not_menu L fs g h⟩

/-- C6 on the game that has just left MENU for PLAYING: a frame with W and P pressed
(to PAUSED), a frame with the Down arrow pressed and a frame with Escape pressed (back
to MENU) leave the selected option as it was. -/
theorem C6_selected_unchanged_outside_menu_witness :
    (SimpleGame.run sampleLib playingGame
        [frameWith [Key.W, Key.P] [], frameWith [Key.DOWN] [], frameWith [Key.ESCAPE] []]).1.gameState
        = GameState.MENU ∧
      (SimpleGame.run sampleLib playingGame
        [frameWith [Key.W, Key.P] [], frameWith [Key.DOWN] [],
          frameWith [Key.ESCAPE] []]).1.selectedMenuOption
        = playingGame.selectedMenuOption :=
  ⟨by decide,
   (C6_selected_unchanged_outside_menu sampleLib playingGame).2
    [frameWith [Key.W, Key.P] [], frameWith [Key.DOWN] [], frameWith [Key.ESCAPE] []]
    (by
      intro n hn
      have h3 : n < 3 := hn
      interval_cases n <;> decide)⟩

/-- `shouldShoot` leaves the key mapping alone and stores the sample in the flag. -/
theorem shouldShoot_snd (c : KeyboardMovementController) (window : GLFWwindow) :
    (c.shouldShoot window).2.keys = c.keys ∧
      (c.shouldShoot window).2.mouseButtonWasPressed = shootPressed c window :=
  ⟨rfl, rfl⟩

/-- The value `shouldShoot` returns: pressed now and the flag not set. -/
theorem shouldShoot_fst (c : KeyboardMovementController) (window : GLFWwindow) :
    (c.shouldShoot window).1 = (shootPressed c window && !c.mouseButtonWasPressed) := rfl

/-- `shootPressed` depends on the controller through its key mapping only. -/
theorem shootPressed_congr (c c' : KeyboardMovementController) (h : c'.keys = c.keys)
    (window : GLFWwindow) : shootPressed c' window = shootPressed c window := by
  unfold shootPressed; rw [h]

/-- Every call of a sequence of `shouldShoot` calls returns: there is one result per
sample. -/
theorem shouldShootCalls_length (ws : List GLFWwindow) :
    ∀ c : KeyboardMovementController, (shouldShootCalls c ws).length = ws.length := by
  induction ws with
  | nil => intro c; rfl
  | cons w rest ih => intro c; simp [shouldShootCalls, ih]

/-- The result of the call at index `i` of a sequence of `shouldShoot` calls, from any
controller: pressed at `i` and not pressed at the preceding call (the flag's value
when there is none). -/
theorem shouldShootCalls_get (ws : List GLFWwindow) :
    ∀ (c : KeyboardMovementController) (i : Nat) (w : GLFWwindow), ws[i]? = some w →
      (shouldShootCalls c ws)[i]? =
        some (shootPressed c w &&
          !prevSample c.mouseButtonWasPressed (ws.map (shootPressed c)) i) := by
  induction ws with
  | nil => intro c i w h; simp at h
  | cons w0 rest ih =>
    intro c i w h
    cases i with
    | zero =>
      simp only [List.getElem?_cons_zero, Option.some.injEq] at h
      subst h
      simp [shouldShootCalls, prevSample, shouldShoot_fst]
    | succ k =>
      simp only [List.getElem?_cons_succ] at h
      have hk := ih (c.shouldShoot w0).2 k w h
      have hc : ∀ x, shootPressed (c.shouldShoot w0).2 x = shootPressed c x :=
        shootPressed_congr c _ (shouldShoot_snd c w0).1
      have hmap : rest.map (shootPressed (c.shouldShoot w0).2) = rest.map (shootPressed c) :=
        List.map_congr_left fun x _ => hc x
      rw [hc, hmap, (shouldShoot_snd c w0).2] at hk
      simp only [shouldShootCalls, List.getElem?_cons_succ, hk]
      cases k with
      | zero => simp [prevSample]
      | succ j => simp [prevSample]

/-- A sample read through `getD` on a mapped list. -/
theorem getD_map_of_get {α : Type} (f : α → Bool) (xs : List α) (i : Nat) (x : α)
    (h : xs[i]? = some x) : (xs.map f).getD i false = f x := by
  simp [List.getD_eq_getElem?_getD, List.getElem?_map, h]

/-- C7: for every sequence of calls of `shouldShoot` on a controller whose
`mouseButtonWasPressed` is false, as on a freshly constructed one: every call
returns; the call at index i returns true exactly when the fire button is pressed on
sample i and was not pressed on sample i - 1 (or i is the first call).  Hence over a
stretch i..j of consecutive pressed samples that starts a run it returns true at i and
false at every later sample of the stretch, and it returns false on every released
sample. -/
theorem C7_shouldShoot_edge_triggered (c : KeyboardMovementController)
    (hFresh : c.mouseButtonWasPressed = false) (ws : List GLFWwindow) :
    (shouldShootCalls c ws).length = ws.length ∧
      (∀ (i : Nat) (w : GLFWwindow), ws[i]? = some w →
        (shouldShootCalls c ws)[i]? =
          some (shootPressed c w && !prevSample false (ws.map (shootPressed c)) i)) ∧
      (∀ i j : Nat, i ≤ j → j < ws.length →
        (∀ k, i ≤ k → k ≤ j → (ws.map (shootPressed c)).getD k false = true) →
        prevSample false (ws.map (shootPressed c)) i = false →
        (shouldShootCalls c ws)[i]? = some true ∧
          ∀ k, i < k → k ≤ j → (shouldShootCalls c ws)[k]? = some false) ∧
      (∀ k : Nat, k < ws.length → (ws.map (shootPressed c)).getD k false = false →
        (shouldShootCalls c ws)[k]? = some false) := by
  have hb : ∀ (i : Nat) (w : GLFWwindow), ws[i]? = some w →
      (shouldShootCalls c ws)[i]? =
        some (shootPressed c w && !prevSample false (ws.map (shootPressed c)) i) := by
    intro i w h
    rw [shouldShootCalls_get ws c i w h, hFresh]
  refine ⟨shouldShootCalls_length ws c, hb, ?_, ?_⟩
  · intro i j hij hj hrun hprev
    constructor
    · have hi : i < ws.length := lt_of_le_of_lt hij hj
      have hw : ws[i]? = some ws[i] := List.getElem?_eq_getElem hi
      have hp := hrun i le_rfl hij
      rw [getD_map_of_get _ ws i _ hw] at hp
      rw [hb i _ hw, hp, hprev]; rfl
    · intro k hik hkj
      have hk : k < ws.length := lt_of_le_of_lt hkj hj
      have hw : ws[k]? = some ws[k] := List.getElem?_eq_getElem hk
      rw [hb k _ hw]
      obtain ⟨k', rfl⟩ : ∃ k', k = k' + 1 := ⟨k - 1, by omega⟩
      have hp := hrun k' (by omega) (by omega)
      have hq : prevSample false (ws.map (shootPressed c)) (k' + 1) = true := hp
      rw [hq]; simp
  · intro k hk hrel
    have hw : ws[k]? = some ws[k] := List.getElem?_eq_getElem hk
    rw [getD_map_of_get _ ws k _ hw] at hrel
    rw [hb k _ hw, hrel]; rfl

/-- C7 on a freshly constructed controller and the samples released, pressed, pressed,
released, pressed: the calls return false, true, false, false, true. -/
theorem C7_shouldShoot_edge_triggered_witness :
    shouldShootCalls {}
        [windowWith [] [], windowWith [] [MouseButton.LEFT], windowWith [] [MouseButton.LEFT],
          windowWith [] [], windowWith [] [MouseButton.LEFT]]
      = [false, true, false, false, true] ∧
    (shouldShootCalls {}
        [windowWith [] [], windowWith [] [MouseButton.LEFT], windowWith [] [MouseButton.LEFT],
          windowWith [] [], windowWith [] [MouseButton.LEFT]])[1]? = some true ∧
    ∀ k, 1 < k → k ≤ 2 →
      (shouldShootCalls {}
        [windowWith [] [], windowWith [] [MouseButton.LEFT], windowWith [] [MouseButton.LEFT],
          windowWith [] [], windowWith [] [MouseButton.LEFT]])[k]? = some false :=
  ⟨by decide,
   (C7_shouldShoot_edge_triggered {} rfl
      [windowWith [] [], windowWith [] [MouseButton.LEFT], windowWith [] [MouseButton.LEFT],
        windowWith [] [], windowWith [] [MouseButton.LEFT]]).2.2.1 1 2 (by decide) (by decide)
      (by
        intro k h1 h2
        interval_cases k <;> decide)
      (by decide)⟩

/-- The bounds test of `updateProjectiles`, as inequalities: inclusive on every
axis. -/
theorem withinBounds_iff (projPos objPos objScale : Vec3) :
    withinBounds projPos objPos objScale = true ↔
      (objPos.x - objScale.x ≤ projPos.x ∧ projPos.x ≤ objPos.x + objScale.x) ∧
      (objPos.y - objScale.y ≤ projPos.y ∧ projPos.y ≤ objPos.y + objScale.y) ∧
      (objPos.z - objScale.z ≤ projPos.z ∧ projPos.z ≤ objPos.z + objScale.z) := by
  unfold withinBounds
  simp only [Bool.and_eq_true, decide_eq_true_eq, ge_iff_le]
  tauto

/-- The loop over the entities ends with `hitPlatform` set exactly when some entity
with a mesh passes the bounds test. -/
theorem collideWithObjects_hit_iff (c : KeyboardMovementController) (projPos : Vec3)
    (objs : Map) :
    ∀ velocity : Vec3,
      (collideWithObjects c projPos objs velocity).2 = true ↔
        ∃ kv ∈ objs, kv.2.model.isSome = true ∧
          withinBounds projPos kv.2.transform.translation kv.2.transform.scale = true := by
  induction objs with
  | nil => intro v; simp [collideWithObjects]
  | cons kv rest ih =>
    intro v
    obtain ⟨key, obj⟩ := kv
    unfold collideWithObjects
    by_cases hm : obj.model.isSome = true
    · by_cases hb : withinBounds projPos obj.transform.translation obj.transform.scale = true
      · simp [hm, hb]
      · simp only [hm, hb, if_true, if_false, Bool.false_eq_true]
        rw [ih v]
        simp [hm, hb]
    · simp only [hm, if_false, Bool.false_eq_true]
      rw [ih v]
      simp [hm]

/-- Without a hit the loop over the entities leaves the velocity as it was. -/
theorem collideWithObjects_of_no_hit (c : KeyboardMovementController) (projPos : Vec3)
    (objs : Map) :
    ∀ velocity : Vec3, (collideWithObjects c projPos objs velocity).2 = false →
      (collideWithObjects c projPos objs velocity).1 = velocity := by
  induction objs with
  | nil => intro v _; rfl
  | cons kv rest ih =>
    intro v
    obtain ⟨key, obj⟩ := kv
    unfold collideWithObjects
    by_cases hm : obj.model.isSome = true
    · by_cases hb : withinBounds projPos obj.transform.translation obj.transform.scale = true
      · simp [hm, hb]
      · simp only [hm, hb, if_true, if_false, Bool.false_eq_true]
        exact ih v
    · simp only [hm, if_false, Bool.false_eq_true]
      exact ih v

/-- The translation `updateProjectile` stores: the integrated position, with y set to
the ground level when the integrated y is at or below it.  The loop over the
entities does not move the projectile. -/
theorem updateProjectile_translation (c : KeyboardMovementController) (gameObjects : Map)
    (dt : ℚ) (p : LveGameObject) :
    (updateProjectile c gameObjects dt p).projectile.transform.translation =
      (if p.transform.translation.y + dt * (p.transform.rotation.y + c.projectileGravity * dt)
          ≤ c.groundLevel then
        ⟨p.transform.translation.x + dt * p.transform.rotation.x, c.groundLevel,
          p.transform.translation.z + dt * p.transform.rotation.z⟩
      else
        ⟨p.transform.translation.x + dt * p.transform.rotation.x,
          p.transform.translation.y + dt * (p.transform.rotation.y + c.projectileGravity * dt),
          p.transform.translation.z + dt * p.transform.rotation.z⟩) := by
  unfold updateProjectile
  simp only [Vec3.add, Vec3.smul, decide_eq_true_eq]

/-- The final value of `hitPlatform` is that of the loop over the entities at the
stored translation. -/
theorem updateProjectile_hitPlatform (c : KeyboardMovementController) (gameObjects : Map)
    (dt : ℚ) (p : LveGameObject) :
    ∃ velocity : Vec3,
      (updateProjectile c gameObjects dt p).hitPlatform =
        (collideWithObjects c (updateProjectile c gameObjects dt p).projectile.transform.translation
          gameObjects velocity).2 ∧
      (updateProjectile c gameObjects dt p).projectile.transform.rotation =
        (collideWithObjects c (updateProjectile c gameObjects dt p).projectile.transform.translation
          gameObjects velocity).1 ∧
      velocity =
        (if p.transform.translation.y + dt * (p.transform.rotation.y + c.projectileGravity * dt)
            ≤ c.groundLevel then
          ⟨p.transform.rotation.x * (9 / 10),
            -(p.transform.rotation.y + c.projectileGravity * dt) * c.bounceDamping,
            p.transform.rotation.z * (9 / 10)⟩
        else
          ⟨p.transform.rotation.x, p.transform.rotation.y + c.projectileGravity * dt,
            p.transform.rotation.z⟩) := by
  refine ⟨_, rfl, rfl, ?_⟩
  simp only [Vec3.add, Vec3.smul, decide_eq_true_eq]

/-- `updateProjectiles` applies the loop body to every entry of the projectile table,
in place: the entry at each position keeps its key and holds the stepped projectile. -/
theorem updateProjectiles_get (g : SimpleGame) (dt : ℚ) (i key : Nat) (p : LveGameObject)
    (h : g.projectiles[i]? = some (key, p)) :
    (g.updateProjectiles dt).projectiles[i]? =
      some (key, (updateProjectile g.cameraController g.gameObjects dt p).projectile) := by
  simp [SimpleGame.updateProjectiles, List.getElem?_map, h]

/-- C9: in `updateProjectiles`, when a projectile's integrated y is at or past the
ground test (y ≤ groundLevel) and, after the clamp, it lies in no meshed entity's box:
its y is set to exactly groundLevel, its stored vertical velocity becomes
-v * bounceDamping, where v is the vertical velocity after this tick's gravity, and
its x and z velocities are each multiplied by 0.9; no entity hit is registered.  With
the default bounceDamping = 0.7 the vertical velocity is sign-flipped and its
magnitude is 0.7 times (hence at most) that of v.  The stepped projectile is what
`updateProjectiles` stores at the projectile's place in the table. -/
theorem C9_ground_bounce (c : KeyboardMovementController) (gameObjects : Map) (dt : ℚ)
    (p : LveGameObject)
    (hGround :
      p.transform.translation.y + dt * (p.transform.rotation.y + c.projectileGravity * dt)
        ≤ c.groundLevel)
    (hNoBox : ∀ kv ∈ gameObjects, kv.2.model.isSome = true →
      withinBounds
        ⟨p.transform.translation.x + dt * p.transform.rotation.x, c.groundLevel,
          p.transform.translation.z + dt * p.transform.rotation.z⟩
        kv.2.transform.translation kv.2.transform.scale = false) :
    (updateProjectile c gameObjects dt p).bounced = true ∧
      (updateProjectile c gameObjects dt p).hitPlatform = false ∧
      (updateProjectile c gameObjects dt p).projectile.transform.translation.y = c.groundLevel ∧
      (updateProjectile c gameObjects dt p).projectile.transform.rotation.y =
        -(p.transform.rotation.y + c.projectileGravity * dt) * c.bounceDamping ∧
      (updateProjectile c gameObjects dt p).projectile.transform.rotation.x =
        p.transform.rotation.x * (9 / 10) ∧
      (updateProjectile c gameObjects dt p).projectile.transform.rotation.z =
        p.transform.rotation.z * (9 / 10) ∧
      (c.bounceDamping = 7 / 10 →
        |(updateProjectile c gameObjects dt p).projectile.transform.rotation.y| =
          7 / 10 * |p.transform.rotation.y + c.projectileGravity * dt| ∧
        |(updateProjectile c gameObjects dt p).projectile.transform.rotation.y| ≤
          |p.transform.rotation.y + c.projectileGravity * dt| ∧
        (updateProjectile c gameObjects dt p).projectile.transform.rotation.y *
          (p.transform.rotation.y + c.projectileGravity * dt) ≤ 0) ∧
      (∀ (g : SimpleGame) (i key : Nat), g.cameraController = c → g.gameObjects = gameObjects →
        g.projectiles[i]? = some (key, p) →
        (g.updateProjectiles dt).projectiles[i]? =
          some (key, (updateProjectile c gameObjects dt p).projectile)) := by
  have ht := updateProjectile_translation c gameObjects dt p
  rw [if_pos hGround] at ht
  obtain ⟨velocity, hHit, hRot, hVel⟩ := updateProjectile_hitPlatform c gameObjects dt p
  rw [if_pos hGround] at hVel
  rw [ht] at hHit hRot
  have hNo : (collideWithObjects c
      ⟨p.transform.translation.x + dt * p.transform.rotation.x, c.groundLevel,
        p.transform.translation.z + dt * p.transform.rotation.z⟩ gameObjects velocity).2
      = false := by
    rw [Bool.eq_false_iff]
    intro h
    obtain ⟨kv, hkv, hm, hb⟩ := (collideWithObjects_hit_iff c _ gameObjects velocity).1 h
    rw [hNoBox kv hkv hm] at hb
    exact Bool.false_ne_true hb
  have hRot' := collideWithObjects_of_no_hit c _ gameObjects velocity hNo
  rw [hRot'] at hRot
  rw [hNo] at hHit
  have hy : (updateProjectile c gameObjects dt p).projectile.transform.rotation.y =
      -(p.transform.rotation.y + c.projectileGravity * dt) * c.bounceDamping := by
    rw [hRot, hVel]
  refine ⟨?_, hHit, by rw [ht], hy, by rw [hRot, hVel], by rw [hRot, hVel], ?_,
    fun g i key hc hg hi => by rw [← hc, ← hg]; exact updateProjectiles_get g dt i key p hi⟩
  · unfold updateProjectile
    simp only [Vec3.add, Vec3.smul, decide_eq_true_eq]
    exact hGround
  · intro hd
    rw [hy, hd]
    have habs : |-(p.transform.rotation.y + c.projectileGravity * dt) * (7 / 10 : ℚ)| =
        7 / 10 * |p.transform.rotation.y + c.projectileGravity * dt| := by
      rw [abs_mul, abs_neg, abs_of_pos (by norm_num : (0 : ℚ) < 7 / 10), mul_comm]
    refine ⟨habs, ?_, ?_⟩
    · rw [habs]
      have := abs_nonneg (p.transform.rotation.y + c.projectileGravity * dt)
      linarith
    · nlinarith [mul_self_nonneg (p.transform.rotation.y + c.projectileGravity * dt)]

/-- C9 on the default controller, one target cube, dt = 1/10 and a projectile at
(0, -1, 0) with velocity (10, 5, -10): y becomes 0, the vertical velocity
-(5 - 1.5) * 0.7 and the horizontal velocities 9 and -9. -/
theorem C9_ground_bounce_witness :
    (updateProjectile {} sampleTargets (1 / 10)
        (projectileAt ⟨0, -1, 0⟩ ⟨10, 5, -10⟩)).projectile.transform.translation.y = 0 ∧
      (updateProjectile {} sampleTargets (1 / 10)
        (projectileAt ⟨0, -1, 0⟩ ⟨10, 5, -10⟩)).projectile.transform.rotation.y =
          -(5 + -15 * (1 / 10)) * (7 / 10) ∧
      (updateProjectile {} sampleTargets (1 / 10)
        (projectileAt ⟨0, -1, 0⟩ ⟨10, 5, -10⟩)).projectile.transform.rotation.x = 10 * (9 / 10) ∧
      (updateProjectile {} sampleTargets (1 / 10)
        (projectileAt ⟨0, -1, 0⟩ ⟨10, 5, -10⟩)).projectile.transform.rotation.z
          = -10 * (9 / 10) :=
  have h := C9_ground_bounce {} sampleTargets (1 / 10) (projectileAt ⟨0, -1, 0⟩ ⟨10, 5, -10⟩)
    (by norm_num [projectileAt])
    (by
      intro kv hkv _
      simp only [sampleTargets, List.mem_singleton] at hkv
      subst hkv
      rw [Bool.eq_false_iff, Ne, withinBounds_iff]
      norm_num [projectileAt])
  ⟨h.2.2.1, h.2.2.2.1, h.2.2.2.2.1, h.2.2.2.2.2.1⟩

/-- C10: `updateProjectiles` registers an entity hit for a projectile if and only if
some main-table entity o with a mesh satisfies
o.pos.a - o.scale.a ≤ p.a ≤ o.pos.a + o.scale.a on every axis a, p being the
projectile's position after integration and ground clamp (the translation the tick
stores).  In particular a projectile whose distance from the centre of a meshed
entity equals the scale on some axes (a face, an edge or a corner of the box) and is
smaller on the others counts as a hit.  The stepped projectile is what
`updateProjectiles` stores at the projectile's place in the table. -/
theorem C10_entity_hit_iff_inclusive_bounds (c : KeyboardMovementController)
    (gameObjects : Map) (dt : ℚ) (p : LveGameObject) :
    ((updateProjectile c gameObjects dt p).hitPlatform = true ↔
        ∃ kv ∈ gameObjects, kv.2.model ≠ none ∧
          (kv.2.transform.translation.x - kv.2.transform.scale.x ≤
              (updateProjectile c gameObjects dt p).projectile.transform.translation.x ∧
            (updateProjectile c gameObjects dt p).projectile.transform.translation.x ≤
              kv.2.transform.translation.x + kv.2.transform.scale.x) ∧
          (kv.2.transform.translation.y - kv.2.transform.scale.y ≤
              (updateProjectile c gameObjects dt p).projectile.transform.translation.y ∧
            (updateProjectile c gameObjects dt p).projectile.transform.translation.y ≤
              kv.2.transform.translation.y + kv.2.transform.scale.y) ∧
          (kv.2.transform.translation.z - kv.2.transform.scale.z ≤
              (updateProjectile c gameObjects dt p).projectile.transform.translation.z ∧
            (updateProjectile c gameObjects dt p).projectile.transform.translation.z ≤
              kv.2.transform.translation.z + kv.2.transform.scale.z)) ∧
      (∀ kv ∈ gameObjects, kv.2.model ≠ none →
        (|(updateProjectile c gameObjects dt p).projectile.transform.translation.x -
            kv.2.transform.translation.x| = kv.2.transform.scale.x ∨
          |(updateProjectile c gameObjects dt p).projectile.transform.translation.x -
            kv.2.transform.translation.x| < kv.2.transform.scale.x) →
        (|(updateProjectile c gameObjects dt p).projectile.transform.translation.y -
            kv.2.transform.translation.y| = kv.2.transform.scale.y ∨
          |(updateProjectile c gameObjects dt p).projectile.transform.translation.y -
            kv.2.transform.translation.y| < kv.2.transform.scale.y) →
        (|(updateProjectile c gameObjects dt p).projectile.transform.translation.z -
            kv.2.transform.translation.z| = kv.2.transform.scale.z ∨
          |(updateProjectile c gameObjects dt p).projectile.transform.translation.z -
            kv.2.transform.translation.z| < kv.2.transform.scale.z) →
        (updateProjectile c gameObjects dt p).hitPlatform = true) ∧
      (∀ (g : SimpleGame) (i key : Nat), g.cameraController = c → g.gameObjects = gameObjects →
        g.projectiles[i]? = some (key, p) →
        (g.updateProjectiles dt).projectiles[i]? =
          some (key, (updateProjectile c gameObjects dt p).projectile)) := by
  obtain ⟨velocity, hHit, -, -⟩ := updateProjectile_hitPlatform c gameObjects dt p
  have key : (updateProjectile c gameObjects dt p).hitPlatform = true ↔
      ∃ kv ∈ gameObjects, kv.2.model ≠ none ∧
        (kv.2.transform.translation.x - kv.2.transform.scale.x ≤
            (updateProjectile c gameObjects dt p).projectile.transform.translation.x ∧
          (updateProjectile c gameObjects dt p).projectile.transform.translation.x ≤
            kv.2.transform.translation.x + kv.2.transform.scale.x) ∧
        (kv.2.transform.translation.y - kv.2.transform.scale.y ≤
            (updateProjectile c gameObjects dt p).projectile.transform.translation.y ∧
          (updateProjectile c gameObjects dt p).projectile.transform.translation.y ≤
            kv.2.transform.translation.y + kv.2.transform.scale.y) ∧
        (kv.2.transform.translation.z - kv.2.transform.scale.z ≤
            (updateProjectile c gameObjects dt p).projectile.transform.translation.z ∧
          (updateProjectile c gameObjects dt p).projectile.transform.translation.z ≤
            kv.2.transform.translation.z + kv.2.transform.scale.z) := by
    rw [hHit, collideWithObjects_hit_iff]
    constructor
    · rintro ⟨kv, hkv, hm, hb⟩
      refine ⟨kv, hkv, ?_, (withinBounds_iff _ _ _).1 hb⟩
      intro hnone; rw [hnone] at hm; exact Bool.false_ne_true hm
    · rintro ⟨kv, hkv, hm, hb⟩
      exact ⟨kv, hkv, Option.isSome_iff_ne_none.2 hm, (withinBounds_iff _ _ _).2 hb⟩
  refine ⟨key, ?_,
    fun g i k hc hg hi => by rw [← hc, ← hg]; exact updateProjectiles_get g dt i k p hi⟩
  intro kv hkv hm hx hy hz
  have hle : ∀ a b s : ℚ, (|a - b| = s ∨ |a - b| < s) → b - s ≤ a ∧ a ≤ b + s := by
    intro a b s h
    have h' : |a - b| ≤ s := by
      rcases h with h | h
      · exact h.le
      · exact h.le
    have := abs_le.1 h'
    constructor <;> linarith [this.1, this.2]
  exact key.2 ⟨kv, hkv, hm, hle _ _ _ hx, hle _ _ _ hy, hle _ _ _ hz⟩

/-- C10 on the default controller and one target cube at (3, 0, 1) with scale 0.3: a
projectile that the tick moves to the corner (3.3, 0.3, 1.3) of its box is a hit. -/
theorem C10_entity_hit_iff_inclusive_bounds_witness :
    (updateProjectile {} sampleTargets (1 / 10)
        (projectileAt ⟨16 / 5, 3 / 10, 13 / 10⟩ ⟨1, 3 / 2, 0⟩)).projectile.transform.translation
        = ⟨33 / 10, 3 / 10, 13 / 10⟩ ∧
      (updateProjectile {} sampleTargets (1 / 10)
        (projectileAt ⟨16 / 5, 3 / 10, 13 / 10⟩ ⟨1, 3 / 2, 0⟩)).hitPlatform = true :=
  have ht : (updateProjectile {} sampleTargets (1 / 10)
      (projectileAt ⟨16 / 5, 3 / 10, 13 / 10⟩ ⟨1, 3 / 2, 0⟩)).projectile.transform.translation
      = ⟨33 / 10, 3 / 10, 13 / 10⟩ := by
    rw [updateProjectile_translation]
    norm_num [projectileAt]
  ⟨ht,
   (C10_entity_hit_iff_inclusive_bounds {} sampleTargets (1 / 10)
      (projectileAt ⟨16 / 5, 3 / 10, 13 / 10⟩ ⟨1, 3 / 2, 0⟩)).2.1
      (8, { id := 8, model := some 3, color := ⟨1, 1 / 5, 1 / 5⟩,
            transform := { translation := ⟨3, 0, 1⟩, scale := ⟨3 / 10, 3 / 10, 3 / 10⟩ } })
      (by simp [sampleTargets]) (by simp)
      (by rw [ht]; left; norm_num [abs_of_pos])
      (by rw [ht]; left; norm_num [abs_of_pos])
      (by rw [ht]; left; norm_num [abs_of_pos])⟩

/-- The jump test of `moveInPlaneXZ` and what the call leaves of the key mapping and
the shoot flag. -/
theorem moveInPlaneXZ_jump (L : Lib) (c : KeyboardMovementController) (flag : Bool)
    (window : GLFWwindow) (dt : ℚ) (gameObject : LveGameObject) :
    (c.moveInPlaneXZ L flag window dt gameObject).jumped =
        ((c.moveInPlaneXZ L flag window dt gameObject).jumpSampled &&
          glfwGetKey window c.keys.jump && !flag &&
          (c.moveInPlaneXZ L flag window dt gameObject).jumpOnGround) ∧
      (c.moveInPlaneXZ L flag window dt gameObject).jumpKeyWasPressed =
        (if (c.moveInPlaneXZ L flag window dt gameObject).jumpSampled then
          glfwGetKey window c.keys.jump else flag) ∧
      (c.moveInPlaneXZ L flag window dt gameObject).controller.keys = c.keys ∧
      (c.moveInPlaneXZ L flag window dt gameObject).controller.mouseButtonWasPressed =
        c.mouseButtonWasPressed := by
  unfold KeyboardMovementController.moveInPlaneXZ
  by_cases h : glfwGetKey window c.keys.exitGame = true
  · simp [h]
  · simp [h]

/-- What `handleShooting` returns and leaves of the flags and the key mapping. -/
theorem handleShooting_flags (L : Lib) (g : SimpleGame) (window : GLFWwindow) :
    (g.handleShooting L window).2 =
        (glfwGetMouseButton window g.cameraController.keys.shoot &&
          !g.cameraController.mouseButtonWasPressed) ∧
      (g.handleShooting L window).1.cameraController.mouseButtonWasPressed =
        glfwGetMouseButton window g.cameraController.keys.shoot ∧
      (g.handleShooting L window).1.cameraController.keys = g.cameraController.keys ∧
      (g.handleShooting L window).1.statics.jumpKeyWasPressed = g.statics.jumpKeyWasPressed ∧
      (g.handleShooting L window).1.statics.gamePauseKeyWasPressed =
        g.statics.gamePauseKeyWasPressed ∧
      (g.handleShooting L window).1.statics.menuEnterKeyWasPressed =
        g.statics.menuEnterKeyWasPressed := by
  unfold SimpleGame.handleShooting KeyboardMovementController.shouldShoot
  dsimp only
  split_ifs with h
  · exact ⟨h.symm ▸ rfl, rfl, rfl, rfl, rfl, rfl⟩
  · refine ⟨?_, rfl, rfl, rfl, rfl, rfl⟩
    simpa using h

/-- A call of `handleGameInput` whose key checks leave the state PLAYING: the two key
flags are stored and the four per-frame updates run in order. -/
theorem handleGameInput_of_stay (L : Lib) (g : SimpleGame) (window : GLFWwindow)
    (frameTime : ℚ)
    (h : (if gameEscapeKeyDownDetected g window then GameState.MENU
       else if pauseKeyDownDetected g window then GameState.PAUSED else g.gameState)
        = GameState.PLAYING) :
    g.handleGameInput L window frameTime =
      ((SimpleGame.handleShooting L
          (SimpleGame.updateWeapon L
            { g with
              gameState := GameState.PLAYING
              cameraController :=
                (g.cameraController.moveInPlaneXZ L g.statics.jumpKeyWasPressed window frameTime
                  g.viewerObject).controller
              viewerObject :=
                (g.cameraController.moveInPlaneXZ L g.statics.jumpKeyWasPressed window frameTime
                  g.viewerObject).gameObject
              windowShouldClose :=
                g.windowShouldClose ||
                  (g.cameraController.moveInPlaneXZ L g.statics.jumpKeyWasPressed window frameTime
                    g.viewerObject).closeRequested
              statics :=
                { g.statics with
                  gamePauseKeyWasPressed := glfwGetKey window g.cameraController.keys.pauseGame
                  gameEscapeKeyWasPressed := glfwGetKey window g.cameraController.keys.exitGame
                  jumpKeyWasPressed :=
                    (g.cameraController.moveInPlaneXZ L g.statics.jumpKeyWasPressed window
                      frameTime g.viewerObject).jumpKeyWasPressed } })
          window).1.updateProjectiles frameTime,
       { calledHandleGameInput := true
         pauseKeyDown := pauseKeyDownDetected g window
         gameEscapeKeyDown := gameEscapeKeyDownDetected g window
         calledMoveInPlaneXZ := true
         calledUpdateWeapon := true
         calledHandleShooting := true
         calledUpdateProjectiles := true
         jumpSampled :=
           (g.cameraController.moveInPlaneXZ L g.statics.jumpKeyWasPressed window frameTime
             g.viewerObject).jumpSampled
         jumpOnGround :=
           (g.cameraController.moveInPlaneXZ L g.statics.jumpKeyWasPressed window frameTime
             g.viewerObject).jumpOnGround
         jumped :=
           (g.cameraController.moveInPlaneXZ L g.statics.jumpKeyWasPressed window frameTime
             g.viewerObject).jumped
         shot :=
           (SimpleGame.handleShooting L
             (SimpleGame.updateWeapon L
               { g with
                 gameState := GameState.PLAYING
                 cameraController :=
                   (g.cameraController.moveInPlaneXZ L g.statics.jumpKeyWasPressed window
                     frameTime g.viewerObject).controller
                 viewerObject :=
                   (g.cameraController.moveInPlaneXZ L g.statics.jumpKeyWasPressed window
                     frameTime g.viewerObject).gameObject
                 windowShouldClose :=
                   g.windowShouldClose ||
                     (g.cameraController.moveInPlaneXZ L g.statics.jumpKeyWasPressed window
                       frameTime g.viewerObject).closeRequested
                 statics :=
                   { g.statics with
                     gamePauseKeyWasPressed := glfwGetKey window g.cameraController.keys.pauseGame
                     gameEscapeKeyWasPressed := glfwGetKey window g.cameraController.keys.exitGame
                     jumpKeyWasPressed :=
                       (g.cameraController.moveInPlaneXZ L g.statics.jumpKeyWasPressed window
                         frameTime g.viewerObject).jumpKeyWasPressed } })
             window).2 }) := by
  unfold gameEscapeKeyDownDetected pauseKeyDownDetected at h ⊢
  unfold SimpleGame.handleGameInput
  dsimp only
  rw [if_pos h, h]

/-- One call of `handleGameInput` and the four actions: the key mapping is kept; an
action's flag takes the sampled key state if its test read the key and is kept
otherwise; the action fired exactly if its test read the key, the key is pressed, the
flag was not set and the test's further condition held. -/
theorem handleGameInput_actions (L : Lib) (g : SimpleGame) (window : GLFWwindow)
    (frameTime : ℚ) (a : Action) :
    (g.handleGameInput L window frameTime).1.cameraController.keys = g.cameraController.keys ∧
      a.flag (g.handleGameInput L window frameTime).1 =
        (if a.sampled (g.handleGameInput L window frameTime).2 then
          a.pressed g.cameraController.keys window else a.flag g) ∧
      a.fired (g.handleGameInput L window frameTime).2 =
        (a.sampled (g.handleGameInput L window frameTime).2 &&
          a.pressed g.cameraController.keys window && !a.flag g &&
          a.enabled (g.handleGameInput L window frameTime).2) := by
  by_cases hPlaying : (if gameEscapeKeyDownDetected g window then GameState.MENU
       else if pauseKeyDownDetected g window then GameState.PAUSED else g.gameState)
        = GameState.PLAYING
  · -- the state is still PLAYING: the four updates run
    rw [handleGameInput_of_stay L g window frameTime hPlaying]
    obtain ⟨m1, m2, m3, m4⟩ :=
      moveInPlaneXZ_jump L g.cameraController g.statics.jumpKeyWasPressed window frameTime
        g.viewerObject
    generalize g.cameraController.moveInPlaneXZ L g.statics.jumpKeyWasPressed window
      frameTime g.viewerObject = mv at m1 m2 m3 m4 ⊢
    generalize hg2 : SimpleGame.updateWeapon L _ = g2
    have k1 : g2.cameraController = mv.controller := by rw [← hg2]; rfl
    have k2 : g2.statics.jumpKeyWasPressed = mv.jumpKeyWasPressed := by rw [← hg2]; rfl
    have k3 : g2.statics.gamePauseKeyWasPressed =
        glfwGetKey window g.cameraController.keys.pauseGame := by rw [← hg2]; rfl
    have k4 : g2.statics.menuEnterKeyWasPressed = g.statics.menuEnterKeyWasPressed := by
      rw [← hg2]; rfl
    obtain ⟨s1, s2, s3, s4, s5, s6⟩ := handleShooting_flags L g2 window
    rw [k1, m3] at s1 s2 s3
    rw [m4] at s1
    refine ⟨s3, ?_, ?_⟩
    · cases a
      · show (g2.handleShooting L window).1.statics.jumpKeyWasPressed = _
        rw [s4, k2, m2]; rfl
      · show (g2.handleShooting L window).1.cameraController.mouseButtonWasPressed = _
        rw [s2]; rfl
      · show (g2.handleShooting L window).1.statics.gamePauseKeyWasPressed = _
        rw [s5, k3]; rfl
      · show (g2.handleShooting L window).1.statics.menuEnterKeyWasPressed = _
        rw [s6, k4]; rfl
    · cases a
      · show mv.jumped = _
        rw [m1]; rfl
      · show (g2.handleShooting L window).2 = _
        rw [s1]; simp [Action.sampled, Action.pressed, Action.flag, Action.enabled]
      · simp [Action.fired, Action.sampled, Action.pressed, Action.flag, Action.enabled,
          pauseKeyDownDetected]
      · simp [Action.fired, Action.sampled, Action.pressed, Action.flag, Action.enabled]
  · rw [handleGameInput_of_leave L g window frameTime hPlaying]
    refine ⟨rfl, ?_, ?_⟩
    · cases a <;> simp [Action.sampled, Action.pressed, Action.flag]
    · cases a <;>
        simp [Action.fired, Action.sampled, Action.pressed, Action.flag, Action.enabled,
          pauseKeyDownDetected]

/-- One call of `handleMenuInput` and the four actions, as for `handleGameInput`. -/
theorem handleMenuInput_actions (g : SimpleGame) (window : GLFWwindow) (a : Action) :
    (g.handleMenuInput window).1.cameraController.keys = g.cameraController.keys ∧
      a.flag (g.handleMenuInput window).1 =
        (if a.sampled (g.handleMenuInput window).2 then
          a.pressed g.cameraController.keys window else a.flag g) ∧
      a.fired (g.handleMenuInput window).2 =
        (a.sampled (g.handleMenuInput window).2 &&
          a.pressed g.cameraController.keys window && !a.flag g &&
          a.enabled (g.handleMenuInput window).2) := by
  unfold SimpleGame.handleMenuInput
  cases hs : g.inSettings <;> cases hst : g.gameState <;>
    simp only [if_true, if_false, Bool.false_eq_true, reduceCtorEq] <;>
    cases a <;>
    simp [Action.fired, Action.sampled, Action.pressed, Action.flag, Action.enabled]

/-- One frame of the loop and the four actions: the key mapping is kept; an action's
flag takes the sampled key state if its test read the key and is kept otherwise; the
action fired exactly if its test read the key, the key is pressed, the flag was not
set and the test's further condition held. -/
theorem runFrame_actions (L : Lib) (g : SimpleGame) (f : Frame) (a : Action) :
    (g.runFrame L f).1.cameraController.keys = g.cameraController.keys ∧
      a.flag (g.runFrame L f).1 =
        (if a.sampled (g.runFrame L f).2 then
          a.pressed g.cameraController.keys f.window else a.flag g) ∧
      a.fired (g.runFrame L f).2 =
        (a.sampled (g.runFrame L f).2 &&
          a.pressed g.cameraController.keys f.window && !a.flag g &&
          a.enabled (g.runFrame L f).2) := by
  unfold SimpleGame.runFrame
  split
  · obtain ⟨h1, h2, h3⟩ := handleMenuInput_actions g f.window a
    refine ⟨h1, ?_, h3⟩
    rw [← h2]
    cases a <;> rfl
  · exact handleGameInput_actions L g f.window _ a
  · exact handleMenuInput_actions g f.window a

/-- A firing needs the key read as pressed with the flag not set and the further
condition of the test. -/
theorem runFrame_fired (L : Lib) (g : SimpleGame) (f : Frame) (a : Action)
    (h : a.fired (g.runFrame L f).2 = true) :
    a.sampled (g.runFrame L f).2 = true ∧ a.pressed g.cameraController.keys f.window = true ∧
      a.flag g = false ∧ a.enabled (g.runFrame L f).2 = true := by
  rw [(runFrame_actions L g f a).2.2] at h
  simp only [Bool.and_eq_true, Bool.not_eq_true'] at h
  exact ⟨h.1.1.1, h.1.1.2, h.1.2, h.2⟩

/-- A flag that is set stays set over a frame on which the key is pressed. -/
theorem runFrame_flag_of_pressed (L : Lib) (g : SimpleGame) (f : Frame) (a : Action)
    (hp : a.pressed g.cameraController.keys f.window = true)
    (hf : a.flag g = true ∨ a.sampled (g.runFrame L f).2 = true) :
    a.flag (g.runFrame L f).1 = true := by
  rw [(runFrame_actions L g f a).2.1]
  rcases hf with hf | hf
  · split_ifs
    · exact hp
    · exact hf
  · rw [if_pos hf]; exact hp

/-- The logs of a run pair up with the frames: every action that fired on a frame had
its key read as pressed there, with the further condition of its test. -/
theorem run_fired_pressed (L : Lib) (a : Action) (fs : List Frame) :
    ∀ (g : SimpleGame) (j : Nat) (lj : FrameLog), (SimpleGame.run L g fs).2[j]? = some lj →
      a.fired lj = true →
      a.sampled lj = true ∧ a.enabled lj = true ∧
        ∃ f, fs[j]? = some f ∧ a.pressed g.cameraController.keys f.window = true := by
  induction fs with
  | nil => intro g j lj h; simp [SimpleGame.run] at h
  | cons f0 rest ih =>
    intro g j lj h hfired
    by_cases hc : g.windowShouldClose = true
    · rw [run_of_closed L g _ hc] at h; simp at h
    · have hc' : g.windowShouldClose = false := by simpa using hc
      rw [run_cons_of_open L g f0 rest hc'] at h
      cases j with
      | zero =>
        simp only [List.getElem?_cons_zero, Option.some.injEq] at h
        subst h
        obtain ⟨h1, h2, -, h4⟩ := runFrame_fired L g f0 a hfired
        exact ⟨h1, h4, f0, by simp, h2⟩
      | succ j' =>
        simp only [List.getElem?_cons_succ] at h
        obtain ⟨h1, h2, f, h3, h4⟩ := ih _ j' lj h hfired
        rw [(runFrame_actions L g f0 a).1] at h4
        exact ⟨h1, h2, f, by simpa using h3, h4⟩

/-- When an action's flag is set, the action does not fire before a frame on which its
key is released. -/
theorem run_fired_of_flag (L : Lib) (a : Action) (fs : List Frame) :
    ∀ (g : SimpleGame) (j : Nat) (lj : FrameLog), (SimpleGame.run L g fs).2[j]? = some lj →
      a.fired lj = true → a.flag g = true →
      ∃ k f, k < j ∧ fs[k]? = some f ∧ a.pressed g.cameraController.keys f.window = false := by
  induction fs with
  | nil => intro g j lj h; simp [SimpleGame.run] at h
  | cons f0 rest ih =>
    intro g j lj h hfired hflag
    by_cases hc : g.windowShouldClose = true
    · rw [run_of_closed L g _ hc] at h; simp at h
    · have hc' : g.windowShouldClose = false := by simpa using hc
      rw [run_cons_of_open L g f0 rest hc'] at h
      cases j with
      | zero =>
        simp only [List.getElem?_cons_zero, Option.some.injEq] at h
        subst h
        obtain ⟨-, -, h3, -⟩ := runFrame_fired L g f0 a hfired
        rw [hflag] at h3
        exact absurd h3 (by decide)
      | succ j' =>
        simp only [List.getElem?_cons_succ] at h
        by_cases hp : a.pressed g.cameraController.keys f0.window = true
        · obtain ⟨k, f, hk, hf, hrel⟩ :=
            ih _ j' lj h hfired (runFrame_flag_of_pressed L g f0 a hp (Or.inl hflag))
          rw [(runFrame_actions L g f0 a).1] at hrel
          exact ⟨k + 1, f, by omega, by simpa using hf, hrel⟩
        · exact ⟨0, f0, by omega, by simp, by simpa using hp⟩

/-- Between two firings of an action there is a frame on which its key is released. -/
theorem run_no_refire (L : Lib) (a : Action) (fs : List Frame) :
    ∀ (g : SimpleGame) (i j : Nat) (li lj : FrameLog), i < j →
      (SimpleGame.run L g fs).2[i]? = some li → (SimpleGame.run L g fs).2[j]? = some lj →
      a.fired li = true → a.fired lj = true →
      ∃ k f, i < k ∧ k < j ∧ fs[k]? = some f ∧
        a.pressed g.cameraController.keys f.window = false := by
  induction fs with
  | nil => intro g i j li lj _ h; simp [SimpleGame.run] at h
  | cons f0 rest ih =>
    intro g i j li lj hij hi hj hfi hfj
    by_cases hc : g.windowShouldClose = true
    · rw [run_of_closed L g _ hc] at hi; simp at hi
    · have hc' : g.windowShouldClose = false := by simpa using hc
      rw [run_cons_of_open L g f0 rest hc'] at hi hj
      obtain ⟨j', rfl⟩ : ∃ j', j = j' + 1 := ⟨j - 1, by omega⟩
      simp only [List.getElem?_cons_succ] at hj
      cases i with
      | zero =>
        simp only [List.getElem?_cons_zero, Option.some.injEq] at hi
        subst hi
        obtain ⟨h1, h2, -, -⟩ := runFrame_fired L g f0 a hfi
        obtain ⟨k, f, hk, hf, hrel⟩ :=
          run_fired_of_flag L a rest _ j' lj hj hfj
            (runFrame_flag_of_pressed L g f0 a h2 (Or.inr h1))
        rw [(runFrame_actions L g f0 a).1] at hrel
        exact ⟨k + 1, f, by omega, by omega, by simpa using hf, hrel⟩
      | succ i' =>
        simp only [List.getElem?_cons_succ] at hi
        obtain ⟨k, f, hk1, hk2, hf, hrel⟩ := ih _ i' j' li lj (by omega) hi hj hfi hfj
        rw [(runFrame_actions L g f0 a).1] at hrel
        exact ⟨k + 1, f, by omega, by omega, by simpa using hf, hrel⟩

/-- An action fires on a frame on which its test reads the key as pressed directly
after a frame on which the same test read it as released, when the further condition
of the test holds. -/
theorem run_fire_on_key_down (L : Lib) (a : Action) (fs : List Frame) :
    ∀ (g : SimpleGame) (i : Nat) (f0 f1 : Frame) (l0 l1 : FrameLog),
      fs[i]? = some f0 → fs[i + 1]? = some f1 →
      (SimpleGame.run L g fs).2[i]? = some l0 → (SimpleGame.run L g fs).2[i + 1]? = some l1 →
      a.sampled l0 = true → a.pressed g.cameraController.keys f0.window = false →
      a.sampled l1 = true → a.pressed g.cameraController.keys f1.window = true →
      a.enabled l1 = true → a.fired l1 = true := by
  induction fs with
  | nil => intro g i f0 f1 l0 l1 h; simp at h
  | cons x rest ih =>
    intro g i f0 f1 l0 l1 hf0 hf1 hl0 hl1 hs0 hp0 hs1 hp1 he1
    by_cases hc : g.windowShouldClose = true
    · rw [run_of_closed L g _ hc] at hl0; simp at hl0
    · have hc' : g.windowShouldClose = false := by simpa using hc
      rw [run_cons_of_open L g x rest hc'] at hl0 hl1
      simp only [List.getElem?_cons_succ] at hf1 hl1
      obtain ⟨hk, hflag, -⟩ := runFrame_actions L g x a
      cases i with
      | zero =>
        simp only [List.getElem?_cons_zero, Option.some.injEq] at hf0 hl0
        subst hf0 hl0
        rw [if_pos hs0, hp0] at hflag
        -- the next frame is the head of the rest
        cases rest with
        | nil => simp at hf1
        | cons y rest' =>
          simp only [List.getElem?_cons_zero, Option.some.injEq] at hf1
          subst hf1
          by_cases hc1 : (g.runFrame L x).1.windowShouldClose = true
          · rw [run_of_closed L _ _ hc1] at hl1; simp at hl1
          · have hc1' : (g.runFrame L x).1.windowShouldClose = false := by simpa using hc1
            rw [run_cons_of_open L _ y rest' hc1'] at hl1
            simp only [List.getElem?_cons_zero, Option.some.injEq] at hl1
            subst hl1
            rw [(runFrame_actions L _ y a).2.2, hs1, hk, hp1, hflag, he1]
            rfl
      | succ i' =>
        simp only [List.getElem?_cons_succ] at hf0 hl0
        rw [← hk] at hp0 hp1
        exact ih _ i' f0 f1 l0 l1 hf0 hf1 hl0 hl1 hs0 hp0 hs1 hp1 he1

/-- C2 as amended: over every sequence of frames of the game loop, from any state,
each edge-triggered action (jump, fire, pause, menu-select) fires only on a frame on
which the code that detects it reads its key as pressed (for jump: with the viewer on
the ground) and at most once per maximal run of consecutive frames on which the key is
pressed: between two firings there is a frame on which the key is released.  It does
fire on a frame on which the detecting code reads the key as pressed directly after a
frame on which the same code read it as released (for jump: if the viewer is on the
ground at the jump test). -/
theorem C2_edge_triggered_actions_amended (L : Lib) (g : SimpleGame) (fs : List Frame)
    (a : Action) :
    (∀ (j : Nat) (lj : FrameLog), (SimpleGame.run L g fs).2[j]? = some lj →
        a.fired lj = true →
        a.sampled lj = true ∧ a.enabled lj = true ∧
          ∃ f, fs[j]? = some f ∧ a.pressed g.cameraController.keys f.window = true) ∧
      (∀ (i j : Nat) (li lj : FrameLog), i < j →
        (SimpleGame.run L g fs).2[i]? = some li → (SimpleGame.run L g fs).2[j]? = some lj →
        a.fired li = true → a.fired lj = true →
        ∃ k f, i < k ∧ k < j ∧ fs[k]? = some f ∧
          a.pressed g.cameraController.keys f.window = false) ∧
      (∀ (i : Nat) (f0 f1 : Frame) (l0 l1 : FrameLog),
        fs[i]? = some f0 → fs[i + 1]? = some f1 →
        (SimpleGame.run L g fs).2[i]? = some l0 → (SimpleGame.run L g fs).2[i + 1]? = some l1 →
        a.sampled l0 = true → a.pressed g.cameraController.keys f0.window = false →
        a.sampled l1 = true → a.pressed g.cameraController.keys f1.window = true →
        a.enabled l1 = true → a.fired l1 = true) :=
  ⟨run_fired_pressed L a fs g, run_no_refire L a fs g, run_fire_on_key_down L a fs g⟩

/-- C2 as amended, on the freshly constructed game with Enter released on the first
frame and pressed on the second: menu-select fires on the second frame. -/
theorem C2_edge_triggered_actions_amended_witness :
    Action.menuSelect.fired
      (((SimpleGame.new sampleLib).runFrame sampleLib (frameWith [] [])).1.runFrame sampleLib
        (frameWith [Key.ENTER] [])).2 = true :=
  (C2_edge_triggered_actions_amended sampleLib (SimpleGame.new sampleLib)
    [frameWith [] [], frameWith [Key.ENTER] []] Action.menuSelect).2.2 0
    (frameWith [] []) (frameWith [Key.ENTER] [])
    ((SimpleGame.new sampleLib).runFrame sampleLib (frameWith [] [])).2
    (((SimpleGame.new sampleLib).runFrame sampleLib (frameWith [] [])).1.runFrame sampleLib
      (frameWith [Key.ENTER] [])).2
    rfl rfl rfl rfl (by decide) (by decide) (by decide) (by decide) (by decide)

/-- C2 as stated fails.  On the freshly constructed game (MENU) the fire button is
pressed on the first frame and released on the second, a complete press-and-release
cycle, and fire does not fire: MENU frames never call `handleShooting`.  And with
Enter on the first frame (the game starts, the viewer at y = -2.5 above the ground
level 0), Space pressed on the second and released on the third, the jump test reads
the key on the second frame and jump does not fire: the viewer is not on the
ground. -/
theorem C2_edge_triggered_actions_counterexample :
    (Action.fire.pressed (SimpleGame.new sampleLib).cameraController.keys
        (frameWith [] [MouseButton.LEFT]).window = true ∧
      Action.fire.pressed (SimpleGame.new sampleLib).cameraController.keys
        (frameWith [] []).window = false ∧
      (SimpleGame.run sampleLib (SimpleGame.new sampleLib)
        [frameWith [] [MouseButton.LEFT], frameWith [] []]).2.map (Action.fired Action.fire)
        = [false, false]) ∧
    (Action.jump.pressed (SimpleGame.new sampleLib).cameraController.keys
        (frameWith [Key.ENTER] []).window = false ∧
      Action.jump.pressed (SimpleGame.new sampleLib).cameraController.keys
        (frameWith [Key.SPACE] []).window = true ∧
      Action.jump.pressed (SimpleGame.new sampleLib).cameraController.keys
        (frameWith [] []).window = false ∧
      (SimpleGame.run sampleLib (SimpleGame.new sampleLib)
        [frameWith [Key.ENTER] [], frameWith [Key.SPACE] [], frameWith [] []]).2.map
          (Action.sampled Action.jump) = [false, true, true] ∧
      (SimpleGame.run sampleLib (SimpleGame.new sampleLib)
        [frameWith [Key.ENTER] [], frameWith [Key.SPACE] [], frameWith [] []]).2.map
          (Action.fired Action.jump) = [false, false, false]) := by
  refine ⟨⟨by decide, by decide, by decide⟩, by decide, by decide, by decide, ?_, ?_⟩
  · with_unfolding_all decide
  · with_unfolding_all decide

/-- A press that the flags miss: on the freshly constructed game, Enter on the first
frame starts the game and sets `enterKeyWasPressed`; P on the second frame pauses, and
`handleGameInput` does not update that flag although Enter is released; Enter pressed
again on the third frame is read by `handleMenuInput` in PAUSED with the flag still
set, so the game does not resume on that press. -/
theorem enter_press_after_pause_not_detected :
    (SimpleGame.run sampleLib (SimpleGame.new sampleLib)
        [frameWith [Key.ENTER] [], frameWith [Key.P] [], frameWith [Key.ENTER] [],
          frameWith [] []]).2.map (Action.sampled Action.menuSelect)
        = [true, false, true, true] ∧
      (SimpleGame.run sampleLib (SimpleGame.new sampleLib)
        [frameWith [Key.ENTER] [], frameWith [Key.P] [], frameWith [Key.ENTER] [],
          frameWith [] []]).2.map (Action.fired Action.menuSelect)
        = [true, false, false, false] ∧
      (SimpleGame.run sampleLib (SimpleGame.new sampleLib)
        [frameWith [Key.ENTER] [], frameWith [Key.P] [], frameWith [Key.ENTER] [],
          frameWith [] []]).1.gameState = GameState.PAUSED := by
  refine ⟨by decide, by decide, by decide⟩

/-! ### Drawing -/

/-- With a non-zero extent the waiting loop of `recreateSwapChain` is not entered. -/
theorem waitForExtent_of_nonzero (window : ve_window) (extent : VkExtent2D)
    (waits : List (List (Nat × Nat))) (hw : extent.width ≠ 0) (hh : extent.height ≠ 0) :
    waitForExtent window extent waits = some (window, extent) := by
  cases waits <;> simp [waitForExtent, hw, hh]

/-- The errors `recreateSwapChain` can throw are those of the swap-chain constructor,
of `createCommandBuffers` and of the pipeline constructor. -/
theorem recreateSwapChain_raised (r : RenderState) (env : RecreateInput) (f : Failure)
    (h : r.recreateSwapChain env = Outcome.raised f) :
    f = Failure.createSwapChain ∨ f = Failure.allocateCommandBuffers ∨
      f = Failure.createPipeline := by
  unfold RenderState.recreateSwapChain at h
  split at h
  · simp at h
  · dsimp only at h
    split_ifs at h <;> (injection h with h; subst h; simp)

/-- `recreateSwapChain` on a window of non-zero size whose constructions and
allocation succeed: it returns with the new swap chain, the pipeline built for it,
and the command buffers reallocated exactly when there was a swap chain and the new
image count differs from their number. -/
theorem recreateSwapChain_of_success (r : RenderState) (env : RecreateInput)
    (hw : r.lveWindow.width ≠ 0) (hh : r.lveWindow.height ≠ 0)
    (hs : env.swapChainBuilt = true) (hp : env.pipelineBuilt = true)
    (ha : env.allocateResult = VK_SUCCESS ∨ r.lveSwapChain = none ∨
      env.imageCount = r.commandBuffers) :
    r.recreateSwapChain env =
      Outcome.returned
        { lveWindow := r.lveWindow
          lveSwapChain := some { imageCount := env.imageCount, extent := r.lveWindow.getExtent }
          lvePipeline := some { imageCount := env.imageCount, extent := r.lveWindow.getExtent }
          commandBuffers :=
            if r.lveSwapChain.isSome && decide (env.imageCount ≠ r.commandBuffers) then
              env.imageCount
            else r.commandBuffers } := by
  unfold RenderState.recreateSwapChain
  rw [waitForExtent_of_nonzero r.lveWindow r.lveWindow.getExtent env.waits hw hh]
  simp only [hs, hp, Bool.true_eq_false, if_false]
  rw [if_neg]
  rcases ha with ha | ha | ha
  · simp [ha]
  · simp [ha]
  · simp [ha]

/-- What `drawFrame` does when `acquireNextImage` reports out-of-date. -/
theorem drawFrame_of_acquire_out_of_date (g : SimpleGame) (r : RenderState) (inp : DrawInput)
    (h : inp.acquireResult = VK_ERROR_OUT_OF_DATE_KHR) :
    g.drawFrame r inp =
      (r.recreateSwapChain inp.recreate,
        [DrawEvent.acquireNextImage, DrawEvent.recreateSwapChain]) := by
  unfold SimpleGame.drawFrame
  rw [if_pos h]

/-- C11 as amended: when `acquireNextImage` reports out-of-date, `drawFrame` calls
`recreateSwapChain` exactly once and records, submits and presents no command buffer;
it raises no error of its own and ends as that call of `recreateSwapChain` ends.  It
returns normally whenever the window has non-zero size, the swap chain and the
pipeline are built, and the command buffers are either not reallocated or allocated
with success. -/
theorem C11_acquire_out_of_date_amended (g : SimpleGame) (r : RenderState) (inp : DrawInput)
    (h : inp.acquireResult = VK_ERROR_OUT_OF_DATE_KHR) :
    (g.drawFrame r inp).2 = [DrawEvent.acquireNextImage, DrawEvent.recreateSwapChain] ∧
      (g.drawFrame r inp).2.count DrawEvent.recreateSwapChain = 1 ∧
      (∀ e ∈ (g.drawFrame r inp).2, ∀ (i : Nat) (draws : List DrawCommand),
        e ≠ DrawEvent.recordCommandBuffer i draws ∧ e ≠ DrawEvent.submitCommandBuffers i) ∧
      (g.drawFrame r inp).1 = r.recreateSwapChain inp.recreate ∧
      (g.drawFrame r inp).1 ≠ Outcome.raised Failure.acquireSwapChainImage ∧
      (g.drawFrame r inp).1 ≠ Outcome.raised Failure.presentSwapChainImage ∧
      (r.lveWindow.width ≠ 0 → r.lveWindow.height ≠ 0 →
        inp.recreate.swapChainBuilt = true → inp.recreate.pipelineBuilt = true →
        (inp.recreate.allocateResult = VK_SUCCESS ∨ r.lveSwapChain = none ∨
          inp.recreate.imageCount = r.commandBuffers) →
        ∃ r', (g.drawFrame r inp).1 = Outcome.returned r' ∧
          r'.lveSwapChain =
            some { imageCount := inp.recreate.imageCount, extent := r.lveWindow.getExtent }) := by
  rw [drawFrame_of_acquire_out_of_date g r inp h]
  refine ⟨rfl, by simp, ?_, rfl, ?_, ?_, ?_⟩
  · intro e he i draws
    simp only [List.mem_cons, List.mem_singleton, List.not_mem_nil, or_false] at he
    rcases he with rfl | rfl <;> exact ⟨by simp, by simp⟩
  · intro hr
    have := recreateSwapChain_raised r inp.recreate _ hr
    simp at this
  · intro hr
    have := recreateSwapChain_raised r inp.recreate _ hr
    simp at this
  · intro hw hh hs hp ha
    exact ⟨_, recreateSwapChain_of_success r inp.recreate hw hh hs hp ha, rfl⟩

/-- C11 as amended, at a constructed render state with an out-of-date acquire: the
call recreates the swap chain once, records and submits nothing, and returns. -/
theorem C11_acquire_out_of_date_amended_witness :
    ((SimpleGame.new sampleLib).drawFrame sampleRender
        (drawInputWith VK_ERROR_OUT_OF_DATE_KHR VK_SUCCESS)).2
        = [DrawEvent.acquireNextImage, DrawEvent.recreateSwapChain] ∧
      ∃ r', ((SimpleGame.new sampleLib).drawFrame sampleRender
        (drawInputWith VK_ERROR_OUT_OF_DATE_KHR VK_SUCCESS)).1 = Outcome.returned r' ∧
        r'.lveSwapChain = some { imageCount := 2, extent := ⟨900, 660⟩ } :=
  ⟨(C11_acquire_out_of_date_amended (SimpleGame.new sampleLib) sampleRender
      (drawInputWith VK_ERROR_OUT_OF_DATE_KHR VK_SUCCESS) rfl).1,
   (C11_acquire_out_of_date_amended (SimpleGame.new sampleLib) sampleRender
      (drawInputWith VK_ERROR_OUT_OF_DATE_KHR VK_SUCCESS) rfl).2.2.2.2.2.2
      (by decide) (by decide) rfl rfl (Or.inl rfl)⟩

/-- C11 as stated fails: with an out-of-date acquire, when the rebuilt swap chain has
three images instead of two and `vkAllocateCommandBuffers` fails, `createCommandBuffers`
throws inside `recreateSwapChain` and `drawFrame` does not return normally; and when
the window has zero size and no event arrives, `drawFrame` does not return at all. -/
theorem C11_acquire_out_of_date_counterexample :
    ((SimpleGame.new sampleLib).drawFrame sampleRender
        { acquireResult := VK_ERROR_OUT_OF_DATE_KHR, imageIndex := 0, submitResult := VK_SUCCESS,
          recreate := { imageCount := 3, allocateResult := VK_ERROR_DEVICE_LOST } }).1
        = Outcome.raised Failure.allocateCommandBuffers ∧
      ((SimpleGame.new sampleLib).drawFrame
        { sampleRender with lveWindow := { width := 0, height := 0 } }
        (drawInputWith VK_ERROR_OUT_OF_DATE_KHR VK_SUCCESS)).1 = Outcome.blocked := by
  constructor <;> decide

/-- The error of `recordCommandBuffer`: that of a failed `vkBeginCommandBuffer`, else
that of a failed `vkEndCommandBuffer`, else none. -/
theorem recordCommandBuffer_failure (g : SimpleGame) (imageIndex : Nat)
    (beginResult endResult : VkResult) :
    (g.recordCommandBuffer imageIndex beginResult endResult).failure =
      (if beginResult ≠ VK_SUCCESS then some Failure.beginRecording
       else if endResult ≠ VK_SUCCESS then some Failure.endRecording else none) := by
  unfold SimpleGame.recordCommandBuffer
  split_ifs <;> rfl

/-- `drawFrame` with an acquire result that is none of success, suboptimal and
out-of-date. -/
theorem drawFrame_of_acquire_unexpected (g : SimpleGame) (r : RenderState) (inp : DrawInput)
    (h1 : inp.acquireResult ≠ VK_SUCCESS) (h2 : inp.acquireResult ≠ VK_SUBOPTIMAL_KHR)
    (h3 : inp.acquireResult ≠ VK_ERROR_OUT_OF_DATE_KHR) :
    g.drawFrame r inp =
      (Outcome.raised Failure.acquireSwapChainImage, [DrawEvent.acquireNextImage]) := by
  unfold SimpleGame.drawFrame
  rw [if_neg h3, if_pos ⟨h1, h2⟩]

/-- `drawFrame` after a successful or suboptimal acquire and a successful recording:
the frame is recorded and submitted; the swap chain is recreated when the present
result is out-of-date or suboptimal or the window was resized; else an unsuccessful
present result is raised; else the call returns. -/
theorem drawFrame_of_recorded (g : SimpleGame) (r : RenderState) (inp : DrawInput)
    (ha : inp.acquireResult = VK_SUCCESS ∨ inp.acquireResult = VK_SUBOPTIMAL_KHR)
    (hb : inp.beginResult = VK_SUCCESS) (he : inp.endResult = VK_SUCCESS) :
    g.drawFrame r inp =
      (if inp.submitResult = VK_ERROR_OUT_OF_DATE_KHR ∨ inp.submitResult = VK_SUBOPTIMAL_KHR ∨
          r.lveWindow.framebufferResized = true then
        ({ r with lveWindow := r.lveWindow.resetWindowResizedFlag }.recreateSwapChain
            inp.recreate,
          [DrawEvent.acquireNextImage,
            DrawEvent.recordCommandBuffer inp.imageIndex
              (g.recordCommandBuffer inp.imageIndex inp.beginResult inp.endResult).draws,
            DrawEvent.submitCommandBuffers inp.imageIndex, DrawEvent.recreateSwapChain])
      else if inp.submitResult ≠ VK_SUCCESS then
        (Outcome.raised Failure.presentSwapChainImage,
          [DrawEvent.acquireNextImage,
            DrawEvent.recordCommandBuffer inp.imageIndex
              (g.recordCommandBuffer inp.imageIndex inp.beginResult inp.endResult).draws,
            DrawEvent.submitCommandBuffers inp.imageIndex])
      else
        (Outcome.returned r,
          [DrawEvent.acquireNextImage,
            DrawEvent.recordCommandBuffer inp.imageIndex
              (g.recordCommandBuffer inp.imageIndex inp.beginResult inp.endResult).draws,
            DrawEvent.submitCommandBuffers inp.imageIndex])) := by
  have h3 : inp.acquireResult ≠ VK_ERROR_OUT_OF_DATE_KHR := by
    rcases ha with ha | ha <;> rw [ha] <;> decide
  have h4 : ¬(inp.acquireResult ≠ VK_SUCCESS ∧ inp.acquireResult ≠ VK_SUBOPTIMAL_KHR) := by
    rcases ha with ha | ha <;> simp [ha]
  have hf := recordCommandBuffer_failure g inp.imageIndex inp.beginResult inp.endResult
  rw [hb, he] at hf
  simp only [ne_eq, not_true_eq_false, if_false] at hf
  unfold SimpleGame.drawFrame
  rw [if_neg h3, if_neg h4]
  simp only [hb, he] at hf ⊢
  rw [hf]
  simp [ve_window.wasWindowResized]

/-- `drawFrame` after a successful or suboptimal acquire when the recording fails: the
error of the recording is raised and nothing is submitted. -/
theorem drawFrame_of_record_failed (g : SimpleGame) (r : RenderState) (inp : DrawInput)
    (ha : inp.acquireResult = VK_SUCCESS ∨ inp.acquireResult = VK_SUBOPTIMAL_KHR)
    (hr : inp.beginResult ≠ VK_SUCCESS ∨ inp.endResult ≠ VK_SUCCESS) :
    ((g.drawFrame r inp).1 = Outcome.raised Failure.beginRecording ∨
        (g.drawFrame r inp).1 = Outcome.raised Failure.endRecording) ∧
      ∀ i, DrawEvent.submitCommandBuffers i ∉ (g.drawFrame r inp).2 := by
  have h3 : inp.acquireResult ≠ VK_ERROR_OUT_OF_DATE_KHR := by
    rcases ha with ha | ha <;> rw [ha] <;> decide
  have h4 : ¬(inp.acquireResult ≠ VK_SUCCESS ∧ inp.acquireResult ≠ VK_SUBOPTIMAL_KHR) := by
    rcases ha with ha | ha <;> simp [ha]
  have hf := recordCommandBuffer_failure g inp.imageIndex inp.beginResult inp.endResult
  unfold SimpleGame.drawFrame
  rw [if_neg h3, if_neg h4]
  dsimp only
  rw [hf]
  by_cases hb : inp.beginResult = VK_SUCCESS
  · have he : inp.endResult ≠ VK_SUCCESS := by
      rcases hr with hr | hr
      · exact absurd hb hr
      · exact hr
    simp [hb, he]
  · simp [hb]

/-- How `drawFrame` ends, by the results of its calls. -/
theorem drawFrame_outcome (g : SimpleGame) (r : RenderState) (inp : DrawInput) :
    (g.drawFrame r inp).1 =
      (if inp.acquireResult = VK_ERROR_OUT_OF_DATE_KHR then r.recreateSwapChain inp.recreate
       else if inp.acquireResult ≠ VK_SUCCESS ∧ inp.acquireResult ≠ VK_SUBOPTIMAL_KHR then
         Outcome.raised Failure.acquireSwapChainImage
       else if inp.beginResult ≠ VK_SUCCESS then Outcome.raised Failure.beginRecording
       else if inp.endResult ≠ VK_SUCCESS then Outcome.raised Failure.endRecording
       else if inp.submitResult = VK_ERROR_OUT_OF_DATE_KHR ∨
           inp.submitResult = VK_SUBOPTIMAL_KHR ∨ r.lveWindow.framebufferResized = true then
         { r with lveWindow := r.lveWindow.resetWindowResizedFlag }.recreateSwapChain inp.recreate
       else if inp.submitResult ≠ VK_SUCCESS then Outcome.raised Failure.presentSwapChainImage
       else Outcome.returned r) := by
  unfold SimpleGame.drawFrame
  dsimp only
  rw [recordCommandBuffer_failure]
  simp only [ve_window.wasWindowResized]
  split_ifs <;> simp_all

/-- When `drawFrame` calls `recreateSwapChain`. -/
theorem drawFrame_recreates_iff (g : SimpleGame) (r : RenderState) (inp : DrawInput) :
    DrawEvent.recreateSwapChain ∈ (g.drawFrame r inp).2 ↔
      (inp.acquireResult = VK_ERROR_OUT_OF_DATE_KHR ∨
        ((inp.acquireResult = VK_SUCCESS ∨ inp.acquireResult = VK_SUBOPTIMAL_KHR) ∧
          inp.beginResult = VK_SUCCESS ∧ inp.endResult = VK_SUCCESS ∧
          (inp.submitResult = VK_ERROR_OUT_OF_DATE_KHR ∨
            inp.submitResult = VK_SUBOPTIMAL_KHR ∨ r.lveWindow.framebufferResized = true))) := by
  unfold SimpleGame.drawFrame
  dsimp only
  rw [recordCommandBuffer_failure]
  simp only [ve_window.wasWindowResized]
  split_ifs <;> (simp_all; try tauto)

/-- `recreateSwapChain` throws none of the errors of `drawFrame` and
`recordCommandBuffer`. -/
theorem recreateSwapChain_not_raised (r : RenderState) (env : RecreateInput) :
    r.recreateSwapChain env ≠ Outcome.raised Failure.acquireSwapChainImage ∧
      r.recreateSwapChain env ≠ Outcome.raised Failure.presentSwapChainImage ∧
      r.recreateSwapChain env ≠ Outcome.raised Failure.beginRecording ∧
      r.recreateSwapChain env ≠ Outcome.raised Failure.endRecording := by
  refine ⟨?_, ?_, ?_, ?_⟩ <;>
    (intro h; have := recreateSwapChain_raised r env _ h; simp at this)

/-- C12 as amended: `drawFrame` raises its acquire error exactly when the acquire
result is none of success, suboptimal and out-of-date, and its present error exactly
when the frame was recorded and submitted, the present result is none of success,
suboptimal and out-of-date, and the window is not marked resized.  When the window is
marked resized the present result is not examined: the flag is reset and the swap
chain is recreated, whatever the present result.  Every other error `drawFrame` ends
with is one thrown by `recordCommandBuffer` or inside `recreateSwapChain`; with a
successful acquire, recording and present and the window not resized it returns with
the render state as it was. -/
theorem C12_fatal_errors_amended (g : SimpleGame) (r : RenderState) (inp : DrawInput) :
    ((g.drawFrame r inp).1 = Outcome.raised Failure.acquireSwapChainImage ↔
        inp.acquireResult ≠ VK_SUCCESS ∧ inp.acquireResult ≠ VK_SUBOPTIMAL_KHR ∧
          inp.acquireResult ≠ VK_ERROR_OUT_OF_DATE_KHR) ∧
      ((g.drawFrame r inp).1 = Outcome.raised Failure.presentSwapChainImage ↔
        (inp.acquireResult = VK_SUCCESS ∨ inp.acquireResult = VK_SUBOPTIMAL_KHR) ∧
          inp.beginResult = VK_SUCCESS ∧ inp.endResult = VK_SUCCESS ∧
          inp.submitResult ≠ VK_SUCCESS ∧ inp.submitResult ≠ VK_SUBOPTIMAL_KHR ∧
          inp.submitResult ≠ VK_ERROR_OUT_OF_DATE_KHR ∧
          r.lveWindow.framebufferResized = false) ∧
      ((inp.acquireResult = VK_SUCCESS ∨ inp.acquireResult = VK_SUBOPTIMAL_KHR) →
        inp.beginResult = VK_SUCCESS → inp.endResult = VK_SUCCESS →
        r.lveWindow.framebufferResized = true →
        (g.drawFrame r inp).1 =
            { r with lveWindow := r.lveWindow.resetWindowResizedFlag }.recreateSwapChain
              inp.recreate ∧
          DrawEvent.recreateSwapChain ∈ (g.drawFrame r inp).2) ∧
      (∀ f, (g.drawFrame r inp).1 = Outcome.raised f →
        f = Failure.acquireSwapChainImage ∨ f = Failure.presentSwapChainImage ∨
          f = Failure.beginRecording ∨ f = Failure.endRecording ∨
          (DrawEvent.recreateSwapChain ∈ (g.drawFrame r inp).2 ∧
            (f = Failure.createSwapChain ∨ f = Failure.allocateCommandBuffers ∨
              f = Failure.createPipeline))) ∧
      ((inp.acquireResult = VK_SUCCESS ∨ inp.acquireResult = VK_SUBOPTIMAL_KHR) →
        inp.beginResult = VK_SUCCESS → inp.endResult = VK_SUCCESS →
        inp.submitResult = VK_SUCCESS → r.lveWindow.framebufferResized = false →
        (g.drawFrame r inp).1 = Outcome.returned r) := by
  have ho := drawFrame_outcome g r inp
  have hr := drawFrame_recreates_iff g r inp
  have n1 := recreateSwapChain_not_raised r inp.recreate
  have n2 := recreateSwapChain_not_raised
    { r with lveWindow := r.lveWindow.resetWindowResizedFlag } inp.recreate
  have q1 := recreateSwapChain_raised r inp.recreate
  have q2 := recreateSwapChain_raised
    { r with lveWindow := r.lveWindow.resetWindowResizedFlag } inp.recreate
  have d1 : VK_SUCCESS ≠ VK_ERROR_OUT_OF_DATE_KHR := by decide
  have d2 : VK_SUBOPTIMAL_KHR ≠ VK_ERROR_OUT_OF_DATE_KHR := by decide
  have d3 : VK_SUCCESS ≠ VK_SUBOPTIMAL_KHR := by decide
  refine ⟨?_, ?_, ?_, ?_, ?_⟩
  · rw [ho]
    split_ifs with h1 h2 h3 h4 h5 h6
    · exact ⟨fun h => absurd h n1.1, fun h => absurd h1 h.2.2⟩
    · exact ⟨fun _ => ⟨h2.1, h2.2, h1⟩, fun _ => rfl⟩
    all_goals
      refine ⟨?_, fun h => absurd ⟨h.1, h.2.1⟩ h2⟩
      first
      | exact fun h => absurd h n2.1
      | (intro h; simp at h)
  · rw [ho]
    split_ifs with h1 h2 h3 h4 h5 h6
    · refine ⟨fun h => absurd h n1.2.1, ?_⟩
      rintro ⟨h | h, -⟩
      · rw [h] at h1; exact absurd h1 d1
      · rw [h] at h1; exact absurd h1 d2
    · refine ⟨fun h => by simp at h, ?_⟩
      rintro ⟨h | h, -⟩
      · exact absurd h h2.1
      · exact absurd h h2.2
    · exact ⟨fun h => by simp at h, fun h => absurd h.2.1 h3⟩
    · exact ⟨fun h => by simp at h, fun h => absurd h.2.2.1 h4⟩
    · refine ⟨fun h => absurd h n2.2.1, ?_⟩
      rintro ⟨-, -, -, -, k2, k3, k4⟩
      rcases h5 with h | h | h
      · exact absurd h k3
      · exact absurd h k2
      · rw [k4] at h; exact absurd h (by decide)
    · refine ⟨fun _ => ⟨?_, not_not.1 h3, not_not.1 h4, h6, fun h => h5 (Or.inr (Or.inl h)),
        fun h => h5 (Or.inl h), ?_⟩, fun _ => rfl⟩
      · by_contra hc
        exact h2 ⟨fun h => hc (Or.inl h), fun h => hc (Or.inr h)⟩
      · cases hfl : r.lveWindow.framebufferResized
        · rfl
        · exact absurd (Or.inr (Or.inr hfl)) h5
    · exact ⟨fun h => by simp at h, fun h => absurd (not_not.1 h6) h.2.2.2.1⟩
  · intro hA hb he hres
    have h1 : inp.acquireResult ≠ VK_ERROR_OUT_OF_DATE_KHR := by
      rcases hA with h | h <;> rw [h]
      · exact d1
      · exact d2
    have h2 : ¬(inp.acquireResult ≠ VK_SUCCESS ∧ inp.acquireResult ≠ VK_SUBOPTIMAL_KHR) := by
      rintro ⟨k1, k2⟩
      rcases hA with h | h
      · exact k1 h
      · exact k2 h
    refine ⟨?_, hr.2 (Or.inr ⟨hA, hb, he, Or.inr (Or.inr hres)⟩)⟩
    rw [ho, if_neg h1, if_neg h2, if_neg (not_not.2 hb), if_neg (not_not.2 he),
      if_pos (Or.inr (Or.inr hres))]
  · intro f hf
    rw [ho] at hf
    split_ifs at hf with h1 h2 h3 h4 h5 h6
    · exact Or.inr (Or.inr (Or.inr (Or.inr ⟨hr.2 (Or.inl h1), q1 f hf⟩)))
    · simp only [Outcome.raised.injEq] at hf; exact Or.inl hf.symm
    · simp only [Outcome.raised.injEq] at hf; exact Or.inr (Or.inr (Or.inl hf.symm))
    · simp only [Outcome.raised.injEq] at hf; exact Or.inr (Or.inr (Or.inr (Or.inl hf.symm)))
    · refine Or.inr (Or.inr (Or.inr (Or.inr ⟨hr.2 (Or.inr ⟨?_, not_not.1 h3, not_not.1 h4, h5⟩),
        q2 f hf⟩)))
      by_contra hc
      exact h2 ⟨fun h => hc (Or.inl h), fun h => hc (Or.inr h)⟩
    · simp only [Outcome.raised.injEq] at hf; exact Or.inr (Or.inl hf.symm)
  · intro hA hb he hs hres
    have h1 : inp.acquireResult ≠ VK_ERROR_OUT_OF_DATE_KHR := by
      rcases hA with h | h <;> rw [h]
      · exact d1
      · exact d2
    have h2 : ¬(inp.acquireResult ≠ VK_SUCCESS ∧ inp.acquireResult ≠ VK_SUBOPTIMAL_KHR) := by
      rintro ⟨k1, k2⟩
      rcases hA with h | h
      · exact k1 h
      · exact k2 h
    have h5 : ¬(inp.submitResult = VK_ERROR_OUT_OF_DATE_KHR ∨
        inp.submitResult = VK_SUBOPTIMAL_KHR ∨ r.lveWindow.framebufferResized = true) := by
      rw [hs, hres]
      rintro (h | h | h)
      · exact d1 h
      · exact d3 h
      · exact absurd h (by decide)
    rw [ho, if_neg h1, if_neg h2, if_neg (not_not.2 hb), if_neg (not_not.2 he), if_neg h5,
      if_neg (not_not.2 hs)]

/-- C12 as amended, at a constructed render state whose window is not marked resized:
a present result `VK_ERROR_DEVICE_LOST` after a successful acquire and recording is
raised as the present error. -/
theorem C12_fatal_errors_amended_witness :
    ((SimpleGame.new sampleLib).drawFrame sampleRender
        (drawInputWith VK_SUCCESS VK_ERROR_DEVICE_LOST)).1
      = Outcome.raised Failure.presentSwapChainImage :=
  (C12_fatal_errors_amended (SimpleGame.new sampleLib) sampleRender
    (drawInputWith VK_SUCCESS VK_ERROR_DEVICE_LOST)).2.1.2
    ⟨Or.inl rfl, rfl, rfl, by decide, by decide, by decide, rfl⟩

/-- C12 as stated fails: with the window marked resized, a frame that is acquired,
recorded and submitted with success and whose present result is
`VK_ERROR_DEVICE_LOST`, none of success, suboptimal and out-of-date, raises nothing:
`drawFrame` resets the flag, recreates the swap chain and returns. -/
theorem C12_fatal_errors_counterexample :
    (drawInputWith VK_SUCCESS VK_ERROR_DEVICE_LOST).submitResult ≠ VK_SUCCESS ∧
      (drawInputWith VK_SUCCESS VK_ERROR_DEVICE_LOST).submitResult ≠ VK_SUBOPTIMAL_KHR ∧
      (drawInputWith VK_SUCCESS VK_ERROR_DEVICE_LOST).submitResult ≠ VK_ERROR_OUT_OF_DATE_KHR ∧
      (SimpleGame.new sampleLib).drawFrame
          { sampleRender with lveWindow := { width := 900, height := 660, framebufferResized := true } }
          (drawInputWith VK_SUCCESS VK_ERROR_DEVICE_LOST)
        = (Outcome.returned sampleRender,
            [DrawEvent.acquireNextImage,
              DrawEvent.recordCommandBuffer 0
                ((SimpleGame.new sampleLib).recordCommandBuffer 0 VK_SUCCESS VK_SUCCESS).draws,
              DrawEvent.submitCommandBuffers 0, DrawEvent.recreateSwapChain]) := by
  refine ⟨by decide, by decide, by decide, ?_⟩
  rw [drawFrame_of_recorded _ _ _ (Or.inl rfl) rfl rfl]
  rfl

/-- Delivering no event leaves the render state as it is. -/
theorem deliver_nil (r : RenderState) :
    { r with lveWindow := r.lveWindow.deliver [] } = r := rfl

/-- The `drawFrame` of a frame all of whose results are success, with the window not
marked resized: the frame is acquired, recorded and submitted, and the render state is
unchanged. -/
theorem drawFrame_of_allSuccess (r : RenderState) (f : RenderFrame) (hf : f.allSuccess)
    (hres : r.lveWindow.framebufferResized = false) :
    f.game.drawFrame r f.input = (Outcome.returned r, normalEvents f) := by
  obtain ⟨-, ha, hb, he, hs⟩ := hf
  rw [drawFrame_of_recorded f.game r f.input (Or.inl ha) hb he]
  have hc : ¬(f.input.submitResult = VK_ERROR_OUT_OF_DATE_KHR ∨
      f.input.submitResult = VK_SUBOPTIMAL_KHR ∨ r.lveWindow.framebufferResized = true) := by
    rw [hs, hres]; decide
  rw [if_neg hc, if_neg (not_not.2 hs)]
  rfl

/-- The `drawFrame` of a frame with one out-of-date result, with the window of
non-zero size and not marked resized: the swap chain is recreated once and the call
returns, the window as before. -/
theorem drawFrame_of_oneOutOfDate (r : RenderState) (f : RenderFrame) (hf : f.oneOutOfDate)
    (hres : r.lveWindow.framebufferResized = false)
    (hw : r.lveWindow.width ≠ 0) (hh : r.lveWindow.height ≠ 0) :
    ∃ r', f.game.drawFrame r f.input = (Outcome.returned r', outOfDateEvents f) ∧
      r'.lveWindow = r.lveWindow := by
  obtain ⟨-, hcase, hs, hp, ha⟩ := hf
  have hwin : r.lveWindow.resetWindowResizedFlag = r.lveWindow := by
    unfold ve_window.resetWindowResizedFlag
    rw [← hres]
  rcases hcase with hO | ⟨hA, hb, he, hsub⟩
  · rw [drawFrame_of_acquire_out_of_date f.game r f.input hO,
      recreateSwapChain_of_success r f.input.recreate hw hh hs hp (Or.inl ha)]
    refine ⟨_, Prod.ext rfl ?_, rfl⟩
    simp [outOfDateEvents, hO]
  · have hO : f.input.acquireResult ≠ VK_ERROR_OUT_OF_DATE_KHR := by rw [hA]; decide
    rw [drawFrame_of_recorded f.game r f.input (Or.inl hA) hb he, if_pos (Or.inl hsub), hwin,
      recreateSwapChain_of_success r f.input.recreate hw hh hs hp (Or.inl ha)]
    refine ⟨_, Prod.ext rfl ?_, rfl⟩
    simp [outOfDateEvents, hO, normalEvents]

/-- The `drawFrame` calls of a non-empty list of frames whose first call returns. -/
theorem drawFrames_cons_of_returned (r r1 : RenderState) (f : RenderFrame)
    (rest : List RenderFrame) (events : List DrawEvent)
    (h : f.game.drawFrame { r with lveWindow := r.lveWindow.deliver f.polled } f.input
      = (Outcome.returned r1, events)) :
    drawFrames r (f :: rest) = ((drawFrames r1 rest).1, events :: (drawFrames r1 rest).2) := by
  rw [drawFrames]
  simp only [h]

/-- The `drawFrame` calls of frames all of whose results are success: every frame is
acquired, recorded and submitted, and the render state is unchanged. -/
theorem drawFrames_of_allSuccess (frames : List RenderFrame) (r : RenderState)
    (hf : ∀ f ∈ frames, f.allSuccess) (hres : r.lveWindow.framebufferResized = false) :
    drawFrames r frames = (Outcome.returned r, frames.map normalEvents) := by
  induction frames with
  | nil => rfl
  | cons f rest ih =>
    have h0 := hf f (List.mem_cons_self _ _)
    have hrest := ih fun x hx => hf x (List.mem_cons_of_mem _ hx)
    have hd : f.game.drawFrame { r with lveWindow := r.lveWindow.deliver f.polled } f.input
        = (Outcome.returned r, normalEvents f) := by
      rw [h0.1, deliver_nil, drawFrame_of_allSuccess r f h0 hres]
    rw [drawFrames_cons_of_returned r r f rest _ hd, hrest]
    rfl

/-- The `drawFrame` calls of a list of frames followed by another, when the calls of
the first list all return. -/
theorem drawFrames_append (xs ys : List RenderFrame) :
    ∀ (r r1 : RenderState) (logs : List (List DrawEvent)),
      drawFrames r xs = (Outcome.returned r1, logs) →
      drawFrames r (xs ++ ys) = ((drawFrames r1 ys).1, logs ++ (drawFrames r1 ys).2) := by
  induction xs with
  | nil =>
    intro r r1 logs h
    simp only [drawFrames, Prod.mk.injEq, Outcome.returned.injEq] at h
    obtain ⟨rfl, rfl⟩ := h
    rfl
  | cons x rest ih =>
    intro r r1 logs h
    rw [List.cons_append]
    cases hd : (x.game.drawFrame { r with lveWindow := r.lveWindow.deliver x.polled } x.input).1 with
    | returned r2 =>
      have hd' : x.game.drawFrame { r with lveWindow := r.lveWindow.deliver x.polled } x.input
          = (Outcome.returned r2, (x.game.drawFrame
              { r with lveWindow := r.lveWindow.deliver x.polled } x.input).2) :=
        Prod.ext hd rfl
      rw [drawFrames_cons_of_returned r r2 x rest _ hd'] at h
      rw [drawFrames_cons_of_returned r r2 x (rest ++ ys) _ hd']
      simp only [Prod.mk.injEq] at h
      obtain ⟨h1, h2⟩ := h
      rw [ih r2 r1 _ (Prod.ext h1 rfl), ← h2]
      rfl
    | raised failure =>
      rw [drawFrames] at h
      simp [hd] at h
    | blocked =>
      rw [drawFrames] at h
      simp [hd] at h

/-- A frame that is only acquired, recorded and submitted has no recreation among its
calls, and has a submission. -/
theorem normalEvents_facts (f : RenderFrame) :
    (normalEvents f).count DrawEvent.recreateSwapChain = 0 ∧
      (normalEvents f).any DrawEvent.isSubmit = true := by
  constructor
  · simp [normalEvents]
  · simp [normalEvents, DrawEvent.isSubmit]

/-- The frame with the out-of-date result has exactly one recreation among its
calls. -/
theorem outOfDateEvents_count (f : RenderFrame) :
    (outOfDateEvents f).count DrawEvent.recreateSwapChain = 1 := by
  unfold outOfDateEvents
  split_ifs
  · simp
  · simp [normalEvents]

/-- Frames that are only acquired, recorded and submitted have no recreation among
their calls, and none of them is without submission. -/
theorem map_normalEvents_facts (frames : List RenderFrame) :
    (frames.map normalEvents).flatten.count DrawEvent.recreateSwapChain = 0 ∧
      (frames.map normalEvents).filter (fun events => !events.any DrawEvent.isSubmit) = [] := by
  induction frames with
  | nil => exact ⟨rfl, rfl⟩
  | cons f rest ih =>
    obtain ⟨h1, h2⟩ := normalEvents_facts f
    constructor
    · rw [List.map_cons, List.flatten_cons, List.count_append, h1, ih.1]
    · rw [List.map_cons, List.filter_cons, h2]
      simpa using ih.2

/-- Inserting a new key places its entry somewhere among the entries present. -/
theorem emplace_perm (L : Lib) (m : Map) (key : Nat) (object : LveGameObject)
    (hkey : key ∉ m.map Prod.fst) :
    (Map.emplace L m key object).Perm (m ++ [(key, object)]) := by
  unfold Map.emplace
  rw [if_neg hkey]
  have h1 : (List.take (L.slot (m.map Prod.fst) key) m ++
      (key, object) :: List.drop (L.slot (m.map Prod.fst) key) m).Perm
      ((key, object) :: (List.take (L.slot (m.map Prod.fst) key) m ++
        List.drop (L.slot (m.map Prod.fst) key) m)) := List.perm_middle
  rw [List.take_append_drop] at h1
  exact h1.trans (List.perm_append_singleton _ _).symm

/-- Inserting entries with new, pairwise distinct keys into a table gives a table with
the old and the new entries. -/
theorem foldl_emplace_perm (L : Lib) (entries : List (Nat × LveGameObject)) :
    ∀ m : Map, (m.map Prod.fst ++ entries.map Prod.fst).Nodup →
      (entries.foldl (fun m kv => Map.emplace L m kv.1 kv.2) m).Perm (m ++ entries) := by
  induction entries with
  | nil => intro m _; simp
  | cons kv rest ih =>
    intro m hnd
    have hkey : kv.1 ∉ m.map Prod.fst := by
      intro hmem
      have := List.disjoint_of_nodup_append hnd hmem
      exact this (by simp)
    have hp := emplace_perm L m kv.1 kv.2 hkey
    have hnd' : ((Map.emplace L m kv.1 kv.2).map Prod.fst ++ rest.map Prod.fst).Nodup := by
      have hp2 : ((Map.emplace L m kv.1 kv.2).map Prod.fst ++ rest.map Prod.fst).Perm
          (m.map Prod.fst ++ (kv :: rest).map Prod.fst) := by
        have := (hp.map Prod.fst).append_right (rest.map Prod.fst)
        simpa using this
      exact hp2.nodup_iff.mpr hnd
    rw [List.foldl_cons]
    refine (ih _ hnd').trans ?_
    have := hp.append_right rest
    simpa using this

/-- Where the implementation places every new key last, inserting entries with new,
pairwise distinct keys appends them in insertion order. -/
theorem foldl_emplace_of_last (L : Lib) (hlast : ∀ keys key, keys.length ≤ L.slot keys key)
    (entries : List (Nat × LveGameObject)) :
    ∀ m : Map, (m.map Prod.fst ++ entries.map Prod.fst).Nodup →
      entries.foldl (fun m kv => Map.emplace L m kv.1 kv.2) m = m ++ entries := by
  induction entries with
  | nil => intro m _; simp
  | cons kv rest ih =>
    intro m hnd
    have hkey : kv.1 ∉ m.map Prod.fst := by
      intro hmem
      have := List.disjoint_of_nodup_append hnd hmem
      exact this (by simp)
    have he : Map.emplace L m kv.1 kv.2 = m ++ [kv] := by
      unfold Map.emplace
      rw [if_neg hkey]
      have hlen : m.length ≤ L.slot (m.map Prod.fst) kv.1 := by
        simpa using hlast (m.map Prod.fst) kv.1
      show List.take _ m ++ (kv.1, kv.2) :: List.drop _ m = _
      rw [List.take_of_length_le hlen, List.drop_of_length_le hlen]
    have hnd' : ((m ++ [kv]).map Prod.fst ++ rest.map Prod.fst).Nodup := by
      simpa using hnd
    rw [List.foldl_cons, he, ih _ hnd']
    simp

/-- C14 (amended): iterating an entity table into which entries with pairwise distinct
keys were inserted visits exactly the inserted entries, each once, in an order chosen
by the `std::unordered_map` implementation; the order is the insertion order where the
implementation places each new key last in its iteration order. -/
theorem C14_iteration_visits_inserted_amended (L : Lib) (entries : List (Nat × LveGameObject))
    (hkeys : (entries.map Prod.fst).Nodup) :
    (Map.insertAll L entries).Perm entries ∧
      ((∀ keys key, keys.length ≤ L.slot keys key) → Map.insertAll L entries = entries) := by
  constructor
  · have := foldl_emplace_perm L entries [] (by simpa using hkeys)
    simpa [Map.insertAll] using this
  · intro hlast
    have := foldl_emplace_of_last L hlast entries [] (by simpa using hkeys)
    simpa [Map.insertAll] using this

/-- Witness of C14 (amended): the entities with ids 0, 1, 2 inserted with the sample
library parameters. -/
theorem C14_iteration_visits_inserted_amended_witness :
    ((spawned [0, 1, 2]).map Prod.fst).Nodup ∧
      (Map.insertAll sampleLib (spawned [0, 1, 2])).Perm (spawned [0, 1, 2]) :=
  ⟨by decide, (C14_iteration_visits_inserted_amended sampleLib (spawned [0, 1, 2])
    (by decide)).1⟩

/-- Counterexample to C14: with an implementation that places a new key first in the
iteration order, the entities with ids 0, 1, 2 inserted in this order are visited in
the order 2, 1, 0. -/
theorem C14_iteration_order_counterexample :
    (Map.insertAll frontLib (spawned [0, 1, 2])).map Prod.fst = [2, 1, 0] ∧
      Map.insertAll frontLib (spawned [0, 1, 2]) ≠ spawned [0, 1, 2] := by
  have h : (Map.insertAll frontLib (spawned [0, 1, 2])).map Prod.fst = [2, 1, 0] := by
    simp [Map.insertAll, spawned, Map.emplace, frontLib]
  refine ⟨h, ?_⟩
  intro heq
  rw [heq] at h
  simp [spawned] at h

/-- While the counter does not reach `2^32`, successive calls of `createGameObject`
return successive ids. -/
theorem createdIds_eq_range (n : Nat) :
    ∀ currentId, currentId + n ≤ 2 ^ 32 → createdIds currentId n = List.range' currentId n := by
  induction n with
  | zero => intro c _; rfl
  | succ n ih =>
    intro c hc
    cases n with
    | zero => rfl
    | succ n =>
      have hlt : (c + 1) % 2 ^ 32 = c + 1 := Nat.mod_eq_of_lt (by omega)
      have := ih (c + 1) (by omega)
      rw [createdIds]
      simp only [LveGameObject.createGameObject, hlt, this]
      rfl

/-- The id returned by call number `k + 1` of `createGameObject` is the counter value
of the first call advanced `k` times modulo `2^32`. -/
theorem createdIds_get (n : Nat) :
    ∀ currentId k, currentId < 2 ^ 32 → k < n →
      (createdIds currentId n)[k]? = some ((currentId + k) % 2 ^ 32) := by
  induction n with
  | zero => intro c k _ hk; omega
  | succ n ih =>
    intro c k hc hk
    cases k with
    | zero =>
      rw [createdIds]
      simp only [LveGameObject.createGameObject, List.getElem?_cons_zero, Nat.add_zero,
        Nat.mod_eq_of_lt hc]
    | succ k =>
      rw [createdIds, List.getElem?_cons_succ]
      simp only [LveGameObject.createGameObject]
      rw [ih _ k (Nat.mod_lt _ (by norm_num)) (by omega)]
      congr 1
      omega

/-- C15 (amended): among the first `2^32` calls of `createGameObject` in a process, the
n-th call returns id n-1, so each of them returns an id strictly greater than the id
returned by every earlier call and no id is handed out twice. -/
theorem C15_ids_increase_amended (n : Nat) (hn : n ≤ 2 ^ 32) :
    createdIds 0 n = List.range n ∧
      (createdIds 0 n).Pairwise (fun earlier later => earlier < later) ∧
      (createdIds 0 n).Nodup := by
  have h : createdIds 0 n = List.range n := by
    rw [createdIds_eq_range n 0 (by omega), List.range_eq_range']
  rw [h]
  exact ⟨rfl, List.pairwise_lt_range n, List.nodup_range n⟩

/-- Witness of C15 (amended): the first three calls return the ids 0, 1, 2. -/
theorem C15_ids_increase_amended_witness :
    3 ≤ 2 ^ 32 ∧ createdIds 0 3 = [0, 1, 2] :=
  ⟨by norm_num, (C15_ids_increase_amended 3 (by norm_num)).1⟩

/-- Counterexample to C15: call number `2^32 + 1` of `createGameObject` returns the id
0, which the first call returned. -/
theorem C15_ids_increase_counterexample :
    (createdIds 0 (2 ^ 32 + 1))[0]? = some 0 ∧ (createdIds 0 (2 ^ 32 + 1))[2 ^ 32]? = some 0 := by
  constructor
  · rw [createdIds_get (2 ^ 32 + 1) 0 0 (by norm_num) (by norm_num)]
    norm_num
  · rw [createdIds_get (2 ^ 32 + 1) 0 (2 ^ 32) (by norm_num) (by norm_num)]
    norm_num

/-- An entity is drawn exactly when it has a mesh, and then with its own mesh,
transform and color. -/
theorem drawObject_eq_some_iff (obj : LveGameObject) (d : DrawCommand) :
    drawObject obj = some d ↔
      obj.model = some d.model ∧ d.transform = obj.transform ∧ d.color = obj.color := by
  unfold drawObject
  cases hm : obj.model with
  | none => simp
  | some m =>
    simp only [Option.map_some', Option.some.injEq]
    constructor
    · intro h
      subst h
      exact ⟨rfl, rfl, rfl⟩
    · intro h
      cases d
      simp_all

/-- C16: a `recordCommandBuffer` whose recording begins issues draws for exactly the
visible set of the current state: in MENU the menu-table entities that have a mesh; in
PLAYING the main-table entities with a mesh, then the projectiles with a mesh, then the
weapon if it has a mesh; in PAUSED the same without the weapon. The draws of a table
are those of its entities that have a mesh, an entity without a mesh is not drawn, and
each draw carries the mesh, the transform and the color of its entity. -/
theorem C16_draws_visible_set (g : SimpleGame) (imageIndex : Nat) (endResult : VkResult) :
    (g.recordCommandBuffer imageIndex VK_SUCCESS endResult).draws =
        (match g.gameState with
         | GameState.MENU => drawTable g.menuObjects
         | GameState.PLAYING =>
           drawTable g.gameObjects ++ drawTable g.projectiles ++ (drawObject g.weaponObject).toList
         | GameState.PAUSED => drawTable g.gameObjects ++ drawTable g.projectiles) ∧
      (∀ (table : Map) (d : DrawCommand),
        d ∈ drawTable table ↔ ∃ kv ∈ table, kv.2.model = some d.model ∧
          d.transform = kv.2.transform ∧ d.color = kv.2.color) ∧
      (∀ table : Map, (drawTable table).length = (table.filter fun kv => kv.2.model.isSome).length) ∧
      (∀ obj : LveGameObject, obj.model = none → drawObject obj = none) := by
  refine ⟨?_, ?_, ?_, ?_⟩
  · unfold SimpleGame.recordCommandBuffer
    rw [if_neg (by simp)]
    cases hs : g.gameState with
    | MENU => simp
    | PLAYING =>
      cases hm : g.weaponObject.model with
      | none => simp [drawObject, hm]
      | some m => simp
    | PAUSED => simp
  · intro table d
    unfold drawTable
    rw [List.mem_filterMap]
    constructor
    · rintro ⟨kv, hkv, hd⟩
      exact ⟨kv, hkv, (drawObject_eq_some_iff kv.2 d).mp hd⟩
    · rintro ⟨kv, hkv, hd⟩
      exact ⟨kv, hkv, (drawObject_eq_some_iff kv.2 d).mpr hd⟩
  · intro table
    induction table with
    | nil => rfl
    | cons kv rest ih =>
      unfold drawTable at ih ⊢
      cases hm : kv.2.model with
      | none =>
        have h0 : drawObject kv.2 = none := by simp [drawObject, hm]
        simp only [List.filterMap_cons, h0, List.filter_cons, hm, Option.isSome_none]
        exact ih
      | some m =>
        have h0 : drawObject kv.2 = some ⟨kv.2.transform, kv.2.color, m⟩ := by
          simp [drawObject, hm]
        simp only [List.filterMap_cons, h0, List.filter_cons, hm, Option.isSome_some,
          List.length_cons, if_true]
        rw [ih]
  · intro obj hm
    simp [drawObject, hm]

/-- Witness of C16: the freshly constructed game, which is in MENU, draws its menu
table. -/
theorem C16_draws_visible_set_witness :
    ((SimpleGame.new sampleLib).recordCommandBuffer 0 VK_SUCCESS VK_SUCCESS).draws =
      drawTable (SimpleGame.new sampleLib).menuObjects :=
  (C16_draws_visible_set (SimpleGame.new sampleLib) 0 VK_SUCCESS).1

/-- The vector that `getShootDirection` normalises has squared length 1 when `sin` and
`cos` satisfy the Pythagorean identity at the pitch and at the yaw. -/
theorem shootDirection_dot (L : Lib) (pitch yaw : ℚ)
    (hp : L.sin pitch ^ 2 + L.cos pitch ^ 2 = 1) (hy : L.sin yaw ^ 2 + L.cos yaw ^ 2 = 1) :
    Vec3.dot ⟨L.cos pitch * L.sin yaw, -L.sin pitch, L.cos pitch * L.cos yaw⟩
      ⟨L.cos pitch * L.sin yaw, -L.sin pitch, L.cos pitch * L.cos yaw⟩ = 1 := by
  unfold Vec3.dot
  have h : L.cos pitch * L.sin yaw * (L.cos pitch * L.sin yaw) + -L.sin pitch * -L.sin pitch +
      L.cos pitch * L.cos yaw * (L.cos pitch * L.cos yaw) =
      L.cos pitch ^ 2 * (L.sin yaw ^ 2 + L.cos yaw ^ 2) + L.sin pitch ^ 2 := by ring
  rw [h, hy]
  linarith

/-- The loop over the entities stops at the first entity with a mesh whose bounds
contain the position: what follows it in the table is without effect. -/
theorem collideWithObjects_first_hit (c : KeyboardMovementController) (projPos : Vec3)
    (kv : Nat × LveGameObject) (after : Map) (velocity : Vec3)
    (hmesh : kv.2.model.isSome = true)
    (hin : withinBounds projPos kv.2.transform.translation kv.2.transform.scale = true) :
    ∀ before : Map,
      (∀ e ∈ before, ¬ (e.2.model.isSome = true ∧
        withinBounds projPos e.2.transform.translation e.2.transform.scale = true)) →
      collideWithObjects c projPos (before ++ kv :: after) velocity =
        (⟨velocity.x * (4 / 5), (intAbs (floatToInt velocity.y) : ℚ) * c.bounceDamping,
        velocity.z * (4 / 5)⟩, true) := by
  intro before
  induction before with
  | nil =>
    intro _
    obtain ⟨key, obj⟩ := kv
    simp only [List.nil_append, collideWithObjects]
    rw [if_pos hmesh, if_pos hin]
  | cons e rest ih =>
    intro hnone
    obtain ⟨key, obj⟩ := e
    have he := hnone (key, obj) (List.mem_cons_self _ _)
    have hrest := ih (fun e2 h2 => hnone e2 (List.mem_cons_of_mem _ h2))
    simp only [List.cons_append, collideWithObjects]
    by_cases hm : obj.model.isSome = true
    · have hb : ¬ withinBounds projPos obj.transform.translation obj.transform.scale = true :=
        fun hb => he ⟨hm, hb⟩
      rw [if_pos hm, if_neg hb]
      exact hrest
    · rw [if_neg hm]
      exact hrest

/-- A table with an entry satisfying a test splits at the first such entry. -/
theorem exists_first_of_exists (test : Nat × LveGameObject → Prop) (objs : Map)
    (h : ∃ kv ∈ objs, test kv) :
    ∃ before kv after, objs = before ++ kv :: after ∧ test kv ∧ ∀ e ∈ before, ¬ test e := by
  induction objs with
  | nil => simp at h
  | cons e rest ih =>
    by_cases he : test e
    · exact ⟨[], e, rest, rfl, he, by simp⟩
    · have hr : ∃ kv ∈ rest, test kv := by
        obtain ⟨kv, hkv, ht⟩ := h
        rcases List.mem_cons.mp hkv with heq | hmem
        · exact absurd (heq ▸ ht) he
        · exact ⟨kv, hmem, ht⟩
      obtain ⟨before, kv, after, hsplit, ht, hnone⟩ := ih hr
      refine ⟨e :: before, kv, after, by rw [hsplit]; rfl, ht, ?_⟩
      intro e2 h2
      rcases List.mem_cons.mp h2 with heq | hmem
      · rw [heq]; exact he
      · exact hnone e2 hmem

/-- The velocity a tick of `updateProjectiles` stores is that of the loop over the
entities, started at the position and with the velocity that the tick gives without
any entity; the position does not depend on the entities. -/
theorem updateProjectile_entities (c : KeyboardMovementController) (gameObjects : Map)
    (dt : ℚ) (p : LveGameObject) :
    (updateProjectile c gameObjects dt p).projectile.transform.rotation =
        (collideWithObjects c (updateProjectile c [] dt p).projectile.transform.translation
          gameObjects (updateProjectile c [] dt p).projectile.transform.rotation).1 ∧
      (updateProjectile c gameObjects dt p).projectile.transform.translation =
        (updateProjectile c [] dt p).projectile.transform.translation :=
  ⟨rfl, rfl⟩

/-- The projectile after a tick, written with the loop over the entities. -/
theorem updateProjectile_projectile (c : KeyboardMovementController) (gameObjects : Map)
    (dt : ℚ) (p : LveGameObject) :
    (updateProjectile c gameObjects dt p).projectile =
      { p with
        transform :=
          { p.transform with
            translation := (updateProjectile c [] dt p).projectile.transform.translation
            rotation :=
              (collideWithObjects c (updateProjectile c [] dt p).projectile.transform.translation
                gameObjects (updateProjectile c [] dt p).projectile.transform.rotation).1 } } :=
  rfl

/-- The vector `moveDir` is the net forward direction times forward = (sin yaw, 0,
cos yaw) plus the net right direction times right = (cos yaw, 0, -sin yaw). -/
theorem moveDirOf_eq (L : Lib) (c : KeyboardMovementController) (window : GLFWwindow)
    (yaw : ℚ) :
    moveDirOf L c window yaw =
      ⟨netForward c window * L.sin yaw + netRight c window * L.cos yaw, 0,
        netForward c window * L.cos yaw - netRight c window * L.sin yaw⟩ := by
  unfold moveDirOf netForward netRight
  cases glfwGetKey window c.keys.moveForward <;> cases glfwGetKey window c.keys.moveBackward <;>
    cases glfwGetKey window c.keys.moveRight <;> cases glfwGetKey window c.keys.moveLeft <;>
    simp [Vec3.add, Vec3.sub] <;> ring

/-- The keys of a table after `emplace`: the keys before are kept, the key is present,
and the size grows by one exactly when the key is new. -/
theorem emplace_keys (L : Lib) (m : Map) (key : Nat) (object : LveGameObject) :
    (∀ k, k ∈ m.map Prod.fst → k ∈ (Map.emplace L m key object).map Prod.fst) ∧
      key ∈ (Map.emplace L m key object).map Prod.fst ∧
      (Map.emplace L m key object).length =
        m.length + (if key ∈ m.map Prod.fst then 0 else 1) := by
  by_cases hkey : key ∈ m.map Prod.fst
  · have he : Map.emplace L m key object = m := by
      unfold Map.emplace
      rw [if_pos hkey]
    rw [he, if_pos hkey]
    exact ⟨fun _ h => h, hkey, rfl⟩
  · have hp := emplace_perm L m key object hkey
    have hk := (hp.map Prod.fst).mem_iff (a := key)
    rw [if_neg hkey]
    refine ⟨?_, ?_, ?_⟩
    · intro k hk1
      rw [(hp.map Prod.fst).mem_iff]
      simp only [List.map_append, List.mem_append]
      exact Or.inl hk1
    · rw [hk]
      simp
    · rw [hp.length_eq]
      simp

/-- What `handleShooting` does to the projectile table, the id counter and the close
flag. -/
theorem handleShooting_projectiles (L : Lib) (g : SimpleGame) (window : GLFWwindow) :
    (∀ k, k ∈ g.projectiles.map Prod.fst →
        k ∈ (g.handleShooting L window).1.projectiles.map Prod.fst) ∧
      (g.handleShooting L window).1.projectiles.length =
        g.projectiles.length +
          (if (g.handleShooting L window).2 = true ∧
              g.statics.currentId ∉ g.projectiles.map Prod.fst then 1 else 0) ∧
      ((g.handleShooting L window).2 = true →
        g.statics.currentId ∈ (g.handleShooting L window).1.projectiles.map Prod.fst) ∧
      (g.handleShooting L window).1.statics.currentId =
        (if (g.handleShooting L window).2 = true then (g.statics.currentId + 1) % 2 ^ 32
         else g.statics.currentId) ∧
      (g.handleShooting L window).1.windowShouldClose = g.windowShouldClose := by
  unfold SimpleGame.handleShooting
  dsimp only
  by_cases h : (g.cameraController.shouldShoot window).1 = true
  · rw [if_pos h]
    dsimp only [LveGameObject.createGameObject]
    obtain ⟨h1, h2, h3⟩ := emplace_keys L g.projectiles g.statics.currentId
      { id := g.statics.currentId, model := g.projectileModel, color := ⟨1, 1, 1⟩,
        transform :=
          { translation :=
              g.weaponObject.transform.translation.add
                (Vec3.smul (1 / 2)
                  (KeyboardMovementController.getShootDirection L g.viewerObject))
            scale := ⟨1 / 20, 1 / 20, 1 / 20⟩
            rotation :=
              Vec3.smul (g.cameraController.shouldShoot window).2.projectileSpeed
                (KeyboardMovementController.getShootDirection L g.viewerObject) } }
    refine ⟨h1, ?_, fun _ => h2, by simp, rfl⟩
    rw [h3]
    by_cases hk : g.statics.currentId ∈ g.projectiles.map Prod.fst
    · simp [hk]
    · simp [hk]
  · rw [if_neg h]
    exact ⟨fun _ hk => hk, by simp, fun hf => absurd hf (by simp), by simp, rfl⟩

/-- Neither `updateWeapon` nor `updateProjectiles` changes the keys of the projectile
table. -/
theorem updateProjectiles_keys (g : SimpleGame) (dt : ℚ) :
    (g.updateProjectiles dt).projectiles.map Prod.fst = g.projectiles.map Prod.fst ∧
      (g.updateProjectiles dt).statics = g.statics ∧
      (g.updateProjectiles dt).gameState = g.gameState ∧
      (g.updateProjectiles dt).windowShouldClose = g.windowShouldClose ∧
      (g.updateProjectiles dt).cameraController = g.cameraController := by
  unfold SimpleGame.updateProjectiles
  refine ⟨?_, rfl, rfl, rfl, rfl⟩
  simp [List.map_map, Function.comp_def]

/-- The handler `handleMenuInput` touches neither the projectile table nor the id
counter, and fires no shot. -/
theorem handleMenuInput_projectiles (g : SimpleGame) (window : GLFWwindow) :
    (g.handleMenuInput window).1.projectiles = g.projectiles ∧
      (g.handleMenuInput window).1.statics.currentId = g.statics.currentId ∧
      (g.handleMenuInput window).2.shot = false := by
  unfold SimpleGame.handleMenuInput
  dsimp only
  split_ifs <;> exact ⟨rfl, rfl, rfl⟩

/-- The call `moveInPlaneXZ` requests closing the window exactly when the exit key is
pressed. -/
theorem moveInPlaneXZ_closeRequested (L : Lib) (c : KeyboardMovementController) (flag : Bool)
    (window : GLFWwindow) (dt : ℚ) (gameObject : LveGameObject) :
    (c.moveInPlaneXZ L flag window dt gameObject).closeRequested =
      glfwGetKey window c.keys.exitGame := by
  unfold KeyboardMovementController.moveInPlaneXZ
  by_cases h : glfwGetKey window c.keys.exitGame = true
  · simp [h]
  · simp [h]

/-- A call of `handleGameInput` whose key checks leave the state PLAYING, as a call of
`handleShooting` on a game with the same projectile table, id counter, key mapping and
fire flag, followed by `updateProjectiles`. -/
theorem handleGameInput_stay_form (L : Lib) (g : SimpleGame) (window : GLFWwindow)
    (frameTime : ℚ)
    (h : (if gameEscapeKeyDownDetected g window then GameState.MENU
       else if pauseKeyDownDetected g window then GameState.PAUSED else g.gameState)
        = GameState.PLAYING) :
    ∃ g1 : SimpleGame,
      g1.projectiles = g.projectiles ∧ g1.statics.currentId = g.statics.currentId ∧
      g1.gameState = GameState.PLAYING ∧
      g1.windowShouldClose =
        (g.windowShouldClose || glfwGetKey window g.cameraController.keys.exitGame) ∧
      g1.cameraController.keys = g.cameraController.keys ∧
      g1.cameraController.mouseButtonWasPressed = g.cameraController.mouseButtonWasPressed ∧
      (g.handleGameInput L window frameTime).1 =
        (g1.handleShooting L window).1.updateProjectiles frameTime ∧
      (g.handleGameInput L window frameTime).2.shot = (g1.handleShooting L window).2 := by
  obtain ⟨_, _, hkeys, hflag⟩ :=
    moveInPlaneXZ_jump L g.cameraController g.statics.jumpKeyWasPressed window frameTime
      g.viewerObject
  have hclose := moveInPlaneXZ_closeRequested L g.cameraController g.statics.jumpKeyWasPressed
    window frameTime g.viewerObject
  rw [handleGameInput_of_stay L g window frameTime h]
  refine ⟨_, ?_, ?_, ?_, ?_, ?_, ?_, rfl, rfl⟩
  · rfl
  · rfl
  · rfl
  · show (g.windowShouldClose || _) = _
    rw [hclose]
  · exact hkeys
  · exact hflag

/-- One frame of the loop and the projectile table: every key is kept; the size grows
by one exactly when a shot is fired and the value of the id counter is not a key of
the table; a shot is fired in PLAYING only and leaves the value of the id counter as a
key; the id counter advances modulo `2^32` exactly when a shot is fired. -/
theorem runFrame_projectiles (L : Lib) (g : SimpleGame) (f : Frame) :
    (∀ k, k ∈ g.projectiles.map Prod.fst → k ∈ (g.runFrame L f).1.projectiles.map Prod.fst) ∧
      (g.runFrame L f).1.projectiles.length =
        g.projectiles.length +
          (if (g.runFrame L f).2.shot = true ∧
              g.statics.currentId ∉ g.projectiles.map Prod.fst then 1 else 0) ∧
      ((g.runFrame L f).2.shot = true → g.gameState = GameState.PLAYING) ∧
      ((g.runFrame L f).2.shot = true →
        g.statics.currentId ∈ (g.runFrame L f).1.projectiles.map Prod.fst) ∧
      (g.runFrame L f).1.statics.currentId =
        (if (g.runFrame L f).2.shot = true then (g.statics.currentId + 1) % 2 ^ 32
         else g.statics.currentId) := by
  have hmenu : ∀ g2 : SimpleGame, ∀ log : FrameLog,
      g2.projectiles = g.projectiles → g2.statics.currentId = g.statics.currentId →
      log.shot = false →
      (∀ k, k ∈ g.projectiles.map Prod.fst → k ∈ g2.projectiles.map Prod.fst) ∧
        g2.projectiles.length =
          g.projectiles.length +
            (if log.shot = true ∧ g.statics.currentId ∉ g.projectiles.map Prod.fst then 1
             else 0) ∧
        (log.shot = true → g.gameState = GameState.PLAYING) ∧
        (log.shot = true → g.statics.currentId ∈ g2.projectiles.map Prod.fst) ∧
        g2.statics.currentId =
          (if log.shot = true then (g.statics.currentId + 1) % 2 ^ 32
           else g.statics.currentId) := by
    intro g2 log hp hc hs
    rw [hp, hc, hs]
    simp
  obtain ⟨hm1, hm2, hm3⟩ := handleMenuInput_projectiles g f.window
  have hcases : g.gameState = GameState.MENU ∨ g.gameState = GameState.PAUSED ∨
      g.gameState = GameState.PLAYING := by
    cases g.gameState <;> simp
  rcases hcases with hstate | hstate | hstate
  · have hr : g.runFrame L f =
        ((g.handleMenuInput f.window).1.updateMenuVisuals L f.time,
          (g.handleMenuInput f.window).2) := by
      unfold SimpleGame.runFrame
      rw [hstate]
    rw [hr]
    exact hmenu ((g.handleMenuInput f.window).1.updateMenuVisuals L f.time)
      (g.handleMenuInput f.window).2 hm1 hm2 hm3
  · have hr : g.runFrame L f = g.handleMenuInput f.window := by
      unfold SimpleGame.runFrame
      rw [hstate]
    rw [hr]
    exact hmenu _ _ hm1 hm2 hm3
  · have hr : g.runFrame L f = g.handleGameInput L f.window (min f.elapsed (1 / 4)) := by
      unfold SimpleGame.runFrame
      rw [hstate]
    rw [hr]
    by_cases h : (if gameEscapeKeyDownDetected g f.window then GameState.MENU
       else if pauseKeyDownDetected g f.window then GameState.PAUSED else g.gameState)
        = GameState.PLAYING
    · obtain ⟨g1, hp, hc, _, _, _, _, h1, h2⟩ :=
        handleGameInput_stay_form L g f.window (min f.elapsed (1 / 4)) h
      obtain ⟨s1, s2, s3, s4, _⟩ := handleShooting_projectiles L g1 f.window
      obtain ⟨u1, u2, _⟩ :=
        updateProjectiles_keys (g1.handleShooting L f.window).1 (min f.elapsed (1 / 4))
      simp only [hp, hc] at s1 s2 s3 s4
      rw [h1, h2, u1, u2]
      refine ⟨s1, ?_, fun _ => hstate, s3, s4⟩
      rw [← s2, ← List.length_map _ Prod.fst, u1, List.length_map]
    · rw [handleGameInput_of_leave L g f.window (min f.elapsed (1 / 4)) h]
      exact hmenu _ _ rfl rfl rfl

/-- A key of a table after `emplace` is a key of the table before or the inserted
key. -/
theorem emplace_keys_sub (L : Lib) (m : Map) (key : Nat) (object : LveGameObject) :
    ∀ k, k ∈ (Map.emplace L m key object).map Prod.fst → k ∈ m.map Prod.fst ∨ k = key := by
  intro k hk
  by_cases hkey : key ∈ m.map Prod.fst
  · have he : Map.emplace L m key object = m := by
      unfold Map.emplace
      rw [if_pos hkey]
    rw [he] at hk
    exact Or.inl hk
  · have hp := emplace_perm L m key object hkey
    rw [(hp.map Prod.fst).mem_iff] at hk
    simpa using hk

/-- A key of the projectile table after `handleShooting` is a key of the table before
or, when a shot is fired, the value of the id counter. -/
theorem handleShooting_keys_sub (L : Lib) (g : SimpleGame) (window : GLFWwindow) :
    ∀ k, k ∈ (g.handleShooting L window).1.projectiles.map Prod.fst →
      k ∈ g.projectiles.map Prod.fst ∨
        ((g.handleShooting L window).2 = true ∧ k = g.statics.currentId) := by
  unfold SimpleGame.handleShooting
  dsimp only
  by_cases h : (g.cameraController.shouldShoot window).1 = true
  · rw [if_pos h]
    dsimp only [LveGameObject.createGameObject]
    intro k hk
    rcases emplace_keys_sub L _ _ _ k hk with h1 | h1
    · exact Or.inl h1
    · exact Or.inr ⟨rfl, h1⟩
  · rw [if_neg h]
    intro k hk
    exact Or.inl hk

/-- A key of the projectile table after one frame of the loop is a key of the table
before or, when a shot is fired, the value of the id counter. -/
theorem runFrame_keys_sub (L : Lib) (g : SimpleGame) (f : Frame) :
    ∀ k, k ∈ (g.runFrame L f).1.projectiles.map Prod.fst →
      k ∈ g.projectiles.map Prod.fst ∨
        ((g.runFrame L f).2.shot = true ∧ k = g.statics.currentId) := by
  obtain ⟨hm1, _, _⟩ := handleMenuInput_projectiles g f.window
  have hcases : g.gameState = GameState.MENU ∨ g.gameState = GameState.PAUSED ∨
      g.gameState = GameState.PLAYING := by
    cases g.gameState <;> simp
  rcases hcases with hstate | hstate | hstate
  · have hr : (g.runFrame L f).1.projectiles = g.projectiles := by
      unfold SimpleGame.runFrame
      rw [hstate]
      exact hm1
    rw [hr]
    exact fun k hk => Or.inl hk
  · have hr : (g.runFrame L f).1.projectiles = g.projectiles := by
      unfold SimpleGame.runFrame
      rw [hstate]
      exact hm1
    rw [hr]
    exact fun k hk => Or.inl hk
  · have hr : g.runFrame L f = g.handleGameInput L f.window (min f.elapsed (1 / 4)) := by
      unfold SimpleGame.runFrame
      rw [hstate]
    rw [hr]
    by_cases h : (if gameEscapeKeyDownDetected g f.window then GameState.MENU
       else if pauseKeyDownDetected g f.window then GameState.PAUSED else g.gameState)
        = GameState.PLAYING
    · obtain ⟨g1, hp, hc, _, _, _, _, h1, h2⟩ :=
        handleGameInput_stay_form L g f.window (min f.elapsed (1 / 4)) h
      obtain ⟨u1, _⟩ :=
        updateProjectiles_keys (g1.handleShooting L f.window).1 (min f.elapsed (1 / 4))
      have hs := handleShooting_keys_sub L g1 f.window
      simp only [hp, hc] at hs
      rw [h1, h2, u1]
      exact hs
    · rw [handleGameInput_of_leave L g f.window (min f.elapsed (1 / 4)) h]
      exact fun k hk => Or.inl hk

/-- No run of the loop removes a key from the projectile table. -/
theorem run_projectiles_keys (L : Lib) (fs : List Frame) :
    ∀ g : SimpleGame, ∀ k, k ∈ g.projectiles.map Prod.fst →
      k ∈ (SimpleGame.run L g fs).1.projectiles.map Prod.fst := by
  induction fs with
  | nil => intro g k hk; exact hk
  | cons f rest ih =>
    intro g k hk
    by_cases hclose : g.windowShouldClose = true
    · rw [run_of_closed L g (f :: rest) hclose]
      exact hk
    · have hopen : g.windowShouldClose = false := by simpa using hclose
      rw [run_cons_of_open L g f rest hopen]
      exact ih _ k ((runFrame_projectiles L g f).1 k hk)

/-- C17 (amended): on every frame of the game loop every key of the projectile table
is kept, and so across every run of the loop, in any game state; a fire event is
handled in PLAYING only; the size of the table grows by exactly one on a frame on which
a fire event is handled and the id that `createGameObject` hands out is not already a
key of the table, and is unchanged on every other frame.  The id is not yet a key
while every key is below the id counter, which a frame preserves as long as the
counter does not wrap at `2^32`. -/
theorem C17_projectiles_only_grow_amended (L : Lib) (g : SimpleGame) (f : Frame) :
    (∀ k, k ∈ g.projectiles.map Prod.fst → k ∈ (g.runFrame L f).1.projectiles.map Prod.fst) ∧
      (∀ (frames : List Frame) (k : Nat), k ∈ g.projectiles.map Prod.fst →
        k ∈ (SimpleGame.run L g frames).1.projectiles.map Prod.fst) ∧
      ((g.runFrame L f).2.shot = true → g.gameState = GameState.PLAYING) ∧
      (g.runFrame L f).1.projectiles.length =
        g.projectiles.length +
          (if (g.runFrame L f).2.shot = true ∧
              g.statics.currentId ∉ g.projectiles.map Prod.fst then 1 else 0) ∧
      ((∀ k, k ∈ g.projectiles.map Prod.fst → k < g.statics.currentId) →
        (g.runFrame L f).1.projectiles.length =
            g.projectiles.length + (if (g.runFrame L f).2.shot = true then 1 else 0) ∧
          (g.statics.currentId + 1 < 2 ^ 32 →
            ∀ k, k ∈ (g.runFrame L f).1.projectiles.map Prod.fst →
              k < (g.runFrame L f).1.statics.currentId)) := by
  obtain ⟨h1, h2, h3, _, h5⟩ := runFrame_projectiles L g f
  refine ⟨h1, fun frames k hk => run_projectiles_keys L frames g k hk, h3, h2, ?_⟩
  intro hbelow
  have hnew : g.statics.currentId ∉ g.projectiles.map Prod.fst :=
    fun hmem => Nat.lt_irrefl _ (hbelow _ hmem)
  refine ⟨?_, ?_⟩
  · rw [h2]
    by_cases hs : (g.runFrame L f).2.shot = true
    · rw [if_pos ⟨hs, hnew⟩, if_pos hs]
    · rw [if_neg (fun h => hs h.1), if_neg hs]
  · intro hwrap k hk
    rw [h5]
    rcases runFrame_keys_sub L g f k hk with hold | ⟨hs, hk2⟩
    · have := hbelow k hold
      split_ifs
      · rw [Nat.mod_eq_of_lt hwrap]; omega
      · exact this
    · rw [if_pos hs, Nat.mod_eq_of_lt hwrap, hk2]
      omega

/-- Witness of C17 (amended): the first shot of a game adds one projectile. -/
theorem C17_projectiles_only_grow_amended_witness :
    (playingGame.runFrame sampleLib (frameWith [] [MouseButton.LEFT])).1.projectiles.length =
      playingGame.projectiles.length + 1 := by
  have hkeys : playingGame.projectiles.map Prod.fst = [] := by decide
  have hs : (playingGame.runFrame sampleLib (frameWith [] [MouseButton.LEFT])).2.shot = true := by
    decide
  have h := ((C17_projectiles_only_grow_amended sampleLib playingGame
    (frameWith [] [MouseButton.LEFT])).2.2.2.2 (by rw [hkeys]; simp)).1
  rw [h, if_pos hs]

/-- A frame without any key pressed, run in PLAYING with the default key mapping:
the game stays in PLAYING with the window as it was; the fire button is sampled; a
shot is fired exactly when the button is pressed and was seen released. -/
theorem runFrame_without_keys (L : Lib) (g : SimpleGame) (f : Frame)
    (hs : g.gameState = GameState.PLAYING) (hkeys : g.cameraController.keys = {})
    (hwin : f.window.keys = []) :
    (g.runFrame L f).1.gameState = GameState.PLAYING ∧
      (g.runFrame L f).1.windowShouldClose = g.windowShouldClose ∧
      (g.runFrame L f).1.cameraController.keys = {} ∧
      (g.runFrame L f).1.cameraController.mouseButtonWasPressed =
        glfwGetMouseButton f.window MouseButton.LEFT ∧
      (g.runFrame L f).2.shot =
        (glfwGetMouseButton f.window MouseButton.LEFT &&
          !g.cameraController.mouseButtonWasPressed) := by
  have hkey : ∀ k : Key, glfwGetKey f.window k = false := by
    intro k
    simp [glfwGetKey, hwin]
  have hr : g.runFrame L f = g.handleGameInput L f.window (min f.elapsed (1 / 4)) := by
    unfold SimpleGame.runFrame
    rw [hs]
  have h : (if gameEscapeKeyDownDetected g f.window then GameState.MENU
       else if pauseKeyDownDetected g f.window then GameState.PAUSED else g.gameState)
        = GameState.PLAYING := by
    simp [gameEscapeKeyDownDetected, pauseKeyDownDetected, hkey, hs]
  obtain ⟨g1, _, _, hstate1, hclose1, hkeys1, hflag1, h1, h2⟩ :=
    handleGameInput_stay_form L g f.window (min f.elapsed (1 / 4)) h
  obtain ⟨f1, f2, f3, _⟩ := handleShooting_flags L g1 f.window
  obtain ⟨_, _, _, _, s5⟩ := handleShooting_projectiles L g1 f.window
  obtain ⟨_, _, u3, u4, u5⟩ :=
    updateProjectiles_keys (g1.handleShooting L f.window).1 (min f.elapsed (1 / 4))
  have hshoot : g1.cameraController.keys.shoot = MouseButton.LEFT := by
    rw [hkeys1, hkeys]
  rw [hr, h1, h2, u3, u4, u5, handleShooting_gameState, hstate1, s5, hclose1, f1, f2, f3,
    hshoot, hkeys1, hkeys, hflag1, hkey]
  simp

/-- One shot, as a frame with the fire button pressed and a frame with it released,
from a game that is ready to shoot: the game is again ready to shoot, the id counter
has advanced by one modulo `2^32` and the id handed out is a key of the projectile
table. -/
theorem shot_pair (L : Lib) (g : SimpleGame) (hg : g.readyToShoot) :
    ((g.runFrame L (frameWith [] [MouseButton.LEFT])).1.runFrame L
        (frameWith [] [])).1.readyToShoot ∧
      ((g.runFrame L (frameWith [] [MouseButton.LEFT])).1.runFrame L
        (frameWith [] [])).1.statics.currentId = (g.statics.currentId + 1) % 2 ^ 32 ∧
      g.statics.currentId ∈
        ((g.runFrame L (frameWith [] [MouseButton.LEFT])).1.runFrame L
          (frameWith [] [])).1.projectiles.map Prod.fst ∧
      (g.runFrame L (frameWith [] [MouseButton.LEFT])).1.windowShouldClose = false := by
  obtain ⟨hs, hopen, hkeys, hflag⟩ := hg
  obtain ⟨a1, a2, a3, a4, a5⟩ :=
    runFrame_without_keys L g (frameWith [] [MouseButton.LEFT]) hs hkeys rfl
  have hshot : (g.runFrame L (frameWith [] [MouseButton.LEFT])).2.shot = true := by
    rw [a5, hflag]
    rfl
  obtain ⟨_, _, _, p4, p5⟩ := runFrame_projectiles L g (frameWith [] [MouseButton.LEFT])
  obtain ⟨b1, b2, b3, b4, b5⟩ :=
    runFrame_without_keys L (g.runFrame L (frameWith [] [MouseButton.LEFT])).1
      (frameWith [] []) a1 a3 rfl
  have hnoshot : ((g.runFrame L (frameWith [] [MouseButton.LEFT])).1.runFrame L
      (frameWith [] [])).2.shot = false := by
    rw [b5]
    rfl
  obtain ⟨q1, _, _, _, q5⟩ :=
    runFrame_projectiles L (g.runFrame L (frameWith [] [MouseButton.LEFT])).1 (frameWith [] [])
  refine ⟨⟨b1, ?_, b3, ?_⟩, ?_, ?_, ?_⟩
  · rw [b2, a2, hopen]
  · rw [b4]
    rfl
  · rw [q5, hnoshot, p5, if_pos hshot]
    simp
  · exact q1 _ (p4 hshot)
  · rw [a2, hopen]

/-- The run of `n` shots from a game that is ready to shoot, for `n` at least 1: the
game is again ready to shoot, the id counter has advanced by `n` modulo `2^32` and the
id handed out first is a key of the projectile table. -/
theorem run_shotFrames (L : Lib) (n : Nat) :
    ∀ g : SimpleGame, g.readyToShoot → g.statics.currentId < 2 ^ 32 →
      (SimpleGame.run L g (shotFrames n)).1.readyToShoot ∧
        (SimpleGame.run L g (shotFrames n)).1.statics.currentId =
          (g.statics.currentId + n) % 2 ^ 32 ∧
        (0 < n → g.statics.currentId ∈
          (SimpleGame.run L g (shotFrames n)).1.projectiles.map Prod.fst) := by
  induction n with
  | zero =>
    intro g hg hc
    refine ⟨hg, ?_, fun h => absurd h (Nat.lt_irrefl 0)⟩
    show g.statics.currentId = _
    rw [Nat.add_zero, Nat.mod_eq_of_lt hc]
  | succ n ih =>
    intro g hg hc
    obtain ⟨h1, h2, h3, h4⟩ := shot_pair L g hg
    have hrun : SimpleGame.run L g (shotFrames (n + 1)) =
        ((SimpleGame.run L ((g.runFrame L (frameWith [] [MouseButton.LEFT])).1.runFrame L
            (frameWith [] [])).1 (shotFrames n)).1,
          (g.runFrame L (frameWith [] [MouseButton.LEFT])).2 ::
            ((g.runFrame L (frameWith [] [MouseButton.LEFT])).1.runFrame L (frameWith [] [])).2 ::
              (SimpleGame.run L ((g.runFrame L (frameWith [] [MouseButton.LEFT])).1.runFrame L
                (frameWith [] [])).1 (shotFrames n)).2) := by
      rw [shotFrames, run_cons_of_open L g _ _ hg.2.1, run_cons_of_open L _ _ _ h4]
    obtain ⟨i1, i2, _⟩ := ih _ h1 (by rw [h2]; exact Nat.mod_lt _ (by norm_num))
    rw [hrun]
    refine ⟨i1, ?_, fun _ => run_projectiles_keys L (shotFrames n) _ _ h3⟩
    show (SimpleGame.run L _ (shotFrames n)).1.statics.currentId = _
    rw [i2, h2]
    omega

/-- Counterexample to C17: after the start of the game and `2^32` shots the id counter
is back at the id of the first projectile, which is still in the table; the next fire
event is handled in PLAYING, and the size of the projectile table is unchanged. -/
theorem C17_projectiles_only_grow_counterexample :
    (SimpleGame.run sampleLib playingGame (shotFrames (2 ^ 32))).1.gameState
        = GameState.PLAYING ∧
      ((SimpleGame.run sampleLib playingGame (shotFrames (2 ^ 32))).1.runFrame sampleLib
        (frameWith [] [MouseButton.LEFT])).2.shot = true ∧
      ((SimpleGame.run sampleLib playingGame (shotFrames (2 ^ 32))).1.runFrame sampleLib
        (frameWith [] [MouseButton.LEFT])).1.projectiles.length =
        (SimpleGame.run sampleLib playingGame (shotFrames (2 ^ 32))).1.projectiles.length := by
  have hready : playingGame.readyToShoot := ⟨by decide, by decide, by decide, by decide⟩
  have hid : playingGame.statics.currentId = 20 := by decide
  obtain ⟨⟨r1, r2, r3, r4⟩, hcur, hkey⟩ :=
    run_shotFrames sampleLib (2 ^ 32) playingGame hready (by rw [hid]; norm_num)
  have hcur2 : (SimpleGame.run sampleLib playingGame (shotFrames (2 ^ 32))).1.statics.currentId
      = playingGame.statics.currentId := by
    rw [hcur, hid]
    norm_num
  obtain ⟨_, _, _, _, a5⟩ :=
    runFrame_without_keys sampleLib (SimpleGame.run sampleLib playingGame (shotFrames (2 ^ 32))).1
      (frameWith [] [MouseButton.LEFT]) r1 r3 rfl
  obtain ⟨_, p2, _⟩ :=
    runFrame_projectiles sampleLib (SimpleGame.run sampleLib playingGame (shotFrames (2 ^ 32))).1
      (frameWith [] [MouseButton.LEFT])
  refine ⟨r1, ?_, ?_⟩
  · rw [a5, r4]
    rfl
  · rw [p2, hcur2, if_neg (fun h => h.2 (hkey (by norm_num))), Nat.add_zero]

/-- C21: in `updateProjectiles`, for a projectile whose integrated y is not at or past
the ground test (y > groundLevel) and whose integrated position lies in no meshed
entity's box: the stored velocity is v' = (v.x, v.y + projectileGravity · dt, v.z) and
the translation is translation + v' · dt, so gravity is applied first and the position
is integrated with the updated velocity; neither the ground branch nor an entity hit
is taken; scale, color, mesh and id are unchanged.  The stepped projectile is what
`updateProjectiles` stores at the projectile's place in the table. -/
theorem C21_free_flight (c : KeyboardMovementController) (gameObjects : Map) (dt : ℚ)
    (p : LveGameObject)
    (hAir : c.groundLevel <
      p.transform.translation.y + dt * (p.transform.rotation.y + c.projectileGravity * dt))
    (hNoBox : ∀ kv ∈ gameObjects, kv.2.model.isSome = true →
      withinBounds
        (p.transform.translation.add
          (Vec3.smul dt
            ⟨p.transform.rotation.x, p.transform.rotation.y + c.projectileGravity * dt,
              p.transform.rotation.z⟩))
        kv.2.transform.translation kv.2.transform.scale = false) :
    (updateProjectile c gameObjects dt p).projectile.transform.rotation =
        ⟨p.transform.rotation.x, p.transform.rotation.y + c.projectileGravity * dt,
          p.transform.rotation.z⟩ ∧
      (updateProjectile c gameObjects dt p).projectile.transform.translation =
        p.transform.translation.add
          (Vec3.smul dt (updateProjectile c gameObjects dt p).projectile.transform.rotation) ∧
      (updateProjectile c gameObjects dt p).bounced = false ∧
      (updateProjectile c gameObjects dt p).hitPlatform = false ∧
      (updateProjectile c gameObjects dt p).projectile.transform.scale = p.transform.scale ∧
      (updateProjectile c gameObjects dt p).projectile.color = p.color ∧
      (updateProjectile c gameObjects dt p).projectile.model = p.model ∧
      (updateProjectile c gameObjects dt p).projectile.id = p.id ∧
      (∀ (g : SimpleGame) (i key : Nat), g.cameraController = c → g.gameObjects = gameObjects →
        g.projectiles[i]? = some (key, p) →
        (g.updateProjectiles dt).projectiles[i]? =
          some (key, (updateProjectile c gameObjects dt p).projectile)) := by
  have hNotGround :
      ¬ p.transform.translation.y + dt * (p.transform.rotation.y + c.projectileGravity * dt)
        ≤ c.groundLevel := not_le.mpr hAir
  have ht := updateProjectile_translation c gameObjects dt p
  rw [if_neg hNotGround] at ht
  obtain ⟨velocity, hHit, hRot, hVel⟩ := updateProjectile_hitPlatform c gameObjects dt p
  rw [if_neg hNotGround] at hVel
  rw [ht] at hHit hRot
  have hpos : p.transform.translation.add
      (Vec3.smul dt
        ⟨p.transform.rotation.x, p.transform.rotation.y + c.projectileGravity * dt,
          p.transform.rotation.z⟩) =
      ⟨p.transform.translation.x + dt * p.transform.rotation.x,
        p.transform.translation.y + dt * (p.transform.rotation.y + c.projectileGravity * dt),
        p.transform.translation.z + dt * p.transform.rotation.z⟩ := rfl
  rw [hpos] at hNoBox
  have hNo : (collideWithObjects c
      ⟨p.transform.translation.x + dt * p.transform.rotation.x,
        p.transform.translation.y + dt * (p.transform.rotation.y + c.projectileGravity * dt),
        p.transform.translation.z + dt * p.transform.rotation.z⟩ gameObjects velocity).2
      = false := by
    rw [Bool.eq_false_iff]
    intro h
    obtain ⟨kv, hkv, hm, hb⟩ := (collideWithObjects_hit_iff c _ gameObjects velocity).1 h
    rw [hNoBox kv hkv hm] at hb
    exact Bool.false_ne_true hb
  have hRot' := collideWithObjects_of_no_hit c _ gameObjects velocity hNo
  rw [hRot'] at hRot
  rw [hNo] at hHit
  rw [hVel] at hRot
  refine ⟨hRot, ?_, ?_, hHit, rfl, rfl, rfl, rfl,
    fun g i key hc hg hi => by rw [← hc, ← hg]; exact updateProjectiles_get g dt i key p hi⟩
  · rw [hRot, ht, hpos]
  · unfold updateProjectile
    simp only [Vec3.add, Vec3.smul, decide_eq_false_iff_not]
    exact hNotGround

/-- C21 on the default controller, one target cube, dt = 1/10 and a projectile at
(0, 1, 0) with velocity (10, 5, -10): the velocity becomes (10, 5 - 1.5, -10) and the
position (1, 1.35, -1). -/
theorem C21_free_flight_witness :
    (updateProjectile {} sampleTargets (1 / 10)
        (projectileAt ⟨0, 1, 0⟩ ⟨10, 5, -10⟩)).projectile.transform.rotation
        = ⟨10, 5 + -15 * (1 / 10), -10⟩ ∧
      (updateProjectile {} sampleTargets (1 / 10)
        (projectileAt ⟨0, 1, 0⟩ ⟨10, 5, -10⟩)).hitPlatform = false :=
  have h := C21_free_flight {} sampleTargets (1 / 10) (projectileAt ⟨0, 1, 0⟩ ⟨10, 5, -10⟩)
    (by norm_num [projectileAt])
    (by
      intro kv hkv _
      simp only [sampleTargets, List.mem_singleton] at hkv
      subst hkv
      rw [Bool.eq_false_iff]
      intro hb
      rw [withinBounds_iff] at hb
      norm_num [projectileAt, Vec3.add, Vec3.smul] at hb)
  ⟨h.1, h.2.2.2.1⟩

/-- C28: after every call of `updateProjectiles`, for every dt and every prior
projectile state, each projectile's y is at least groundLevel: a projectile whose
integrated y is at or past the ground test (y ≤ groundLevel) is set to exactly
groundLevel, any other keeps its integrated y, and the entity-collision step does not
move it (the position is the one the tick gives without any entity). -/
theorem C28_projectile_not_past_ground (c : KeyboardMovementController) (gameObjects : Map)
    (dt : ℚ) (p : LveGameObject) :
    c.groundLevel ≤ (updateProjectile c gameObjects dt p).projectile.transform.translation.y ∧
      (p.transform.translation.y + dt * (p.transform.rotation.y + c.projectileGravity * dt)
          ≤ c.groundLevel →
        (updateProjectile c gameObjects dt p).projectile.transform.translation.y
          = c.groundLevel) ∧
      (c.groundLevel <
          p.transform.translation.y + dt * (p.transform.rotation.y + c.projectileGravity * dt) →
        (updateProjectile c gameObjects dt p).projectile.transform.translation.y =
          p.transform.translation.y + dt * (p.transform.rotation.y + c.projectileGravity * dt)) ∧
      (updateProjectile c gameObjects dt p).projectile.transform.translation =
        (updateProjectile c [] dt p).projectile.transform.translation ∧
      (∀ g : SimpleGame, g.cameraController = c → g.gameObjects = gameObjects →
        ∀ kv ∈ (g.updateProjectiles dt).projectiles,
          c.groundLevel ≤ kv.2.transform.translation.y) := by
  have hall : ∀ (objs : Map) (q : LveGameObject),
      c.groundLevel ≤ (updateProjectile c objs dt q).projectile.transform.translation.y := by
    intro objs q
    rw [updateProjectile_translation]
    split_ifs with h
    · exact le_refl _
    · exact le_of_lt (not_le.mp h)
  refine ⟨hall gameObjects p, ?_, ?_, rfl, ?_⟩
  · intro h
    rw [updateProjectile_translation, if_pos h]
  · intro h
    rw [updateProjectile_translation, if_neg (not_le.mpr h)]
  · intro g hc hg kv hkv
    unfold SimpleGame.updateProjectiles at hkv
    simp only [List.mem_map] at hkv
    obtain ⟨kv0, _, rfl⟩ := hkv
    rw [hc, hg]
    exact hall gameObjects kv0.2

/-- C28 on the default controller and a projectile at (0, -1, 0) with velocity
(10, 5, -10): after the tick its y is the ground level 0. -/
theorem C28_projectile_not_past_ground_witness :
    (updateProjectile {} sampleTargets (1 / 10)
      (projectileAt ⟨0, -1, 0⟩ ⟨10, 5, -10⟩)).projectile.transform.translation.y = 0 :=
  (C28_projectile_not_past_ground {} sampleTargets (1 / 10)
    (projectileAt ⟨0, -1, 0⟩ ⟨10, 5, -10⟩)).2.1 (by norm_num [projectileAt])

/-- The loop over the entities when some entity with a mesh has the position in its
bounds: the velocity after the collision response, and `hitPlatform` set. -/
theorem collideWithObjects_of_hit (c : KeyboardMovementController) (projPos : Vec3)
    (objs : Map) (velocity : Vec3)
    (h : ∃ kv ∈ objs, kv.2.model.isSome = true ∧
      withinBounds projPos kv.2.transform.translation kv.2.transform.scale = true) :
    collideWithObjects c projPos objs velocity =
      (⟨velocity.x * (4 / 5), (intAbs (floatToInt velocity.y) : ℚ) * c.bounceDamping,
        velocity.z * (4 / 5)⟩, true) := by
  obtain ⟨before, kv, after, hsplit, hkv, hnone⟩ :=
    exists_first_of_exists (fun kv => kv.2.model.isSome = true ∧
      withinBounds projPos kv.2.transform.translation kv.2.transform.scale = true) objs h
  rw [hsplit]
  exact collideWithObjects_first_hit c projPos kv after velocity hkv.1 hkv.2 before hnone

/-- The loop over the entities when no entity with a mesh has the position in its
bounds: the velocity is kept and `hitPlatform` is not set. -/
theorem collideWithObjects_of_none (c : KeyboardMovementController) (projPos : Vec3)
    (objs : Map) (velocity : Vec3)
    (h : ¬ ∃ kv ∈ objs, kv.2.model.isSome = true ∧
      withinBounds projPos kv.2.transform.translation kv.2.transform.scale = true) :
    collideWithObjects c projPos objs velocity = (velocity, false) := by
  have h2 : (collideWithObjects c projPos objs velocity).2 = false := by
    rw [Bool.eq_false_iff]
    exact fun ht => h ((collideWithObjects_hit_iff c projPos objs velocity).1 ht)
  exact Prod.ext (collideWithObjects_of_no_hit c projPos objs velocity h2) h2

/-- The loop over the entities gives the same result for every order of the table. -/
theorem collideWithObjects_perm (c : KeyboardMovementController) (projPos : Vec3)
    (objs objs' : Map) (hperm : objs'.Perm objs) (velocity : Vec3) :
    collideWithObjects c projPos objs' velocity = collideWithObjects c projPos objs velocity := by
  by_cases h : ∃ kv ∈ objs, kv.2.model.isSome = true ∧
      withinBounds projPos kv.2.transform.translation kv.2.transform.scale = true
  · have h' : ∃ kv ∈ objs', kv.2.model.isSome = true ∧
        withinBounds projPos kv.2.transform.translation kv.2.transform.scale = true := by
      obtain ⟨kv, hkv, hp⟩ := h
      exact ⟨kv, hperm.mem_iff.mpr hkv, hp⟩
    rw [collideWithObjects_of_hit c projPos objs velocity h,
      collideWithObjects_of_hit c projPos objs' velocity h']
  · have h' : ¬ ∃ kv ∈ objs', kv.2.model.isSome = true ∧
        withinBounds projPos kv.2.transform.translation kv.2.transform.scale = true := by
      rintro ⟨kv, hkv, hp⟩
      exact h ⟨kv, hperm.mem_iff.mp hkv, hp⟩
    rw [collideWithObjects_of_none c projPos objs velocity h,
      collideWithObjects_of_none c projPos objs' velocity h']

/-- One pass of the loop body of `updateProjectiles` gives the same result for every
order of the main entity table. -/
theorem updateProjectile_perm (c : KeyboardMovementController) (gameObjects gameObjects' : Map)
    (hperm : gameObjects'.Perm gameObjects) (dt : ℚ) (p : LveGameObject) :
    updateProjectile c gameObjects' dt p = updateProjectile c gameObjects dt p := by
  unfold updateProjectile
  simp only [collideWithObjects_perm c _ gameObjects gameObjects' hperm]

/-- C27: for fixed dt, projectile states and entity contents, the result of
`updateProjectiles` for each projectile is the same for every iteration order of the
main entity table and of the projectile table.  The stored velocity depends on the
main table only through whether at least one entity with a mesh has the projectile's
position in its box (it is then the collision response of the code applied to the
velocity of the tick, whichever entity is met first), the position does not depend on
the main table at all, and each entry of the projectile table is stepped from its own
state only. -/
theorem C27_order_independent (c : KeyboardMovementController) (gameObjects gameObjects' : Map)
    (hperm : gameObjects'.Perm gameObjects) (dt : ℚ) (p : LveGameObject) :
    updateProjectile c gameObjects' dt p = updateProjectile c gameObjects dt p ∧
      ((∃ kv ∈ gameObjects, kv.2.model.isSome = true ∧
          withinBounds (updateProjectile c [] dt p).projectile.transform.translation
            kv.2.transform.translation kv.2.transform.scale = true) →
        (updateProjectile c gameObjects dt p).projectile.transform.rotation =
          ⟨(updateProjectile c [] dt p).projectile.transform.rotation.x * (4 / 5),
            (intAbs (floatToInt (updateProjectile c [] dt p).projectile.transform.rotation.y) : ℚ)
              * c.bounceDamping,
            (updateProjectile c [] dt p).projectile.transform.rotation.z * (4 / 5)⟩) ∧
      ((¬ ∃ kv ∈ gameObjects, kv.2.model.isSome = true ∧
          withinBounds (updateProjectile c [] dt p).projectile.transform.translation
            kv.2.transform.translation kv.2.transform.scale = true) →
        (updateProjectile c gameObjects dt p).projectile.transform.rotation =
          (updateProjectile c [] dt p).projectile.transform.rotation) ∧
      (updateProjectile c gameObjects dt p).projectile.transform.translation =
        (updateProjectile c [] dt p).projectile.transform.translation ∧
      (∀ g g' : SimpleGame, g.cameraController = c → g'.cameraController = c →
        g.gameObjects = gameObjects → g'.gameObjects = gameObjects' →
        g'.projectiles.Perm g.projectiles →
        (g'.updateProjectiles dt).projectiles.Perm (g.updateProjectiles dt).projectiles) ∧
      (∀ g : SimpleGame, g.cameraController = c → g.gameObjects = gameObjects →
        (g.updateProjectiles dt).projectiles =
          g.projectiles.map fun kv => (kv.1, (updateProjectile c gameObjects dt kv.2).projectile)) := by
  have hrot := (updateProjectile_entities c gameObjects dt p).1
  refine ⟨updateProjectile_perm c gameObjects gameObjects' hperm dt p, ?_, ?_, rfl, ?_, ?_⟩
  · intro h
    rw [hrot, collideWithObjects_of_hit c _ gameObjects _ h]
  · intro h
    rw [hrot, collideWithObjects_of_none c _ gameObjects _ h]
  · intro g g' hc hc' hg hg' hp
    unfold SimpleGame.updateProjectiles
    simp only [hc, hc', hg, hg']
    have hf : (fun kv : Nat × LveGameObject =>
        (kv.1, (updateProjectile c gameObjects' dt kv.2).projectile)) =
        fun kv => (kv.1, (updateProjectile c gameObjects dt kv.2).projectile) := by
      funext kv
      rw [updateProjectile_perm c gameObjects gameObjects' hperm dt kv.2]
    rw [hf]
    exact hp.map _
  · intro g hc hg
    unfold SimpleGame.updateProjectiles
    simp only [hc, hg]

/-- C27 on the default controller and a projectile that moves into the first target
cube: a second entity placed before or after the cube in the main table gives the same
result. -/
theorem C27_order_independent_witness :
    updateProjectile {} (sampleTargets ++ [(9, { id := 9 })]) (1 / 10)
        (projectileAt ⟨16 / 5, 3 / 10, 13 / 10⟩ ⟨1, 3 / 2, 0⟩) =
      updateProjectile {} ((9, { id := 9 }) :: sampleTargets) (1 / 10)
        (projectileAt ⟨16 / 5, 3 / 10, 13 / 10⟩ ⟨1, 3 / 2, 0⟩) :=
  (C27_order_independent {} ((9, { id := 9 }) :: sampleTargets)
    (sampleTargets ++ [(9, { id := 9 })]) (List.perm_append_singleton _ _) (1 / 10)
    (projectileAt ⟨16 / 5, 3 / 10, 13 / 10⟩ ⟨1, 3 / 2, 0⟩)).1

/-- A property of the game that every frame preserves holds after every run of the
loop. -/
theorem run_invariant (L : Lib) (P : SimpleGame → Prop)
    (hstep : ∀ (g : SimpleGame) (f : Frame), P g → P (g.runFrame L f).1) (fs : List Frame) :
    ∀ g : SimpleGame, P g → P (SimpleGame.run L g fs).1 := by
  induction fs with
  | nil => intro g hg; exact hg
  | cons f rest ih =>
    intro g hg
    by_cases hclose : g.windowShouldClose = true
    · rw [run_of_closed L g (f :: rest) hclose]
      exact hg
    · have hopen : g.windowShouldClose = false := by simpa using hclose
      rw [run_cons_of_open L g f rest hopen]
      exact ih _ (hstep g f hg)

/-- The call `handleShooting` leaves the settings flag alone. -/
theorem handleShooting_inSettings (L : Lib) (g : SimpleGame) (window : GLFWwindow) :
    (g.handleShooting L window).1.inSettings = g.inSettings := by
  unfold SimpleGame.handleShooting
  dsimp only
  split_ifs <;> rfl

/-- The handler `handleGameInput` leaves the settings flag alone. -/
theorem handleGameInput_inSettings (L : Lib) (g : SimpleGame) (window : GLFWwindow)
    (frameTime : ℚ) :
    (g.handleGameInput L window frameTime).1.inSettings = g.inSettings := by
  by_cases h : (if gameEscapeKeyDownDetected g window then GameState.MENU
       else if pauseKeyDownDetected g window then GameState.PAUSED else g.gameState)
        = GameState.PLAYING
  · rw [handleGameInput_of_stay L g window frameTime h]
    simp only [SimpleGame.updateProjectiles, handleShooting_inSettings, SimpleGame.updateWeapon]
  · rw [handleGameInput_of_leave L g window frameTime h]

/-- The settings branch of `handleMenuInput`: only the settings flag and the Escape
flag of `handleMenuInput` change. -/
theorem handleMenuInput_settings_eq (g : SimpleGame) (window : GLFWwindow)
    (hSettings : g.inSettings = true) :
    g.handleMenuInput window =
      ({ g with
         inSettings := !menuEscapeKeyDownDetected g window
         statics := { g.statics with menuEscapeKeyWasPressed := glfwGetKey window Key.ESCAPE } },
       { calledHandleMenuInput := true
         menuEscapeKeyDown := menuEscapeKeyDownDetected g window }) := by
  unfold SimpleGame.handleMenuInput menuEscapeKeyDownDetected
  simp only [hSettings, if_true]
  cases glfwGetKey window Key.ESCAPE && !g.statics.menuEscapeKeyWasPressed <;> rfl

/-- The PAUSED branch of `handleMenuInput`: only the game state and the Enter and
Escape flags of `handleMenuInput` change. -/
theorem handleMenuInput_paused_eq (g : SimpleGame) (window : GLFWwindow)
    (hState : g.gameState = GameState.PAUSED) (hSettings : g.inSettings = false) :
    g.handleMenuInput window =
      ({ g with
         gameState :=
           if menuEscapeKeyDownDetected g window then GameState.MENU
           else if enterKeyDownDetected g window then GameState.PLAYING else g.gameState
         statics :=
           { g.statics with
             menuEnterKeyWasPressed := glfwGetKey window Key.ENTER
             menuEscapeKeyWasPressed := glfwGetKey window Key.ESCAPE } },
       { calledHandleMenuInput := true
         enterSampled := true
         enterKeyDown := enterKeyDownDetected g window
         menuEscapeKeyDown := menuEscapeKeyDownDetected g window }) := by
  unfold SimpleGame.handleMenuInput menuEscapeKeyDownDetected enterKeyDownDetected
  simp only [hState, hSettings]
  rfl

/-- Every frame preserves: the settings flag is set only in MENU. -/
theorem runFrame_settings_in_menu (L : Lib) (g : SimpleGame) (f : Frame)
    (h : g.inSettings = true → g.gameState = GameState.MENU) :
    (g.runFrame L f).1.inSettings = true → (g.runFrame L f).1.gameState = GameState.MENU := by
  have hcases : g.gameState = GameState.MENU ∨ g.gameState = GameState.PAUSED ∨
      g.gameState = GameState.PLAYING := by
    cases g.gameState <;> simp
  rcases hcases with hstate | hstate | hstate
  · have hr : (g.runFrame L f).1 = (g.handleMenuInput f.window).1.updateMenuVisuals L f.time := by
      unfold SimpleGame.runFrame
      rw [hstate]
    rw [hr]
    show (g.handleMenuInput f.window).1.inSettings = true →
      (g.handleMenuInput f.window).1.gameState = GameState.MENU
    by_cases hs : g.inSettings = true
    · rw [handleMenuInput_settings_eq g f.window hs]
      exact fun _ => hstate
    · have hs' : g.inSettings = false := by simpa using hs
      rw [handleMenuInput_menu_eq g f.window hstate hs']
      dsimp only
      intro hin
      rw [hs'] at hin
      have hset : (enterKeyDownDetected g f.window &&
          decide (selectedAfterNavigation g f.window = SETTINGS)) = true := by
        by_contra hc
        rw [if_neg hc] at hin
        exact Bool.false_ne_true hin
      have hsel : selectedAfterNavigation g f.window = SETTINGS := by
        simp only [Bool.and_eq_true, decide_eq_true_eq] at hset
        exact hset.2
      have hnot : ¬ (enterKeyDownDetected g f.window &&
          decide (selectedAfterNavigation g f.window = START_GAME)) = true := by
        rw [hsel]
        simp [SETTINGS, START_GAME]
      rw [if_neg hnot]
      exact hstate
  · have hs : g.inSettings = false := by
      cases hin : g.inSettings
      · rfl
      · rw [h hin] at hstate
        cases hstate
    have hr : g.runFrame L f = g.handleMenuInput f.window := by
      unfold SimpleGame.runFrame
      rw [hstate]
    rw [hr, handleMenuInput_paused_eq g f.window hstate hs]
    intro hin
    rw [hs] at hin
    exact absurd hin Bool.false_ne_true
  · have hs : g.inSettings = false := by
      cases hin : g.inSettings
      · rfl
      · rw [h hin] at hstate
        cases hstate
    have hr : g.runFrame L f = g.handleGameInput L f.window (min f.elapsed (1 / 4)) := by
      unfold SimpleGame.runFrame
      rw [hstate]
    rw [hr, handleGameInput_inSettings, hs]
    intro hin
    exact absurd hin Bool.false_ne_true

/-- In every reachable state of the game loop the settings flag is set only in MENU. -/
theorem reachable_settings_in_menu (L : Lib) (g : SimpleGame) (hg : SimpleGame.Reachable L g) :
    g.inSettings = true → g.gameState = GameState.MENU := by
  obtain ⟨frames, rfl⟩ := hg
  exact run_invariant L (fun g => g.inSettings = true → g.gameState = GameState.MENU)
    (runFrame_settings_in_menu L) frames (SimpleGame.new L) (fun _ => rfl)

/-- C22: in MENU with the settings view closed, a detected Enter key-down that acts on
SETTINGS (the option selected after the same call's navigation, which is the option
selected before when SETTINGS was selected and the call detects neither or both of an
Up and a Down key-down) sets the flag `inSettings` and leaves gameState = MENU.  In
every reachable state of the game loop, while `inSettings` is set a frame leaves
gameState and selectedMenuOption unchanged, reads none of Up, Down and Enter (their
flags stay as they were and none of their actions runs), and leaves `inSettings` set
unless it detects an Escape key-down, which clears it.  In every reachable state of the
game loop `inSettings` implies gameState = MENU. -/
theorem C22_settings_view (L : Lib) (g : SimpleGame) (f : Frame)
    (hg : SimpleGame.Reachable L g) :
    (g.gameState = GameState.MENU → g.inSettings = false →
        enterKeyDownDetected g f.window = true →
        selectedAfterNavigation g f.window = SETTINGS →
        (g.runFrame L f).1.inSettings = true ∧ (g.runFrame L f).1.gameState = GameState.MENU) ∧
      (g.selectedMenuOption = SETTINGS →
        upKeyDownDetected g f.window = downKeyDownDetected g f.window →
        selectedAfterNavigation g f.window = SETTINGS) ∧
      (g.inSettings = true →
        (g.runFrame L f).1.gameState = g.gameState ∧
        (g.runFrame L f).1.selectedMenuOption = g.selectedMenuOption ∧
        (g.runFrame L f).1.statics.menuUpKeyWasPressed = g.statics.menuUpKeyWasPressed ∧
        (g.runFrame L f).1.statics.menuDownKeyWasPressed = g.statics.menuDownKeyWasPressed ∧
        (g.runFrame L f).1.statics.menuEnterKeyWasPressed = g.statics.menuEnterKeyWasPressed ∧
        (g.runFrame L f).2.upKeyDown = false ∧ (g.runFrame L f).2.downKeyDown = false ∧
        (g.runFrame L f).2.enterSampled = false ∧ (g.runFrame L f).2.enterKeyDown = false ∧
        (g.runFrame L f).1.inSettings = !menuEscapeKeyDownDetected g f.window) ∧
      (g.inSettings = true → g.gameState = GameState.MENU) := by
  have hinv := reachable_settings_in_menu L g hg
  refine ⟨?_, ?_, ?_, hinv⟩
  · intro hstate hs hEnter hSel
    have hr : (g.runFrame L f).1 = (g.handleMenuInput f.window).1.updateMenuVisuals L f.time := by
      unfold SimpleGame.runFrame
      rw [hstate]
    rw [hr]
    show (g.handleMenuInput f.window).1.inSettings = true ∧
      (g.handleMenuInput f.window).1.gameState = GameState.MENU
    rw [handleMenuInput_menu_eq g f.window hstate hs]
    dsimp only
    rw [hEnter, hSel, hstate]
    exact ⟨by simp, by simp [SETTINGS, START_GAME]⟩
  · intro hsel hnav
    unfold selectedAfterNavigation
    rw [← hnav, hsel]
    cases upKeyDownDetected g f.window <;> decide
  · intro hs
    have hstate := hinv hs
    have hr : g.runFrame L f =
        ((g.handleMenuInput f.window).1.updateMenuVisuals L f.time,
          (g.handleMenuInput f.window).2) := by
      unfold SimpleGame.runFrame
      rw [hstate]
    rw [hr, handleMenuInput_settings_eq g f.window hs]
    exact ⟨rfl, rfl, rfl, rfl, rfl, rfl, rfl, rfl, rfl, rfl⟩

/-- C22 at the freshly constructed game with the Down arrow and Enter newly pressed:
the selection moves to SETTINGS and the frame opens the settings view in MENU. -/
theorem C22_settings_view_witness :
    ((SimpleGame.new sampleLib).runFrame sampleLib
        (frameWith [Key.DOWN, Key.ENTER] [])).1.inSettings = true ∧
      ((SimpleGame.new sampleLib).runFrame sampleLib
        (frameWith [Key.DOWN, Key.ENTER] [])).1.gameState = GameState.MENU :=
  (C22_settings_view sampleLib (SimpleGame.new sampleLib) (frameWith [Key.DOWN, Key.ENTER] [])
    ⟨[], rfl⟩).1 (by decide) (by decide) (by decide) (by decide)

/-- C29: for every frame the game loop handles in PAUSED state, the input handling of
the frame changes nothing of the game but gameState; beside it only the Enter and
Escape flags of `handleMenuInput`, which are static variables of that function, are
written.  In particular the viewer transform, the weapon transform, the projectile
table (every projectile's translation and stored velocity, and the number of
projectiles), the main entity table and selectedMenuOption are unchanged. -/
theorem C29_paused_frame_effect (L : Lib) (g : SimpleGame) (f : Frame)
    (hg : SimpleGame.Reachable L g) (hstate : g.gameState = GameState.PAUSED) :
    (g.runFrame L f).1 =
        { g with
          gameState := (g.runFrame L f).1.gameState
          statics :=
            { g.statics with
              menuEnterKeyWasPressed := glfwGetKey f.window Key.ENTER
              menuEscapeKeyWasPressed := glfwGetKey f.window Key.ESCAPE } } ∧
      (g.runFrame L f).1.viewerObject.transform = g.viewerObject.transform ∧
      (g.runFrame L f).1.weaponObject.transform = g.weaponObject.transform ∧
      (g.runFrame L f).1.projectiles = g.projectiles ∧
      (g.runFrame L f).1.projectiles.length = g.projectiles.length ∧
      (g.runFrame L f).1.gameObjects = g.gameObjects ∧
      (g.runFrame L f).1.selectedMenuOption = g.selectedMenuOption ∧
      (g.runFrame L f).2.calledMoveInPlaneXZ = false ∧
      (g.runFrame L f).2.calledUpdateWeapon = false ∧
      (g.runFrame L f).2.calledHandleShooting = false ∧
      (g.runFrame L f).2.calledUpdateProjectiles = false := by
  have hs : g.inSettings = false := by
    cases hin : g.inSettings
    · rfl
    · rw [reachable_settings_in_menu L g hg hin] at hstate
      cases hstate
  have hr : g.runFrame L f = g.handleMenuInput f.window := by
    unfold SimpleGame.runFrame
    rw [hstate]
  rw [hr, handleMenuInput_paused_eq g f.window hstate hs]
  exact ⟨rfl, rfl, rfl, rfl, rfl, rfl, rfl, rfl, rfl, rfl, rfl⟩

/-- C29 at the paused game reached by starting the game, pressing P and releasing it:
a frame with Enter pressed resumes the game and leaves the viewer, the projectile
table and the main entity table as they were. -/
theorem C29_paused_frame_effect_witness :
    ((pausedGame.runFrame sampleLib (frameWith [Key.ENTER] [])).1.viewerObject.transform
        = pausedGame.viewerObject.transform) ∧
      (pausedGame.runFrame sampleLib (frameWith [Key.ENTER] [])).1.projectiles
        = pausedGame.projectiles ∧
      (pausedGame.runFrame sampleLib (frameWith [Key.ENTER] [])).1.gameObjects
        = pausedGame.gameObjects :=
  have h := C29_paused_frame_effect sampleLib pausedGame (frameWith [Key.ENTER] [])
    ⟨[frameWith [Key.ENTER] [], frameWith [Key.P] [], frameWith [] []], rfl⟩ (by decide)
  ⟨h.2.1, h.2.2.2.1, h.2.2.2.2.2.1⟩

/-- C26 (amended): a frame handled in PLAYING sets the window's close flag exactly when
the exit key (ESC) is sampled as pressed, it was pressed at the previous sample of
`handleGameInput` too, and no pause key-down is detected: then the game stays in
PLAYING and `moveInPlaneXZ` runs its exit-key branch.  When `handleGameInput` detects
an ESC key-down (ESC pressed and not pressed at its previous sample), it leaves PLAYING
for MENU before `moveInPlaneXZ` is called and the close flag is as before. -/
theorem C26_close_request_amended (L : Lib) (g : SimpleGame) (f : Frame)
    (hs : g.gameState = GameState.PLAYING) :
    (g.runFrame L f).1.windowShouldClose =
        (g.windowShouldClose ||
          (glfwGetKey f.window g.cameraController.keys.exitGame &&
            g.statics.gameEscapeKeyWasPressed && !pauseKeyDownDetected g f.window)) ∧
      (glfwGetKey f.window g.cameraController.keys.exitGame = true →
        g.statics.gameEscapeKeyWasPressed = true → pauseKeyDownDetected g f.window = false →
        (g.runFrame L f).1.gameState = GameState.PLAYING ∧
        (g.runFrame L f).2.calledMoveInPlaneXZ = true ∧
        (g.runFrame L f).1.windowShouldClose = true) ∧
      (gameEscapeKeyDownDetected g f.window = true →
        (g.runFrame L f).1.gameState = GameState.MENU ∧
        (g.runFrame L f).2.calledMoveInPlaneXZ = false ∧
        (g.runFrame L f).1.windowShouldClose = g.windowShouldClose) := by
  have hr : g.runFrame L f = g.handleGameInput L f.window (min f.elapsed (1 / 4)) := by
    unfold SimpleGame.runFrame
    rw [hs]
  have hstay : ∀ h : (if gameEscapeKeyDownDetected g f.window then GameState.MENU
       else if pauseKeyDownDetected g f.window then GameState.PAUSED else g.gameState)
        = GameState.PLAYING,
      (g.runFrame L f).1.windowShouldClose =
          (g.windowShouldClose || glfwGetKey f.window g.cameraController.keys.exitGame) ∧
        (g.runFrame L f).1.gameState = GameState.PLAYING ∧
        (g.runFrame L f).2.calledMoveInPlaneXZ = true := by
    intro h
    obtain ⟨g1, _, _, hstate1, hclose1, _, _, h1, _⟩ :=
      handleGameInput_stay_form L g f.window (min f.elapsed (1 / 4)) h
    obtain ⟨_, _, _, _, s5⟩ := handleShooting_projectiles L g1 f.window
    obtain ⟨_, _, u3, u4, _⟩ :=
      updateProjectiles_keys (g1.handleShooting L f.window).1 (min f.elapsed (1 / 4))
    refine ⟨?_, ?_, ?_⟩
    · rw [hr, h1, u4, s5, hclose1]
    · rw [hr, h1, u3, handleShooting_gameState, hstate1]
    · rw [hr, handleGameInput_of_stay L g f.window (min f.elapsed (1 / 4)) h]
  have hleave : ∀ h : (if gameEscapeKeyDownDetected g f.window then GameState.MENU
       else if pauseKeyDownDetected g f.window then GameState.PAUSED else g.gameState)
        ≠ GameState.PLAYING,
      (g.runFrame L f).1.windowShouldClose = g.windowShouldClose ∧
        (g.runFrame L f).2.calledMoveInPlaneXZ = false := by
    intro h
    rw [hr, handleGameInput_of_leave L g f.window (min f.elapsed (1 / 4)) h]
    exact ⟨rfl, rfl⟩
  refine ⟨?_, ?_, ?_⟩
  · by_cases h : (if gameEscapeKeyDownDetected g f.window then GameState.MENU
       else if pauseKeyDownDetected g f.window then GameState.PAUSED else g.gameState)
        = GameState.PLAYING
    · rw [(hstay h).1]
      have he : gameEscapeKeyDownDetected g f.window = false := by
        by_contra hc
        rw [if_pos (by simpa using hc)] at h
        cases h
      have hp : pauseKeyDownDetected g f.window = false := by
        by_contra hc
        rw [he] at h
        rw [if_neg (by simp), if_pos (by simpa using hc)] at h
        cases h
      rw [hp]
      unfold gameEscapeKeyDownDetected at he
      cases hk : glfwGetKey f.window g.cameraController.keys.exitGame
      · simp
      · rw [hk] at he
        simp only [Bool.true_and, Bool.not_eq_false'] at he
        rw [he]
        simp
    · rw [(hleave h).1]
      have hor : gameEscapeKeyDownDetected g f.window = true ∨
          pauseKeyDownDetected g f.window = true := by
        by_contra hc
        push_neg at hc
        apply h
        rw [if_neg hc.1, if_neg hc.2, hs]
      rcases hor with he | hp
      · unfold gameEscapeKeyDownDetected at he
        simp only [Bool.and_eq_true, Bool.not_eq_true'] at he
        rw [he.1, he.2]
        simp
      · rw [hp]
        simp
  · intro hk hflag hp
    have h : (if gameEscapeKeyDownDetected g f.window then GameState.MENU
       else if pauseKeyDownDetected g f.window then GameState.PAUSED else g.gameState)
        = GameState.PLAYING := by
      unfold gameEscapeKeyDownDetected
      rw [hk, hflag, hp, hs]
      rfl
    obtain ⟨h1, h2, h3⟩ := hstay h
    refine ⟨h2, h3, ?_⟩
    rw [h1, hk]
    simp
  · intro he
    have h : (if gameEscapeKeyDownDetected g f.window then GameState.MENU
       else if pauseKeyDownDetected g f.window then GameState.PAUSED else g.gameState)
        ≠ GameState.PLAYING := by
      rw [he]
      simp
    obtain ⟨h1, h2⟩ := hleave h
    refine ⟨?_, h2, h1⟩
    rw [hr, handleGameInput_gameState, he]
    rfl

/-- C26 (amended) at the game just started, with ESC newly pressed: the frame returns
to MENU without calling `moveInPlaneXZ` and the close flag stays clear. -/
theorem C26_close_request_amended_witness :
    (playingGame.runFrame sampleLib (frameWith [Key.ESCAPE] [])).1.gameState = GameState.MENU ∧
      (playingGame.runFrame sampleLib (frameWith [Key.ESCAPE] [])).2.calledMoveInPlaneXZ
        = false ∧
      (playingGame.runFrame sampleLib (frameWith [Key.ESCAPE] [])).1.windowShouldClose
        = playingGame.windowShouldClose :=
  (C26_close_request_amended sampleLib playingGame (frameWith [Key.ESCAPE] [])
    (by decide)).2.2 (by decide)

/-- Counterexample to C26: the game is started, ESC is pressed (back to MENU) and held
while Enter is released and pressed again (the game starts again); the next frame is
handled in PLAYING with ESC sampled as pressed, `handleGameInput` stays in PLAYING,
`moveInPlaneXZ` is called and the window's close flag is set. -/
theorem C26_close_request_counterexample :
    (SimpleGame.run sampleLib (SimpleGame.new sampleLib)
        [frameWith [Key.ENTER] [], frameWith [Key.ESCAPE] [], frameWith [Key.ESCAPE] [],
          frameWith [Key.ESCAPE, Key.ENTER] []]).1.gameState = GameState.PLAYING ∧
      (SimpleGame.run sampleLib (SimpleGame.new sampleLib)
        [frameWith [Key.ENTER] [], frameWith [Key.ESCAPE] [], frameWith [Key.ESCAPE] [],
          frameWith [Key.ESCAPE, Key.ENTER] []]).1.windowShouldClose = false ∧
      ((SimpleGame.run sampleLib (SimpleGame.new sampleLib)
        [frameWith [Key.ENTER] [], frameWith [Key.ESCAPE] [], frameWith [Key.ESCAPE] [],
          frameWith [Key.ESCAPE, Key.ENTER] []]).1.runFrame sampleLib
            (frameWith [Key.ESCAPE] [])).1.gameState = GameState.PLAYING ∧
      ((SimpleGame.run sampleLib (SimpleGame.new sampleLib)
        [frameWith [Key.ENTER] [], frameWith [Key.ESCAPE] [], frameWith [Key.ESCAPE] [],
          frameWith [Key.ESCAPE, Key.ENTER] []]).1.runFrame sampleLib
            (frameWith [Key.ESCAPE] [])).2.calledMoveInPlaneXZ = true ∧
      ((SimpleGame.run sampleLib (SimpleGame.new sampleLib)
        [frameWith [Key.ENTER] [], frameWith [Key.ESCAPE] [], frameWith [Key.ESCAPE] [],
          frameWith [Key.ESCAPE, Key.ENTER] []]).1.runFrame sampleLib
            (frameWith [Key.ESCAPE] [])).1.windowShouldClose = true := by
  refine ⟨by decide, by decide, by decide, by decide, by decide⟩

/-- The y-component after the steps of `moveInPlaneXZ` that follow the horizontal
movement: ground test, jump, gravity, vertical movement, up and down keys. -/
theorem vertical_steps_y (t1 : Vec3) (ground vv jumpSpeed gravity ms dt : ℚ)
    (jumpKeyPressed was upPressed downPressed : Bool) :
    (let onGround1 := decide (t1.y ≥ ground)
     let t2 : Vec3 := if onGround1 then ⟨t1.x, ground, t1.z⟩ else t1
     let vv1 := if onGround1 then 0 else vv
     let jumpNow := jumpKeyPressed && !was && onGround1
     let vv2 := if jumpNow then jumpSpeed else vv1
     let onGround2 := if jumpNow then false else onGround1
     let vv3 := if !onGround2 then vv2 + gravity * dt else vv2
     let t3 : Vec3 := ⟨t2.x, t2.y - vv3 * dt, t2.z⟩
     let t4 := if upPressed then t3.add (Vec3.smul dt (Vec3.smul ms ⟨0, -1, 0⟩)) else t3
     let t5 := if downPressed then t4.sub (Vec3.smul dt (Vec3.smul ms ⟨0, -1, 0⟩)) else t4
     t5.y =
       (if t1.y ≥ ground then ground else t1.y) -
         (if (jumpKeyPressed && !was) = true ∧ t1.y ≥ ground then jumpSpeed + gravity * dt
          else if t1.y ≥ ground then 0 else vv + gravity * dt) * dt -
         (if upPressed then dt * ms else 0) + (if downPressed then dt * ms else 0)) := by
  by_cases hg : t1.y ≥ ground
  · cases jumpKeyPressed <;> cases was <;> cases upPressed <;> cases downPressed <;>
      simp [hg, Vec3.add, Vec3.sub, Vec3.smul] <;> ring
  · cases jumpKeyPressed <;> cases was <;> cases upPressed <;> cases downPressed <;>
      simp [hg, Vec3.add, Vec3.sub, Vec3.smul] <;> ring

/-- The horizontal movement of `moveInPlaneXZ` leaves the y-component of the position
as it was. -/
theorem positionAfterDirectionKeys_y (L : Lib) (c : KeyboardMovementController)
    (window : GLFWwindow) (dt yaw : ℚ) (translation : Vec3) :
    (positionAfterDirectionKeys L c window dt yaw translation).y = translation.y := by
  unfold positionAfterDirectionKeys
  rw [moveDirOf_eq]
  split_ifs <;> simp [Vec3.add, Vec3.smul, normalize]

/-- The y-component of the position after `moveInPlaneXZ`, when the call does not
return on the exit key. -/
theorem moveInPlaneXZ_translation_y (L : Lib) (c : KeyboardMovementController)
    (jumpKeyWasPressed : Bool) (window : GLFWwindow) (dt : ℚ) (gameObject : LveGameObject)
    (hExit : glfwGetKey window c.keys.exitGame = false) :
    (c.moveInPlaneXZ L jumpKeyWasPressed window dt gameObject).gameObject.transform.translation.y =
      (if gameObject.transform.translation.y ≥ c.groundLevel then c.groundLevel
       else gameObject.transform.translation.y) -
        (if (glfwGetKey window c.keys.jump && !jumpKeyWasPressed) = true ∧
            gameObject.transform.translation.y ≥ c.groundLevel then c.jumpSpeed + c.gravity * dt
         else if gameObject.transform.translation.y ≥ c.groundLevel then 0
         else c.verticalVelocity + c.gravity * dt) * dt -
        (if glfwGetKey window c.keys.moveUp then dt * c.moveSpeed else 0) +
        (if glfwGetKey window c.keys.moveDown then dt * c.moveSpeed else 0) := by
  have hy := positionAfterDirectionKeys_y L c window dt
    (c.moveInPlaneXZ L jumpKeyWasPressed window dt gameObject).gameObject.transform.rotation.y
    gameObject.transform.translation
  have h : (c.moveInPlaneXZ L jumpKeyWasPressed window dt gameObject).gameObject.transform.translation.y =
      (if (positionAfterDirectionKeys L c window dt
            (c.moveInPlaneXZ L jumpKeyWasPressed window dt gameObject).gameObject.transform.rotation.y
            gameObject.transform.translation).y ≥ c.groundLevel then c.groundLevel
       else (positionAfterDirectionKeys L c window dt
            (c.moveInPlaneXZ L jumpKeyWasPressed window dt gameObject).gameObject.transform.rotation.y
            gameObject.transform.translation).y) -
        (if (glfwGetKey window c.keys.jump && !jumpKeyWasPressed) = true ∧
            (positionAfterDirectionKeys L c window dt
              (c.moveInPlaneXZ L jumpKeyWasPressed window dt gameObject).gameObject.transform.rotation.y
              gameObject.transform.translation).y ≥ c.groundLevel then c.jumpSpeed + c.gravity * dt
         else if (positionAfterDirectionKeys L c window dt
            (c.moveInPlaneXZ L jumpKeyWasPressed window dt gameObject).gameObject.transform.rotation.y
            gameObject.transform.translation).y ≥ c.groundLevel then 0
         else c.verticalVelocity + c.gravity * dt) * dt -
        (if glfwGetKey window c.keys.moveUp then dt * c.moveSpeed else 0) +
        (if glfwGetKey window c.keys.moveDown then dt * c.moveSpeed else 0) := by
    unfold KeyboardMovementController.moveInPlaneXZ
    rw [if_neg (by rw [hExit]; simp)]
    exact vertical_steps_y _ _ _ _ _ _ _ _ _ _ _
  rw [h, hy]

/-- C23 (amended): after every call of `moveInPlaneXZ` that does not return on the exit
key and in which the fly-down key is not pressed, the viewer's y is
min(y, groundLevel) - v · dt, less moveSpeed · dt if the fly-up key is pressed, where y
is the prior y and v the vertical velocity of this update: jumpSpeed + gravity · dt on
a jump from the ground, 0 at rest on the ground, the prior velocity + gravity · dt in
the air.  The clamp is applied before the vertical movement.  So y does not exceed
groundLevel whenever v · dt ≥ 0 and moveSpeed · dt ≥ 0; a viewer at rest on the ground
with no fly key pressed stays at exactly groundLevel. -/
theorem C23_viewer_ground_clamp_amended (L : Lib) (c : KeyboardMovementController)
    (jumpKeyWasPressed : Bool) (window : GLFWwindow) (dt : ℚ) (gameObject : LveGameObject)
    (hExit : glfwGetKey window c.keys.exitGame = false)
    (hDown : glfwGetKey window c.keys.moveDown = false) :
    (c.moveInPlaneXZ L jumpKeyWasPressed window dt gameObject).gameObject.transform.translation.y =
        min gameObject.transform.translation.y c.groundLevel -
          (if (glfwGetKey window c.keys.jump && !jumpKeyWasPressed) = true ∧
              gameObject.transform.translation.y ≥ c.groundLevel then c.jumpSpeed + c.gravity * dt
           else if gameObject.transform.translation.y ≥ c.groundLevel then 0
           else c.verticalVelocity + c.gravity * dt) * dt -
          (if glfwGetKey window c.keys.moveUp then dt * c.moveSpeed else 0) ∧
      (0 ≤ (if (glfwGetKey window c.keys.jump && !jumpKeyWasPressed) = true ∧
              gameObject.transform.translation.y ≥ c.groundLevel then c.jumpSpeed + c.gravity * dt
           else if gameObject.transform.translation.y ≥ c.groundLevel then 0
           else c.verticalVelocity + c.gravity * dt) * dt →
        0 ≤ dt * c.moveSpeed →
        (c.moveInPlaneXZ L jumpKeyWasPressed window dt gameObject).gameObject.transform.translation.y
          ≤ c.groundLevel) ∧
      (gameObject.transform.translation.y ≥ c.groundLevel →
        (glfwGetKey window c.keys.jump && !jumpKeyWasPressed) = false →
        glfwGetKey window c.keys.moveUp = false →
        (c.moveInPlaneXZ L jumpKeyWasPressed window dt gameObject).gameObject.transform.translation.y
          = c.groundLevel) := by
  have hy := moveInPlaneXZ_translation_y L c jumpKeyWasPressed window dt gameObject hExit
  rw [hDown] at hy
  have hmin : (if gameObject.transform.translation.y ≥ c.groundLevel then c.groundLevel
       else gameObject.transform.translation.y) =
      min gameObject.transform.translation.y c.groundLevel := by
    split_ifs with h
    · exact (min_eq_right h).symm
    · exact (min_eq_left (le_of_lt (not_le.mp h))).symm
  rw [hmin] at hy
  simp only [Bool.false_eq_true, if_false, add_zero] at hy
  refine ⟨hy, ?_, ?_⟩
  · intro hv hms
    rw [hy]
    have h1 := min_le_right gameObject.transform.translation.y c.groundLevel
    have h2 : 0 ≤ (if glfwGetKey window c.keys.moveUp = true then dt * c.moveSpeed else 0) := by
      split_ifs
      · exact hms
      · exact le_refl _
    linarith
  · intro hg hj hu
    rw [hy, hj, hu, min_eq_right hg]
    simp [hg]

/-- C23 (amended) on the default controller and a viewer resting below the ground
level, with nothing pressed: the call leaves it at exactly groundLevel. -/
theorem C23_viewer_ground_clamp_amended_witness :
    (KeyboardMovementController.moveInPlaneXZ sampleLib {} false (windowWith [] []) (1 / 60)
        { id := 0, transform := { translation := ⟨0, 1, 0⟩ } }).gameObject.transform.translation.y
      = ({} : KeyboardMovementController).groundLevel :=
  (C23_viewer_ground_clamp_amended sampleLib {} false (windowWith [] []) (1 / 60)
    { id := 0, transform := { translation := ⟨0, 1, 0⟩ } } (by decide) (by decide)).2.2
    (by norm_num) (by decide) (by decide)

/-- Counterexample to C23: the game is started and three frames of 1/4 s pass with no
key pressed.  Each of them is handled in PLAYING and calls `moveInPlaneXZ`, which does
not return on the exit key; the fly-down key is not pressed.  The viewer, spawned at
y = -2.5, falls and ends the third update at y = 1.175, beyond groundLevel = 0. -/
theorem C23_viewer_ground_clamp_counterexample :
    (SimpleGame.run sampleLib playingGame [slowFrame, slowFrame, slowFrame]).2.map
        (fun log => log.calledMoveInPlaneXZ) = [true, true, true] ∧
      glfwGetKey slowFrame.window playingGame.cameraController.keys.exitGame = false ∧
      glfwGetKey slowFrame.window playingGame.cameraController.keys.moveDown = false ∧
      (SimpleGame.run sampleLib playingGame
        [slowFrame, slowFrame, slowFrame]).1.viewerObject.transform.translation.y = 47 / 40 ∧
      (SimpleGame.run sampleLib playingGame
        [slowFrame, slowFrame, slowFrame]).1.cameraController.groundLevel = 0 ∧
      (SimpleGame.run sampleLib playingGame
        [slowFrame, slowFrame, slowFrame]).1.cameraController.groundLevel <
        (SimpleGame.run sampleLib playingGame
          [slowFrame, slowFrame, slowFrame]).1.viewerObject.transform.translation.y := by
  refine ⟨by decide, by decide, by decide, by with_unfolding_all decide,
    by with_unfolding_all decide, by with_unfolding_all decide⟩

/-- An entry of a table after `emplace` is an entry of the table before or the
inserted one. -/
theorem emplace_mem (L : Lib) (m : Map) (key : Nat) (object : LveGameObject) :
    ∀ kv, kv ∈ Map.emplace L m key object → kv ∈ m ∨ kv = (key, object) := by
  intro kv hkv
  by_cases hkey : key ∈ m.map Prod.fst
  · have he : Map.emplace L m key object = m := by
      unfold Map.emplace
      rw [if_pos hkey]
    rw [he] at hkv
    exact Or.inl hkv
  · have hp := emplace_perm L m key object hkey
    rw [hp.mem_iff] at hkv
    simpa using hkv

/-- What `addGameObject` does to the tables and the id counter. -/
theorem addGameObject_tables (L : Lib) (g : SimpleGame) (model : Option Nat)
    (translation scale rotation color : Vec3) :
    (∀ kv, kv ∈ (g.addGameObject L model translation scale rotation color).gameObjects →
        kv ∈ g.gameObjects ∨ kv.1 = kv.2.id) ∧
      (g.addGameObject L model translation scale rotation color).menuObjects = g.menuObjects ∧
      (g.addGameObject L model translation scale rotation color).projectiles = g.projectiles ∧
      (g.addGameObject L model translation scale rotation color).statics.currentId =
        (g.statics.currentId + 1) % 2 ^ 32 := by
  unfold SimpleGame.addGameObject
  dsimp only [LveGameObject.createGameObject]
  refine ⟨?_, rfl, rfl, rfl⟩
  intro kv hkv
  rcases emplace_mem L _ _ _ kv hkv with h | h
  · exact Or.inl h
  · right
    rw [h]

/-- What `addMenuObject` does to the tables and the id counter. -/
theorem addMenuObject_tables (L : Lib) (g : SimpleGame) (key : Nat)
    (translation scale color : Vec3) :
    (∀ kv, kv ∈ (g.addMenuObject L key translation scale color).menuObjects →
        kv ∈ g.menuObjects ∨ (kv.1, kv.2.id) = (key, g.statics.currentId)) ∧
      (g.addMenuObject L key translation scale color).gameObjects = g.gameObjects ∧
      (g.addMenuObject L key translation scale color).projectiles = g.projectiles ∧
      (g.addMenuObject L key translation scale color).statics.currentId =
        (g.statics.currentId + 1) % 2 ^ 32 := by
  unfold SimpleGame.addMenuObject
  dsimp only [LveGameObject.createGameObject]
  refine ⟨?_, rfl, rfl, rfl⟩
  intro kv hkv
  rcases emplace_mem L _ _ _ kv hkv with h | h
  · exact Or.inl h
  · right
    rw [h]

/-- One step of `createMenuObjects`: the id counter advances and the new entry pairs
the literal key with the id handed out. -/
theorem addMenuObject_step (L : Lib) (g : SimpleGame) (key : Nat)
    (translation scale color : Vec3) (S : List (Nat × Nat)) (n : Nat)
    (hcur : g.statics.currentId = n) (hn : n + 1 < 2 ^ 32)
    (hS : ∀ kv ∈ g.menuObjects, (kv.1, kv.2.id) ∈ S) :
    (g.addMenuObject L key translation scale color).statics.currentId = n + 1 ∧
      ∀ kv ∈ (g.addMenuObject L key translation scale color).menuObjects,
        (kv.1, kv.2.id) ∈ S ++ [(key, n)] := by
  obtain ⟨h1, _, _, h4⟩ := addMenuObject_tables L g key translation scale color
  refine ⟨by rw [h4, hcur, Nat.mod_eq_of_lt hn], ?_⟩
  intro kv hkv
  rcases h1 kv hkv with h | h
  · exact List.mem_append_left _ (hS kv h)
  · rw [h, hcur]
    simp

/-- The menu table that `createMenuObjects` builds from an empty one when the id
counter is at 12: every entry pairs a literal key with the id handed out for it. -/
theorem createMenuObjects_menu (L : Lib) (g : SimpleGame) (hempty : g.menuObjects = [])
    (hcur : g.statics.currentId = 12) :
    ∀ kv ∈ (g.createMenuObjects L).menuObjects, (kv.1, kv.2.id) ∈ menuKeysAndIds := by
  unfold SimpleGame.createMenuObjects
  dsimp only
  have h1 := addMenuObject_step L g 0 ⟨0, 1 / 2, 0⟩ ⟨2, 3 / 10, 1 / 2⟩ ⟨1 / 5, 4 / 5, 1 / 5⟩
    [] 12 hcur (by norm_num) (by rw [hempty]; simp)
  have h2 := addMenuObject_step L _ 1 ⟨0, 0, 0⟩ ⟨2, 3 / 10, 1 / 2⟩ ⟨1 / 5, 1 / 5, 4 / 5⟩
    _ 13 h1.1 (by norm_num) h1.2
  have h3 := addMenuObject_step L _ 2 ⟨0, -1 / 2, 0⟩ ⟨2, 3 / 10, 1 / 2⟩ ⟨4 / 5, 1 / 5, 1 / 5⟩
    _ 14 h2.1 (by norm_num) h2.2
  have h4 := addMenuObject_step L _ 10 ⟨-2, 3 / 2, 0⟩ ⟨3 / 10, 3 / 10, 3 / 10⟩
    ⟨9 / 10, 9 / 10, 1 / 10⟩ _ 15 h3.1 (by norm_num) h3.2
  have h5 := addMenuObject_step L _ 11 ⟨-1, 3 / 2, 0⟩ ⟨3 / 10, 3 / 10, 3 / 10⟩
    ⟨9 / 10, 9 / 10, 1 / 10⟩ _ 16 h4.1 (by norm_num) h4.2
  have h6 := addMenuObject_step L _ 12 ⟨0, 3 / 2, 0⟩ ⟨3 / 10, 3 / 10, 3 / 10⟩
    ⟨9 / 10, 9 / 10, 1 / 10⟩ _ 17 h5.1 (by norm_num) h5.2
  have h7 := addMenuObject_step L _ 13 ⟨1, 3 / 2, 0⟩ ⟨3 / 10, 3 / 10, 3 / 10⟩
    ⟨9 / 10, 9 / 10, 1 / 10⟩ _ 18 h6.1 (by norm_num) h6.2
  have h8 := addMenuObject_step L _ 14 ⟨2, 3 / 2, 0⟩ ⟨3 / 10, 3 / 10, 3 / 10⟩
    ⟨9 / 10, 9 / 10, 1 / 10⟩ _ 19 h7.1 (by norm_num) h7.2
  exact h8.2

/-- The calls of `createMenuObjects` leave the main table and the projectile table
alone. -/
theorem createMenuObjects_tables (L : Lib) (g : SimpleGame) :
    (g.createMenuObjects L).gameObjects = g.gameObjects ∧
      (g.createMenuObjects L).projectiles = g.projectiles := by
  unfold SimpleGame.createMenuObjects
  dsimp only
  simp only [(addMenuObject_tables L _ _ _ _ _).2.1, (addMenuObject_tables L _ _ _ _ _).2.2.1,
    and_self]

/-- In the main table `addGameObject` stores the new entity under its id. -/
theorem addGameObject_keyed (L : Lib) (g : SimpleGame) (model : Option Nat)
    (translation scale rotation color : Vec3) (h : g.gameObjects.keyedById) :
    (g.addGameObject L model translation scale rotation color).gameObjects.keyedById := by
  intro kv hkv
  rcases (addGameObject_tables L g model translation scale rotation color).1 kv hkv with h1 | h1
  · exact h kv h1
  · exact h1

/-- The tables of the game as constructed: the main table is keyed by the entities'
ids, the projectile table is empty, and every entry of the menu table pairs a literal
key of `createMenuObjects` with the id handed out for it. -/
theorem new_tables (L : Lib) :
    (SimpleGame.new L).gameObjects.keyedById ∧ (SimpleGame.new L).projectiles = [] ∧
      ∀ kv ∈ (SimpleGame.new L).menuObjects, (kv.1, kv.2.id) ∈ menuKeysAndIds := by
  unfold SimpleGame.new
  dsimp only
  unfold SimpleGame.loadGameObjects
  dsimp only
  refine ⟨?_, ?_, ?_⟩
  · rw [(createMenuObjects_tables L _).1]
    repeat apply addGameObject_keyed
    intro kv hkv
    simp at hkv
  · rw [(createMenuObjects_tables L _).2]
    simp only [(addGameObject_tables L _ _ _ _ _ _).2.2.1]
  · exact createMenuObjects_menu L _ rfl rfl

/-- The loop body of `updateMenuVisuals` keeps the key and the id of an entry. -/
theorem updateMenuVisual_key_id (L : Lib) (selected : Int) (time : ℚ)
    (kv : Nat × LveGameObject) :
    (updateMenuVisual L selected time kv).1 = kv.1 ∧
      (updateMenuVisual L selected time kv).2.id = kv.2.id := by
  unfold updateMenuVisual
  dsimp only
  split_ifs <;> exact ⟨rfl, rfl⟩

/-- An entry of the projectile table after `handleShooting` is an entry of the table
before or is stored under its id; the other tables are left alone. -/
theorem handleShooting_tables (L : Lib) (g : SimpleGame) (window : GLFWwindow) :
    (∀ kv, kv ∈ (g.handleShooting L window).1.projectiles →
        kv ∈ g.projectiles ∨ kv.1 = kv.2.id) ∧
      (g.handleShooting L window).1.gameObjects = g.gameObjects ∧
      (g.handleShooting L window).1.menuObjects = g.menuObjects := by
  unfold SimpleGame.handleShooting
  dsimp only
  by_cases h : (g.cameraController.shouldShoot window).1 = true
  · rw [if_pos h]
    dsimp only [LveGameObject.createGameObject]
    refine ⟨?_, rfl, rfl⟩
    intro kv hkv
    rcases emplace_mem L _ _ _ kv hkv with h1 | h1
    · exact Or.inl h1
    · right
      rw [h1]
  · rw [if_neg h]
    exact ⟨fun kv hkv => Or.inl hkv, rfl, rfl⟩

/-- The call `updateProjectiles` keeps the key and the id of every entry of the
projectile table and leaves the other tables alone. -/
theorem updateProjectiles_tables (g : SimpleGame) (dt : ℚ) :
    (g.projectiles.keyedById → (g.updateProjectiles dt).projectiles.keyedById) ∧
      (g.updateProjectiles dt).gameObjects = g.gameObjects ∧
      (g.updateProjectiles dt).menuObjects = g.menuObjects := by
  refine ⟨?_, rfl, rfl⟩
  intro h kv hkv
  unfold SimpleGame.updateProjectiles at hkv
  simp only [List.mem_map] at hkv
  obtain ⟨kv0, hkv0, rfl⟩ := hkv
  exact h kv0 hkv0

/-- The handler `handleMenuInput` leaves the three tables alone. -/
theorem handleMenuInput_tables (g : SimpleGame) (window : GLFWwindow) :
    (g.handleMenuInput window).1.gameObjects = g.gameObjects ∧
      (g.handleMenuInput window).1.projectiles = g.projectiles ∧
      (g.handleMenuInput window).1.menuObjects = g.menuObjects := by
  unfold SimpleGame.handleMenuInput
  dsimp only
  split_ifs <;> exact ⟨rfl, rfl, rfl⟩

/-- What the handler `handleGameInput` does to the three tables. -/
theorem handleGameInput_tables (L : Lib) (g : SimpleGame) (window : GLFWwindow)
    (frameTime : ℚ) :
    (g.handleGameInput L window frameTime).1.gameObjects = g.gameObjects ∧
      (g.projectiles.keyedById →
        (g.handleGameInput L window frameTime).1.projectiles.keyedById) ∧
      (g.handleGameInput L window frameTime).1.menuObjects = g.menuObjects := by
  by_cases h : (if gameEscapeKeyDownDetected g window then GameState.MENU
       else if pauseKeyDownDetected g window then GameState.PAUSED else g.gameState)
        = GameState.PLAYING
  · rw [handleGameInput_of_stay L g window frameTime h]
    refine ⟨?_, ?_, ?_⟩
    · show (SimpleGame.updateProjectiles _ frameTime).gameObjects = _
      rw [(updateProjectiles_tables _ frameTime).2.1, (handleShooting_tables L _ window).2.1]
      rfl
    · intro hk
      show (SimpleGame.updateProjectiles _ frameTime).projectiles.keyedById
      apply (updateProjectiles_tables _ frameTime).1
      intro kv hkv
      rcases (handleShooting_tables L _ window).1 kv hkv with h1 | h1
      · exact hk kv h1
      · exact h1
    · show (SimpleGame.updateProjectiles _ frameTime).menuObjects = _
      rw [(updateProjectiles_tables _ frameTime).2.2, (handleShooting_tables L _ window).2.2]
      rfl
  · rw [handleGameInput_of_leave L g window frameTime h]
    exact ⟨rfl, fun hk => hk, rfl⟩

/-- Every frame of the loop keeps: the main table and the projectile table are keyed
by the entities' ids, and the entries of the menu table pair the keys of the given list
with the ids of the list. -/
theorem runFrame_tables (L : Lib) (S : List (Nat × Nat)) (g : SimpleGame) (f : Frame)
    (h : g.gameObjects.keyedById ∧ g.projectiles.keyedById ∧
      ∀ kv ∈ g.menuObjects, (kv.1, kv.2.id) ∈ S) :
    (g.runFrame L f).1.gameObjects.keyedById ∧ (g.runFrame L f).1.projectiles.keyedById ∧
      ∀ kv ∈ (g.runFrame L f).1.menuObjects, (kv.1, kv.2.id) ∈ S := by
  obtain ⟨hG, hP, hM⟩ := h
  obtain ⟨m1, m2, m3⟩ := handleMenuInput_tables g f.window
  have hcases : g.gameState = GameState.MENU ∨ g.gameState = GameState.PAUSED ∨
      g.gameState = GameState.PLAYING := by
    cases g.gameState <;> simp
  rcases hcases with hstate | hstate | hstate
  · have hr : (g.runFrame L f).1 = (g.handleMenuInput f.window).1.updateMenuVisuals L f.time := by
      unfold SimpleGame.runFrame
      rw [hstate]
    rw [hr]
    refine ⟨?_, ?_, ?_⟩
    · show (g.handleMenuInput f.window).1.gameObjects.keyedById
      rw [m1]
      exact hG
    · show (g.handleMenuInput f.window).1.projectiles.keyedById
      rw [m2]
      exact hP
    · intro kv hkv
      unfold SimpleGame.updateMenuVisuals at hkv
      simp only [List.mem_map] at hkv
      obtain ⟨kv0, hkv0, rfl⟩ := hkv
      rw [m3] at hkv0
      obtain ⟨h1, h2⟩ := updateMenuVisual_key_id L (g.handleMenuInput f.window).1.selectedMenuOption
        f.time kv0
      rw [h1, h2]
      exact hM kv0 hkv0
  · have hr : g.runFrame L f = g.handleMenuInput f.window := by
      unfold SimpleGame.runFrame
      rw [hstate]
    rw [hr, m1, m2, m3]
    exact ⟨hG, hP, hM⟩
  · have hr : g.runFrame L f = g.handleGameInput L f.window (min f.elapsed (1 / 4)) := by
      unfold SimpleGame.runFrame
      rw [hstate]
    obtain ⟨g1, g2, g3⟩ := handleGameInput_tables L g f.window (min f.elapsed (1 / 4))
    rw [hr, g1, g3]
    exact ⟨hG, g2 hP, hM⟩

/-- C24 (amended): in every reachable state of the game loop, every entry of the main
table `gameObjects` and of the table `projectiles` is stored under the key equal to
the stored entity's own id.  The entries of `menuObjects` are stored under the literal
keys 0, 1, 2, 10, 11, 12, 13, 14 of `createMenuObjects`, while the entities stored
there have the ids 12 to 19 in this order: none of them is stored under its id. -/
theorem C24_table_keys_amended (L : Lib) (g : SimpleGame) (hg : SimpleGame.Reachable L g) :
    g.gameObjects.keyedById ∧ g.projectiles.keyedById ∧
      (∀ kv ∈ g.menuObjects, (kv.1, kv.2.id) ∈ menuKeysAndIds) ∧
      (∀ kv ∈ g.menuObjects, kv.1 ≠ kv.2.id) := by
  obtain ⟨frames, rfl⟩ := hg
  have hnew : (SimpleGame.new L).gameObjects.keyedById ∧
      (SimpleGame.new L).projectiles.keyedById ∧
      ∀ kv ∈ (SimpleGame.new L).menuObjects, (kv.1, kv.2.id) ∈ menuKeysAndIds := by
    obtain ⟨h1, h2, h3⟩ := new_tables L
    refine ⟨h1, ?_, h3⟩
    rw [h2]
    intro kv hkv
    simp at hkv
  obtain ⟨h1, h2, h3⟩ := run_invariant L
    (fun g => g.gameObjects.keyedById ∧ g.projectiles.keyedById ∧
      ∀ kv ∈ g.menuObjects, (kv.1, kv.2.id) ∈ menuKeysAndIds)
    (runFrame_tables L menuKeysAndIds) frames (SimpleGame.new L) hnew
  refine ⟨h1, h2, h3, ?_⟩
  intro kv hkv heq
  have hmem := h3 kv hkv
  rw [heq] at hmem
  simp only [menuKeysAndIds, List.mem_cons, Prod.mk.injEq, List.mem_singleton,
    List.not_mem_nil, or_false] at hmem
  omega

/-- C24 (amended) at the game after its first shot: the projectile is stored under its
id, 20. -/
theorem C24_table_keys_amended_witness :
    (playingGame.runFrame sampleLib (frameWith [] [MouseButton.LEFT])).1.projectiles.keyedById ∧
      (playingGame.runFrame sampleLib (frameWith [] [MouseButton.LEFT])).1.projectiles.map
        (fun kv => (kv.1, kv.2.id)) = [(20, 20)] :=
  ⟨(C24_table_keys_amended sampleLib
      (playingGame.runFrame sampleLib (frameWith [] [MouseButton.LEFT])).1
      ⟨[frameWith [Key.ENTER] [], frameWith [] [MouseButton.LEFT]], rfl⟩).2.1, by decide⟩

/-- Counterexample to C24: in the game as constructed the menu table holds, under the
keys 0, 1, 2, 10, 11, 12, 13, 14, the entities with the ids 12 to 19; the entry under
key 0 holds the entity with id 12, so the menu table is not keyed by the entities'
ids. -/
theorem C24_table_keys_counterexample :
    (SimpleGame.new sampleLib).menuObjects.map (fun kv => (kv.1, kv.2.id)) = menuKeysAndIds ∧
      ¬ (SimpleGame.new sampleLib).menuObjects.keyedById := by
  have h : (SimpleGame.new sampleLib).menuObjects.map (fun kv => (kv.1, kv.2.id))
      = menuKeysAndIds := by decide
  refine ⟨h, ?_⟩
  intro hk
  have hmem : (0, 12) ∈ (SimpleGame.new sampleLib).menuObjects.map (fun kv => (kv.1, kv.2.id)) := by
    rw [h]
    decide
  obtain ⟨kv, hkv, heq⟩ := List.mem_map.mp hmem
  have h1 := hk kv hkv
  simp only [Prod.mk.injEq] at heq
  omega

/-- What a returning call of `recreateSwapChain` leaves: the new swap chain, and the
command buffers reallocated to its image count exactly when there was a swap chain and
the count differs from their number. -/
theorem recreateSwapChain_returned (r : RenderState) (env : RecreateInput) (r' : RenderState)
    (h : r.recreateSwapChain env = Outcome.returned r') :
    (∃ chain, r'.lveSwapChain = some chain ∧ chain.imageCount = env.imageCount) ∧
      r'.commandBuffers =
        (if r.lveSwapChain.isSome && decide (env.imageCount ≠ r.commandBuffers) then
          env.imageCount
        else r.commandBuffers) ∧
      ((r.lveSwapChain.isSome && decide (env.imageCount ≠ r.commandBuffers)) = true →
        env.allocateResult = VK_SUCCESS) := by
  unfold RenderState.recreateSwapChain at h
  split at h
  · simp at h
  · dsimp only at h
    cases hb : (r.lveSwapChain.isSome && decide (env.imageCount ≠ r.commandBuffers))
    · simp only [hb, Bool.false_and, Bool.false_eq_true, if_false] at h
      split_ifs at h
      injection h with h
      subst h
      exact ⟨⟨_, rfl, rfl⟩, rfl, fun hf => absurd hf (by simp)⟩
    · simp only [hb, Bool.true_and, if_true] at h
      split_ifs at h with h1 h2 h3
      injection h with h
      subst h
      refine ⟨⟨_, rfl, rfl⟩, rfl, fun _ => ?_⟩
      simpa using h2

/-- A returning call of `recreateSwapChain` on drawing members that have a swap chain
leaves as many command buffers as the new swap chain has images. -/
theorem recreateSwapChain_buffersMatch (r : RenderState) (env : RecreateInput)
    (r' : RenderState) (hsome : r.lveSwapChain.isSome = true)
    (h : r.recreateSwapChain env = Outcome.returned r') :
    r'.buffersMatch ∧ r'.commandBuffers = env.imageCount := by
  obtain ⟨⟨chain, hc, hn⟩, hb, _⟩ := recreateSwapChain_returned r env r' h
  have hcount : r'.commandBuffers = env.imageCount := by
    rw [hb, hsome]
    by_cases hne : env.imageCount = r.commandBuffers
    · simp [hne]
    · simp [hne]
  exact ⟨⟨chain, hc, by rw [hcount, hn]⟩, hcount⟩

/-- The drawing members that the constructor leaves have as many command buffers as
the swap chain has images. -/
theorem new_buffersMatch (env : RecreateInput) (allocateResult : VkResult) (r0 : RenderState)
    (h : RenderState.new env allocateResult = some (Outcome.returned r0)) :
    r0.buffersMatch := by
  unfold RenderState.new at h
  split at h
  · rename_i r1 hr1
    obtain ⟨⟨chain, hc, _⟩, _, _⟩ := recreateSwapChain_returned _ env r1 hr1
    unfold RenderState.createCommandBuffers at h
    rw [hc] at h
    simp only [Option.map_some', Option.some.injEq] at h
    split_ifs at h
    injection h with h
    subst h
    exact ⟨chain, rfl, rfl⟩
  · simp at h
  · simp at h

/-- A returning `drawFrame` call keeps: the number of command buffers is the image
count of the swap chain. -/
theorem drawFrame_buffersMatch (g : SimpleGame) (r : RenderState) (inp : DrawInput)
    (r' : RenderState) (hr : r.buffersMatch) (h : (g.drawFrame r inp).1 = Outcome.returned r') :
    r'.buffersMatch := by
  obtain ⟨chain, hc, hn⟩ := hr
  rw [drawFrame_outcome] at h
  split_ifs at h
  · exact (recreateSwapChain_buffersMatch r inp.recreate r' (by rw [hc]; rfl) h).1
  · exact (recreateSwapChain_buffersMatch _ inp.recreate r' (by show r.lveSwapChain.isSome = true; rw [hc]; rfl) h).1
  · injection h with h
    subst h
    exact ⟨chain, hc, hn⟩

/-- The `drawFrame` calls of successive iterations keep: the number of command buffers
is the image count of the swap chain. -/
theorem drawFrames_buffersMatch (frames : List RenderFrame) :
    ∀ r r' : RenderState, r.buffersMatch → (drawFrames r frames).1 = Outcome.returned r' →
      r'.buffersMatch := by
  induction frames with
  | nil =>
    intro r r' hr h
    rw [drawFrames] at h
    injection h with h
    subst h
    exact hr
  | cons f rest ih =>
    intro r r' hr h
    rw [drawFrames] at h
    cases hd : (f.game.drawFrame { r with lveWindow := r.lveWindow.deliver f.polled } f.input).1 with
    | returned r1 =>
      rw [hd] at h
      have h1 : r1.buffersMatch :=
        drawFrame_buffersMatch f.game { r with lveWindow := r.lveWindow.deliver f.polled }
          f.input r1 hr hd
      exact ih r1 r' h1 h
    | raised failure =>
      rw [hd] at h
      simp at h
    | blocked =>
      rw [hd] at h
      simp at h

/-- C25: after the constructor and after every `drawFrame` call of the loop, hence
after every call of `recreateSwapChain` made there, the number of command buffers
equals the image count of the swap chain, so that `commandBuffers[imageIndex]` is in
bounds for every imageIndex below the image count.  A call of `recreateSwapChain` on
such drawing members that returns leaves as many command buffers as the new swap chain
has images; it frees and reallocates them exactly when the new image count differs
from their number: with equal counts the result of `vkAllocateCommandBuffers` plays no
part, with different counts the call returns only if the allocation succeeded. -/
theorem C25_command_buffers_match (r : RenderState) (hr : r.Reachable) :
    r.buffersMatch ∧
      (∀ chain, r.lveSwapChain = some chain →
        ∀ imageIndex, imageIndex < chain.imageCount → imageIndex < r.commandBuffers) ∧
      (∀ (env : RecreateInput) (r' : RenderState),
        r.recreateSwapChain env = Outcome.returned r' →
        r'.buffersMatch ∧ r'.commandBuffers = env.imageCount ∧
          ∀ chain, r'.lveSwapChain = some chain →
            ∀ imageIndex, imageIndex < chain.imageCount → imageIndex < r'.commandBuffers) ∧
      (∀ env : RecreateInput, env.imageCount = r.commandBuffers →
        ∀ x : VkResult,
          r.recreateSwapChain { env with allocateResult := x } = r.recreateSwapChain env) ∧
      (∀ (env : RecreateInput) (r' : RenderState), env.imageCount ≠ r.commandBuffers →
        r.recreateSwapChain env = Outcome.returned r' → env.allocateResult = VK_SUCCESS) := by
  obtain ⟨env0, alloc0, r0, frames, hnew, hframes⟩ := hr
  have hm : r.buffersMatch :=
    drawFrames_buffersMatch frames r0 r (new_buffersMatch env0 alloc0 r0 hnew) hframes
  have hbound : ∀ q : RenderState, q.buffersMatch → ∀ chain, q.lveSwapChain = some chain →
      ∀ imageIndex, imageIndex < chain.imageCount → imageIndex < q.commandBuffers := by
    intro q hq chain hc i hi
    obtain ⟨chain0, hc0, hn0⟩ := hq
    rw [hc0] at hc
    injection hc with hc
    rw [hn0, hc]
    exact hi
  obtain ⟨chain, hc, hn⟩ := hm
  have hsome : r.lveSwapChain.isSome = true := by rw [hc]; rfl
  refine ⟨⟨chain, hc, hn⟩, hbound r ⟨chain, hc, hn⟩, ?_, ?_, ?_⟩
  · intro env r' h
    obtain ⟨h1, h2⟩ := recreateSwapChain_buffersMatch r env r' hsome h
    exact ⟨h1, h2, hbound r' h1⟩
  · intro env heq x
    unfold RenderState.recreateSwapChain
    simp [heq]
  · intro env r' hne h
    obtain ⟨_, _, h3⟩ := recreateSwapChain_returned r env r' h
    apply h3
    rw [hsome]
    simp [hne]

/-- C25 for the drawing members that the constructor leaves with a swap chain of two
images: there are two command buffers. -/
theorem C25_command_buffers_match_witness :
    RenderState.new { imageCount := 2 } VK_SUCCESS = some (Outcome.returned sampleRender) ∧
      sampleRender.buffersMatch ∧ sampleRender.commandBuffers = 2 :=
  ⟨by decide,
    (C25_command_buffers_match sampleRender
      ⟨{ imageCount := 2 }, VK_SUCCESS, sampleRender, [], by decide, rfl⟩).1, rfl⟩

/-- A representable value is the result of the `int` computation. -/
theorem intResult_of_bounds (x : Int) (h0 : 0 ≤ x) (h1 : x < 2 ^ 31) : intResult x = some x := by
  unfold intResult INT_MIN INT_MAX
  rw [if_pos]
  constructor <;> omega

/-- The conversion to `uint32_t` of a natural number is at most the number. -/
theorem toUint32_le (m : Nat) : toUint32 (m : Int) ≤ m := by
  unfold toUint32
  have h : ((m : Int) % 2 ^ 32).toNat = m % 2 ^ 32 := by
    have : ((m : Int) % 2 ^ 32) = ((m % 2 ^ 32 : Nat) : Int) := by norm_cast
    rw [this, Int.toNat_ofNat]
  rw [h]
  exact Nat.mod_le _ _

/-- A loop whose every pass appends `k` good elements to the list appends `n * k` good
elements in `n` passes. -/
theorem forBelow_append {α : Type} (body : Int → List α → Option (List α)) (k : Nat)
    (good : α → Prop) (n : Nat)
    (hbody : ∀ i : Nat, i < n → ∀ acc : List α,
      ∃ new : List α, body i acc = some (acc ++ new) ∧ new.length = k ∧ ∀ a ∈ new, good a) :
    ∀ acc : List α, ∃ out : List α,
      forBelow body n acc = some (acc ++ out) ∧ out.length = n * k ∧ ∀ a ∈ out, good a := by
  induction n with
  | zero =>
    intro acc
    exact ⟨[], by simp [forBelow], by simp, by simp⟩
  | succ n ih =>
    intro acc
    obtain ⟨out, h1, h2, h3⟩ := ih (fun i hi => hbody i (Nat.lt_succ_of_lt hi)) acc
    obtain ⟨new, g1, g2, g3⟩ := hbody n (Nat.lt_succ_self n) (acc ++ out)
    refine ⟨out ++ new, ?_, ?_, ?_⟩
    · rw [forBelow, h1, Option.some_bind, g1, List.append_assoc]
    · rw [List.length_append, h2, g2, Nat.succ_mul]
    · intro a ha
      rcases List.mem_append.mp ha with h | h
      · exact h3 a h
      · exact g3 a h

/-- A loop `for (int i = 0; i <= bound; ++i)` whose every pass appends `k` good
elements to the list appends `(bound + 1) * k` good elements, when `bound + 1` is
representable. -/
theorem forUpTo_append {α : Type} (body : Int → List α → Option (List α)) (k : Nat)
    (good : α → Prop) (bound : Nat) (hbound : bound + 1 < 2 ^ 31)
    (hbody : ∀ i : Nat, i < bound + 1 → ∀ acc : List α,
      ∃ new : List α, body i acc = some (acc ++ new) ∧ new.length = k ∧ ∀ a ∈ new, good a) :
    ∀ acc : List α, ∃ out : List α,
      forUpTo (bound : Int) body acc = some (acc ++ out) ∧ out.length = (bound + 1) * k ∧
        ∀ a ∈ out, good a := by
  intro acc
  unfold forUpTo
  rw [if_neg (by omega), intResult_of_bounds _ (by omega) (by omega), Option.some_bind]
  have hn : ((bound : Int) + 1).toNat = bound + 1 := by omega
  rw [hn]
  exact forBelow_append body k good (bound + 1) hbody acc

/-- One pass of the inner index loop of `createSphere`, for a ring and a segment below
the counts, when the vertex count is at most `2^31`: six indices are pushed, each below
the vertex count. -/
theorem sphereQuad_of_bounds (R S j i : Nat) (hj : j < R) (hi : i < S)
    (hsize : (R + 1) * (S + 1) ≤ 2 ^ 31) :
    ∃ quad : List Nat, sphereQuad (S : Int) (j : Int) (i : Int) = some quad ∧
      quad.length = 6 ∧ ∀ a ∈ quad, a < (R + 1) * (S + 1) := by
  have hrow : (j + 1) * (S + 1) ≤ R * (S + 1) := Nat.mul_le_mul_right (S + 1) hj
  have hsizeZ : ((R : Int) + 1) * ((S : Int) + 1) ≤ 2 ^ 31 := by exact_mod_cast hsize
  have hrowZ : ((j : Int) + 1) * ((S : Int) + 1) ≤ (R : Int) * ((S : Int) + 1) := by
    exact_mod_cast hrow
  have hjS : (0 : Int) ≤ (j : Int) * ((S : Int) + 1) := by positivity
  have hi' : (i : Int) < S := by exact_mod_cast hi
  have hi0 : (0 : Int) ≤ i := by positivity
  have hS0 : (0 : Int) ≤ S := by positivity
  have c1 : ((j * (S + 1) + i : Nat) : Int) = (j : Int) * ((S : Int) + 1) + i := by push_cast; ring
  have c2 : ((j * (S + 1) + i + S + 1 : Nat) : Int) = (j : Int) * ((S : Int) + 1) + i + S + 1 := by
    push_cast; ring
  have c3 : ((j * (S + 1) + i + 1 : Nat) : Int) = (j : Int) * ((S : Int) + 1) + i + 1 := by
    push_cast; ring
  have c4 : ((j * (S + 1) + i + S + 1 + 1 : Nat) : Int) =
      (j : Int) * ((S : Int) + 1) + i + S + 1 + 1 := by
    push_cast; ring
  have hA : (j : Int) * ((S : Int) + 1) + S + 1 ≤ (R : Int) * ((S : Int) + 1) := by linarith
  have hB : (R : Int) * ((S : Int) + 1) + S + 1 ≤ 2147483648 := by linarith
  have hN : j * (S + 1) + i + S + 1 + 1 < (R + 1) * (S + 1) := by
    have : (j * (S + 1) + i + S + 1 + 1 : Int) < ((R : Int) + 1) * ((S : Int) + 1) := by linarith
    exact_mod_cast this
  have h31 : (2 : Int) ^ 31 = 2147483648 := by norm_num
  have e1 : intResult ((S : Int) + 1) = some ((S : Int) + 1) :=
    intResult_of_bounds _ (by linarith) (by rw [h31]; linarith)
  have e2 : intResult ((j : Int) * ((S : Int) + 1)) = some ((j : Int) * ((S : Int) + 1)) :=
    intResult_of_bounds _ hjS (by rw [h31]; linarith)
  have e3 : intResult ((j : Int) * ((S : Int) + 1) + i) = some ((j : Int) * ((S : Int) + 1) + i) :=
    intResult_of_bounds _ (by linarith) (by rw [h31]; linarith)
  have e4 : intResult ((j : Int) * ((S : Int) + 1) + i + S) =
      some ((j : Int) * ((S : Int) + 1) + i + S) :=
    intResult_of_bounds _ (by linarith) (by rw [h31]; linarith)
  have e5 : intResult ((j : Int) * ((S : Int) + 1) + i + S + 1) =
      some ((j : Int) * ((S : Int) + 1) + i + S + 1) :=
    intResult_of_bounds _ (by linarith) (by rw [h31]; linarith)
  have e6 : intResult ((j : Int) * ((S : Int) + 1) + i + 1) =
      some ((j : Int) * ((S : Int) + 1) + i + 1) :=
    intResult_of_bounds _ (by linarith) (by rw [h31]; linarith)
  have e7 : intResult ((j : Int) * ((S : Int) + 1) + i + S + 1 + 1) =
      some ((j : Int) * ((S : Int) + 1) + i + S + 1 + 1) :=
    intResult_of_bounds _ (by linarith) (by rw [h31]; linarith)
  unfold sphereQuad
  rw [e1, Option.some_bind, e2, Option.some_bind, e3, Option.some_bind, e4, Option.some_bind,
    e5, Option.some_bind, e6, Option.some_bind, e7, Option.some_bind]
  refine ⟨_, rfl, by simp, ?_⟩
  have b1 := toUint32_le (j * (S + 1) + i)
  have b2 := toUint32_le (j * (S + 1) + i + S + 1)
  have b3 := toUint32_le (j * (S + 1) + i + 1)
  have b4 := toUint32_le (j * (S + 1) + i + S + 1 + 1)
  rw [c1] at b1
  rw [c2] at b2
  rw [c3] at b3
  rw [c4] at b4
  have g1 := lt_of_le_of_lt b1 (by omega : j * (S + 1) + i < j * (S + 1) + i + S + 1 + 1)
  have g2 := lt_of_le_of_lt b2 (by omega : j * (S + 1) + i + S + 1 < j * (S + 1) + i + S + 1 + 1)
  have g3 := lt_of_le_of_lt b3 (by omega : j * (S + 1) + i + 1 < j * (S + 1) + i + S + 1 + 1)
  have g4 := lt_of_le_of_lt b4 (Nat.lt_succ_self _)
  intro a ha
  simp only [List.mem_cons, List.mem_singleton, List.not_mem_nil, or_false] at ha
  rcases ha with h | h | h | h | h | h <;> rw [h]
  · exact lt_trans g1 hN
  · exact lt_trans g2 hN
  · exact lt_trans g3 hN
  · exact lt_trans g3 hN
  · exact lt_trans g2 hN
  · exact lt_of_le_of_lt b4 hN

/-- The vertex loops of `createSphere` push `(R + 1) * (S + 1)` vertices when both loop
bounds can be stepped past without overflow. -/
theorem sphere_vertex_loops (L : Lib) (radius : ℚ) (R S : Nat) (hR : R + 1 < 2 ^ 31)
    (hS : S + 1 < 2 ^ 31) :
    ∃ vertices : List Vertex,
      forUpTo (R : Int)
        (fun ring vertices =>
          forUpTo (S : Int)
            (fun segment vertices =>
              some (vertices ++ [sphereVertex L radius (S : Int) (R : Int) ring segment]))
            vertices)
        [] = some vertices ∧ vertices.length = (R + 1) * (S + 1) := by
  obtain ⟨out, h1, h2, -⟩ :=
    forUpTo_append
      (fun ring vertices =>
        forUpTo (S : Int)
          (fun segment vertices =>
            some (vertices ++ [sphereVertex L radius (S : Int) (R : Int) ring segment]))
          vertices)
      (S + 1) (fun _ => True) R hR
      (fun j _ acc => by
        obtain ⟨new, g1, g2, g3⟩ :=
          forUpTo_append
            (fun segment vertices =>
              some (vertices ++ [sphereVertex L radius (S : Int) (R : Int) (j : Int) segment]))
            1 (fun _ => True) S hS
            (fun i _ acc => ⟨[sphereVertex L radius (S : Int) (R : Int) (j : Int) (i : Int)],
              rfl, rfl, fun _ _ => trivial⟩)
            acc
        exact ⟨new, g1, by rw [g2, Nat.mul_one], g3⟩)
      []
  exact ⟨out, by rw [h1, List.nil_append], h2⟩

/-- The index loops of `createSphere` push `R * (S * 6)` indices, each below the vertex
count, when the vertex count is at most `2^31`. -/
theorem sphere_index_loops (R S : Nat) (hsize : (R + 1) * (S + 1) ≤ 2 ^ 31) :
    ∃ indices : List Nat,
      forBelow
        (fun ring indices =>
          forBelow
            (fun segment indices =>
              (sphereQuad (S : Int) ring segment).map fun quad => indices ++ quad)
            S indices)
        R [] = some indices ∧ indices.length = R * (S * 6) ∧
        ∀ a ∈ indices, a < (R + 1) * (S + 1) := by
  obtain ⟨out, h1, h2, h3⟩ :=
    forBelow_append
      (fun ring indices =>
        forBelow
          (fun segment indices =>
            (sphereQuad (S : Int) ring segment).map fun quad => indices ++ quad)
          S indices)
      (S * 6) (fun a => a < (R + 1) * (S + 1)) R
      (fun j hj acc =>
        forBelow_append
          (fun segment indices =>
            (sphereQuad (S : Int) (j : Int) segment).map fun quad => indices ++ quad)
          6 (fun a => a < (R + 1) * (S + 1)) S
          (fun i hi acc => by
            obtain ⟨quad, hq, hl, hg⟩ := sphereQuad_of_bounds R S j i hj hi hsize
            exact ⟨quad, by show Option.map _ (sphereQuad (S : Int) (j : Int) (i : Int)) = _; rw [hq]; rfl, hl, hg⟩)
          acc)
      []
  exact ⟨out, by rw [h1, List.nil_append], h2, h3⟩

/-- Claim C30, amended: for every `segments ≥ 1` and `rings ≥ 1` whose vertex count
`(rings + 1) * (segments + 1)` is at most `2^31`, `createSphere` returns, with exactly
`(rings + 1) * (segments + 1)` vertices and `6 * rings * segments` indices, and every
index is strictly less than the vertex count. -/
theorem C30_sphere_counts_amended (L : Lib) (radius : ℚ) (segments rings : Int)
    (hs : 1 ≤ segments) (hr : 1 ≤ rings)
    (hsize : (rings + 1) * (segments + 1) ≤ 2 ^ 31) :
    ∃ vertices indices, createSphere L radius segments rings = some (vertices, indices) ∧
      (vertices.length : Int) = (rings + 1) * (segments + 1) ∧
      (indices.length : Int) = 6 * rings * segments ∧
      ∀ i ∈ indices, i < vertices.length := by
  obtain ⟨S, rfl⟩ : ∃ S : Nat, segments = S := ⟨segments.toNat, by omega⟩
  obtain ⟨R, rfl⟩ : ∃ R : Nat, rings = R := ⟨rings.toNat, by omega⟩
  have hS1 : 1 ≤ S := by exact_mod_cast hs
  have hR1 : 1 ≤ R := by exact_mod_cast hr
  have hsizeN : (R + 1) * (S + 1) ≤ 2 ^ 31 := by exact_mod_cast hsize
  have hS : S + 1 < 2 ^ 31 := by
    have := Nat.mul_le_mul_right (S + 1) (by omega : 2 ≤ R + 1)
    omega
  have hR : R + 1 < 2 ^ 31 := by
    have := Nat.mul_le_mul_left (R + 1) (by omega : 2 ≤ S + 1)
    omega
  obtain ⟨vertices, hv, hvl⟩ := sphere_vertex_loops L radius R S hR hS
  obtain ⟨indices, hi, hil, hib⟩ := sphere_index_loops R S hsizeN
  refine ⟨vertices, indices, ?_, ?_, ?_, ?_⟩
  · unfold createSphere
    rw [hv, Option.some_bind, Int.toNat_ofNat, Int.toNat_ofNat, hi, Option.some_bind]
  · rw [hvl]; push_cast; ring
  · rw [hil]; push_cast; ring
  · intro i hmem
    rw [hvl]
    exact hib i hmem

/-- Claim C30, amended, at a concrete call: two rings of three segments give twelve
vertices and thirty-six indices. -/
theorem C30_sphere_counts_amended_witness :
    ∃ vertices indices, createSphere sampleLib 1 3 2 = some (vertices, indices) ∧
      (vertices.length : Int) = (2 + 1) * (3 + 1) ∧
      (indices.length : Int) = 6 * 2 * 3 ∧
      ∀ i ∈ indices, i < vertices.length :=
  C30_sphere_counts_amended sampleLib 1 3 2 (by decide) (by decide) (by decide)

/-- Claim C30 as stated fails: with `segments = 2^31 - 1` and one ring, the inner vertex
loop `for (int segment = 0; segment <= segments; ++segment)` cannot end without
overflowing `segment`, and no mesh is produced. -/
theorem C30_sphere_counts_counterexample :
    (1 : Int) ≤ 2 ^ 31 - 1 ∧ (1 : Int) ≤ 1 ∧ createSphere sampleLib 1 (2 ^ 31 - 1) 1 = none := by
  refine ⟨by decide, by decide, ?_⟩
  rfl

/-! ### Rounding to `float` and `glm::mod` -/

/-- The conversion to `int` followed by `abs`, for a number whose truncation is in the
range of `int`: the integer part of the magnitude. -/
theorem intAbs_floatToInt (x : ℚ) (h1 : -2 ^ 31 < x) (h2 : x < 2 ^ 31) :
    intAbs (floatToInt x) = ⌊|x|⌋ := by
  by_cases h0 : 0 ≤ x
  · have hf0 : 0 ≤ ⌊x⌋ := Int.floor_nonneg.mpr h0
    have hf1 : ⌊x⌋ < 2 ^ 31 := Int.floor_lt.mpr (by push_cast; exact h2)
    have hconv : floatToInt x = ⌊x⌋ := by
      unfold floatToInt INT_MIN INT_MAX
      simp only [if_pos h0]
      rw [if_pos ⟨by omega, by omega⟩]
    rw [hconv]
    unfold intAbs INT_MIN
    rw [if_neg (by omega), abs_of_nonneg h0, abs_of_nonneg hf0]
  · have hneg : x < 0 := not_le.mp h0
    have hc0 : ⌈x⌉ ≤ 0 := Int.ceil_le.mpr (by push_cast; exact hneg.le)
    have hc1 : -2 ^ 31 < ⌈x⌉ := Int.lt_ceil.mpr (by push_cast; exact h1)
    have hconv : floatToInt x = ⌈x⌉ := by
      unfold floatToInt INT_MIN INT_MAX
      simp only [if_neg h0]
      rw [if_pos ⟨by omega, by omega⟩]
    rw [hconv]
    unfold intAbs INT_MIN
    rw [if_neg (by omega), abs_of_nonpos hc0, abs_of_neg hneg, Int.floor_neg]

/-- What a tick of `updateProjectiles` does to a projectile that, at its position of
this tick, lies in the box of at least one main-table entity with a mesh: with v the
velocity after gravity and the ground test, the stored velocity is
(v.x · 0.8, abs(int(v.y)) · bounceDamping, v.z · 0.8), where `int(v.y)` is v.y without
its fractional part, so that the y-component is floor(|v.y|) · bounceDamping for a
v.y in the range of `int`; `hitPlatform` is set; the position is the one the tick gives
without any entity; and the table splits at its first overlapping entity with a mesh,
the entities after which are without effect on the projectile. -/
theorem updateProjectile_of_hit (c : KeyboardMovementController) (gameObjects : Map)
    (dt : ℚ) (p : LveGameObject)
    (hhit : ∃ kv ∈ gameObjects, kv.2.model.isSome = true ∧
      withinBounds (updateProjectile c gameObjects dt p).projectile.transform.translation
        kv.2.transform.translation kv.2.transform.scale = true) :
    (updateProjectile c gameObjects dt p).projectile.transform.rotation =
        ⟨(updateProjectile c [] dt p).projectile.transform.rotation.x * (4 / 5),
          (intAbs (floatToInt (updateProjectile c [] dt p).projectile.transform.rotation.y) : ℚ)
            * c.bounceDamping,
          (updateProjectile c [] dt p).projectile.transform.rotation.z * (4 / 5)⟩ ∧
      (-2 ^ 31 < (updateProjectile c [] dt p).projectile.transform.rotation.y →
        (updateProjectile c [] dt p).projectile.transform.rotation.y < 2 ^ 31 →
        (updateProjectile c gameObjects dt p).projectile.transform.rotation.y =
          (⌊|(updateProjectile c [] dt p).projectile.transform.rotation.y|⌋ : ℚ)
            * c.bounceDamping) ∧
      (updateProjectile c gameObjects dt p).hitPlatform = true ∧
      (updateProjectile c gameObjects dt p).projectile.transform.translation =
        (updateProjectile c [] dt p).projectile.transform.translation ∧
      (∃ before kv after, gameObjects = before ++ kv :: after ∧
        (kv.2.model.isSome = true ∧
          withinBounds (updateProjectile c gameObjects dt p).projectile.transform.translation
            kv.2.transform.translation kv.2.transform.scale = true) ∧
        (∀ e ∈ before, ¬ (e.2.model.isSome = true ∧
          withinBounds (updateProjectile c gameObjects dt p).projectile.transform.translation
            e.2.transform.translation e.2.transform.scale = true)) ∧
        ∀ others : Map,
          (updateProjectile c (before ++ kv :: others) dt p).projectile =
            (updateProjectile c gameObjects dt p).projectile) := by
  obtain ⟨before, kv, after, hsplit, hkv, hnone⟩ :=
    exists_first_of_exists (fun kv => kv.2.model.isSome = true ∧
      withinBounds (updateProjectile c gameObjects dt p).projectile.transform.translation
        kv.2.transform.translation kv.2.transform.scale = true) gameObjects hhit
  have hpos := (updateProjectile_entities c gameObjects dt p).2
  rw [hpos] at hkv hnone
  have hloop : ∀ others : Map,
      collideWithObjects c (updateProjectile c [] dt p).projectile.transform.translation
        (before ++ kv :: others) (updateProjectile c [] dt p).projectile.transform.rotation =
      (⟨(updateProjectile c [] dt p).projectile.transform.rotation.x * (4 / 5),
        (intAbs (floatToInt (updateProjectile c [] dt p).projectile.transform.rotation.y) : ℚ)
          * c.bounceDamping,
        (updateProjectile c [] dt p).projectile.transform.rotation.z * (4 / 5)⟩, true) :=
    fun others => collideWithObjects_first_hit c _ kv others _ hkv.1 hkv.2 before hnone
  have hrot : (updateProjectile c gameObjects dt p).projectile.transform.rotation =
      ⟨(updateProjectile c [] dt p).projectile.transform.rotation.x * (4 / 5),
        (intAbs (floatToInt (updateProjectile c [] dt p).projectile.transform.rotation.y) : ℚ)
          * c.bounceDamping,
        (updateProjectile c [] dt p).projectile.transform.rotation.z * (4 / 5)⟩ := by
    rw [(updateProjectile_entities c gameObjects dt p).1, hsplit, hloop after]
  refine ⟨hrot, ?_, ?_, hpos, before, kv, after, hsplit, ?_, ?_, ?_⟩
  · intro h1 h2
    rw [hrot, intAbs_floatToInt _ h1 h2]
  · show (collideWithObjects c (updateProjectile c [] dt p).projectile.transform.translation
      gameObjects (updateProjectile c [] dt p).projectile.transform.rotation).2 = true
    rw [hsplit, hloop after]
  · rw [hpos]; exact hkv
  · rw [hpos]; exact hnone
  · intro others
    rw [updateProjectile_projectile c (before ++ kv :: others),
      updateProjectile_projectile c gameObjects, hloop others, hsplit, hloop after]

/-- C20, the code at a failing input: with the default controller and dt = 0.1, a
projectile at (2.9, -0.05, 1) with stored velocity (1, 4, 0) moves to (3, 0.2, 1),
inside the box of the first target cube, with velocity (1, 2.5, 0) after gravity; the
ground branch is not taken and the cube is hit.  The tick stores the vertical velocity
1.4, which is abs(int(2.5)) · 0.7 = 2 · 0.7, and not |2.5| · 0.7 = 1.75; the x and z
velocities are multiplied by 0.8 and the position is not changed by the collision. -/
theorem C20_entity_collision_truncates :
    (updateProjectile {} [] (1 / 10)
        (projectileAt ⟨29 / 10, -1 / 20, 1⟩ ⟨1, 4, 0⟩)).projectile.transform.rotation
        = ⟨1, 5 / 2, 0⟩ ∧
      (updateProjectile {} sampleTargets (1 / 10)
        (projectileAt ⟨29 / 10, -1 / 20, 1⟩ ⟨1, 4, 0⟩)).bounced = false ∧
      (updateProjectile {} sampleTargets (1 / 10)
        (projectileAt ⟨29 / 10, -1 / 20, 1⟩ ⟨1, 4, 0⟩)).hitPlatform = true ∧
      (updateProjectile {} sampleTargets (1 / 10)
        (projectileAt ⟨29 / 10, -1 / 20, 1⟩ ⟨1, 4, 0⟩)).projectile.transform.translation
        = ⟨3, 1 / 5, 1⟩ ∧
      (updateProjectile {} sampleTargets (1 / 10)
        (projectileAt ⟨29 / 10, -1 / 20, 1⟩ ⟨1, 4, 0⟩)).projectile.transform.rotation
        = ⟨4 / 5, 7 / 5, 0⟩ ∧
      (7 / 5 : ℚ) ≠ |(5 / 2 : ℚ)| * ({} : KeyboardMovementController).bounceDamping := by
  have hfree : (updateProjectile {} [] (1 / 10)
      (projectileAt ⟨29 / 10, -1 / 20, 1⟩ ⟨1, 4, 0⟩)).projectile.transform.rotation
      = ⟨1, 5 / 2, 0⟩ := by
    norm_num [updateProjectile, projectileAt, collideWithObjects, Vec3.add, Vec3.smul]
  have hpos : (updateProjectile {} [] (1 / 10)
      (projectileAt ⟨29 / 10, -1 / 20, 1⟩ ⟨1, 4, 0⟩)).projectile.transform.translation
      = ⟨3, 1 / 5, 1⟩ := by
    norm_num [updateProjectile, projectileAt, collideWithObjects, Vec3.add, Vec3.smul]
  have hhit : ∃ kv ∈ sampleTargets, kv.2.model.isSome = true ∧
      withinBounds (updateProjectile {} sampleTargets (1 / 10)
        (projectileAt ⟨29 / 10, -1 / 20, 1⟩ ⟨1, 4, 0⟩)).projectile.transform.translation
        kv.2.transform.translation kv.2.transform.scale = true := by
    refine ⟨_, List.mem_cons_self _ _, rfl, ?_⟩
    rw [(updateProjectile_entities _ _ _ _).2, hpos]
    norm_num [withinBounds]
  obtain ⟨h1, h2, h3, h4, -⟩ := updateProjectile_of_hit {} sampleTargets (1 / 10)
    (projectileAt ⟨29 / 10, -1 / 20, 1⟩ ⟨1, 4, 0⟩) hhit
  refine ⟨hfree, ?_, h3, ?_, ?_, ?_⟩
  · show decide (_ ≤ _) = false
    norm_num [projectileAt, Vec3.add, Vec3.smul]
  · rw [h4, hpos]
  · rw [h1, hfree]
    simp only [Vec3.mk.injEq]
    refine ⟨by norm_num, ?_, by norm_num⟩
    rw [intAbs_floatToInt _ (by norm_num) (by norm_num)]
    have : ⌊|(5 / 2 : ℚ)|⌋ = 2 := by
      rw [abs_of_pos (by norm_num), Int.floor_eq_iff]
      norm_num
    rw [this]
    norm_num
  · rw [abs_of_pos (by norm_num : (0 : ℚ) < 5 / 2)]
    norm_num

/-- The `drawFrame` of a frame with one out-of-date result, with the window of
non-zero size and not marked resized: the call returns with the swap chain, the
pipeline and the command buffers rebuilt from the inputs of the recreation. -/
theorem drawFrame_of_oneOutOfDate_rebuilt (r : RenderState) (f : RenderFrame)
    (hf : f.oneOutOfDate) (hres : r.lveWindow.framebufferResized = false)
    (hw : r.lveWindow.width ≠ 0) (hh : r.lveWindow.height ≠ 0) :
    f.game.drawFrame r f.input = (Outcome.returned (r.rebuilt f.input.recreate), outOfDateEvents f) := by
  obtain ⟨-, hcase, hs, hp, ha⟩ := hf
  have hwin : r.lveWindow.resetWindowResizedFlag = r.lveWindow := by
    unfold ve_window.resetWindowResizedFlag
    rw [← hres]
  rcases hcase with hO | ⟨hA, hb, he, hsub⟩
  · rw [drawFrame_of_acquire_out_of_date f.game r f.input hO,
      recreateSwapChain_of_success r f.input.recreate hw hh hs hp (Or.inl ha)]
    refine Prod.ext rfl ?_
    simp [outOfDateEvents, hO]
  · have hO : f.input.acquireResult ≠ VK_ERROR_OUT_OF_DATE_KHR := by rw [hA]; decide
    rw [drawFrame_of_recorded f.game r f.input (Or.inl hA) hb he, if_pos (Or.inl hsub), hwin,
      recreateSwapChain_of_success r f.input.recreate hw hh hs hp (Or.inl ha)]
    refine Prod.ext rfl ?_
    simp [outOfDateEvents, hO, normalEvents]

/-- C13: for every sequence of frames in which exactly one acquire or present result
is out-of-date (on the frame `fk`), every other result is success and the window is
never marked resized, so that it is the window as constructed: every `drawFrame` call
returns; the frames before `fk` leave the swap chain, the pipeline and the command
buffers as they were; the call of `fk` replaces the swap chain by a new one with the
image count that the recreation reports and the extent of the window, builds the
pipeline for it and reallocates the command buffers if their number differs from the
image count; the later frames leave this state as it is; among the calls of all frames
there is exactly one swap-chain recreation; at most one frame, the affected one, is
left unsubmitted; every frame before and after it is acquired, recorded and submitted
without recreation. -/
theorem C13_one_out_of_date_one_recreation (r : RenderState) (pre post : List RenderFrame)
    (fk : RenderFrame) (hwindow : r.lveWindow = SimpleGame.lveWindow)
    (hpre : ∀ f ∈ pre, f.allSuccess) (hk : fk.oneOutOfDate)
    (hpost : ∀ f ∈ post, f.allSuccess) :
    (drawFrames r pre).1 = Outcome.returned r ∧
      (drawFrames r (pre ++ [fk])).1 = Outcome.returned (r.rebuilt fk.input.recreate) ∧
      (drawFrames r (pre ++ fk :: post)).1 = Outcome.returned (r.rebuilt fk.input.recreate) ∧
      (r.rebuilt fk.input.recreate).lveSwapChain =
        some { imageCount := fk.input.recreate.imageCount, extent := ⟨WIDTH, HEIGHT⟩ } ∧
      (r.rebuilt fk.input.recreate).lvePipeline = (r.rebuilt fk.input.recreate).lveSwapChain ∧
      (fk.input.recreate.imageCount = r.commandBuffers →
        (r.rebuilt fk.input.recreate).commandBuffers = r.commandBuffers) ∧
      (r.lveSwapChain.isSome = true → fk.input.recreate.imageCount ≠ r.commandBuffers →
        (r.rebuilt fk.input.recreate).commandBuffers = fk.input.recreate.imageCount) ∧
      (drawFrames r (pre ++ fk :: post)).2 =
        pre.map normalEvents ++ outOfDateEvents fk :: post.map normalEvents ∧
      (drawFrames r (pre ++ fk :: post)).2.flatten.count DrawEvent.recreateSwapChain = 1 ∧
      ((drawFrames r (pre ++ fk :: post)).2.filter
        (fun events => !events.any DrawEvent.isSubmit)).length ≤ 1 ∧
      (∀ (j : Nat) (f : RenderFrame), post[j]? = some f →
        (drawFrames r (pre ++ fk :: post)).2[pre.length + 1 + j]? = some (normalEvents f)) := by
  have hres : r.lveWindow.framebufferResized = false := by rw [hwindow]; rfl
  have hw : r.lveWindow.width ≠ 0 := by rw [hwindow]; decide
  have hh : r.lveWindow.height ≠ 0 := by rw [hwindow]; decide
  have hd := drawFrame_of_oneOutOfDate_rebuilt r fk hk hres hw hh
  have hd' : fk.game.drawFrame { r with lveWindow := r.lveWindow.deliver fk.polled } fk.input
      = (Outcome.returned (r.rebuilt fk.input.recreate), outOfDateEvents fk) := by
    rw [hk.1, deliver_nil, hd]
  have hres' : (r.rebuilt fk.input.recreate).lveWindow.framebufferResized = false := hres
  have hpreRun := drawFrames_of_allSuccess pre r hpre hres
  have hall : drawFrames r (pre ++ fk :: post) =
      (Outcome.returned (r.rebuilt fk.input.recreate),
        pre.map normalEvents ++ outOfDateEvents fk :: post.map normalEvents) := by
    rw [drawFrames_append pre (fk :: post) r r _ hpreRun,
      drawFrames_cons_of_returned r _ fk post _ hd',
      drawFrames_of_allSuccess post _ hpost hres']
  have hone : drawFrames r (pre ++ [fk]) =
      (Outcome.returned (r.rebuilt fk.input.recreate),
        pre.map normalEvents ++ [outOfDateEvents fk]) := by
    rw [drawFrames_append pre [fk] r r _ hpreRun,
      drawFrames_cons_of_returned r _ fk [] _ hd']
    rfl
  rw [hall, hone, hpreRun]
  refine ⟨rfl, rfl, rfl, ?_, rfl, ?_, ?_, rfl, ?_, ?_, ?_⟩
  · show some (LveSwapChain.mk _ r.lveWindow.getExtent) = _
    rw [hwindow]
    rfl
  · intro heq
    show (if r.lveSwapChain.isSome && decide (fk.input.recreate.imageCount ≠ r.commandBuffers)
      then fk.input.recreate.imageCount else r.commandBuffers) = _
    rw [if_neg (by simp [heq])]
  · intro hsome hne
    show (if r.lveSwapChain.isSome && decide (fk.input.recreate.imageCount ≠ r.commandBuffers)
      then fk.input.recreate.imageCount else r.commandBuffers) = _
    rw [if_pos (by simp [hsome, hne])]
  · show (pre.map normalEvents ++ outOfDateEvents fk :: post.map normalEvents).flatten.count _ = 1
    rw [List.flatten_append, List.flatten_cons, List.count_append, List.count_append,
      (map_normalEvents_facts pre).1, (map_normalEvents_facts post).1, outOfDateEvents_count]
  · show ((pre.map normalEvents ++ outOfDateEvents fk :: post.map normalEvents).filter _).length ≤ 1
    rw [List.filter_append, (map_normalEvents_facts pre).2, List.nil_append, List.filter_cons]
    split_ifs
    · rw [(map_normalEvents_facts post).2]; simp
    · rw [(map_normalEvents_facts post).2]; simp
  · intro j f hj
    show (pre.map normalEvents ++ outOfDateEvents fk :: post.map normalEvents)[pre.length + 1 + j]?
      = _
    rw [List.getElem?_append_right (by simp; omega)]
    have : pre.length + 1 + j - (pre.map normalEvents).length = j + 1 := by simp; omega
    rw [this, List.getElem?_cons_succ, List.getElem?_map, hj]
    rfl

/-- Witness of C13: a successful frame, a frame whose present result is out-of-date
and whose recreation reports three images, and a successful frame, drawn from the
sample render state with its two images and two command buffers: the drawing ends with
a swap chain of three images, the pipeline built for it and three command buffers,
after exactly one recreation. -/
theorem C13_one_out_of_date_one_recreation_witness :
    sampleRender.lveWindow = SimpleGame.lveWindow ∧ outOfDateFrame.oneOutOfDate ∧
      (drawFrames sampleRender
        ([renderFrameWith VK_SUCCESS VK_SUCCESS] ++
          outOfDateFrame :: [renderFrameWith VK_SUCCESS VK_SUCCESS])).1 =
        Outcome.returned
          { lveWindow := { width := 900, height := 660 }
            lveSwapChain := some { imageCount := 3, extent := ⟨900, 660⟩ }
            lvePipeline := some { imageCount := 3, extent := ⟨900, 660⟩ }
            commandBuffers := 3 } ∧
      (drawFrames sampleRender
        ([renderFrameWith VK_SUCCESS VK_SUCCESS] ++
          outOfDateFrame :: [renderFrameWith VK_SUCCESS VK_SUCCESS])).2.flatten.count
        DrawEvent.recreateSwapChain = 1 :=
  have hs : (renderFrameWith VK_SUCCESS VK_SUCCESS).allSuccess :=
    ⟨rfl, rfl, rfl, rfl, rfl⟩
  have hk : outOfDateFrame.oneOutOfDate :=
    ⟨rfl, Or.inr ⟨rfl, rfl, rfl, rfl⟩, rfl, rfl, rfl⟩
  have hall : ∀ f ∈ [renderFrameWith VK_SUCCESS VK_SUCCESS], f.allSuccess := by
    intro f hf
    rw [List.mem_singleton.mp hf]
    exact hs
  have h := C13_one_out_of_date_one_recreation sampleRender
    [renderFrameWith VK_SUCCESS VK_SUCCESS] [renderFrameWith VK_SUCCESS VK_SUCCESS]
    outOfDateFrame rfl hall hk hall
  ⟨rfl, hk, h.2.2.1.trans (by decide), h.2.2.2.2.2.2.2.2.1⟩

end lve
